import Mathlib

/-!
# Dominator RPC facade: status translation and pagination

A shallow embedding of

* `lib/errors/types.go`: the seven typed errors, their `Error()` text and `GRPCCode()`;
* `lib/grpc/errors.go`: `CodedError`, `ErrorToStatus`, `containsAny`;
* `fleetmanager/rpcd/listVMsInLocation.go`: the pagination of the gRPC
  `ListVMsInLocation` handler;
* `lib/grpc/common_converters.go`, `lib/grpc/api.go`, `lib/grpc/interceptors.go` and
  `lib/srpc/auth.go`: the tag converters, `Conn`, the auth interceptors and the identity
  extraction;
* `hypervisor/rpcd` and `fleetmanager/rpcd`: the conversion and validation of `CreateVmAsync`,
  the paired SRPC and gRPC handlers of the mutating methods, `DestroyVm`, `ListVMs` and the
  `GetUpdates` loops;

together with the parts of the Go standard library and of `google.golang.org/grpc`
those functions call (`errors.As`, `errors.Join`, `strings.ToLower`, `strings.Contains`,
`fmt.Sscanf`/`fmt.Sprintf` with `%d`, `status.Error`).

Go strings are Lean `String`s (valid UTF-8 text), the Go `nil` error is `none`.
-/

namespace Dominator

/-! ## `google.golang.org/grpc/codes` and `status` -/

/-- The gRPC status codes of `google.golang.org/grpc/codes`, in numeric order (0..16). -/
inductive Code
  | OK | Canceled | Unknown | InvalidArgument | DeadlineExceeded | NotFound | AlreadyExists
  | PermissionDenied | ResourceExhausted | FailedPrecondition | Aborted | OutOfRange
  | Unimplemented | Internal | Unavailable | DataLoss | Unauthenticated
deriving DecidableEq, Repr

/-- A gRPC status error: what `status.FromError` recovers from the error `status.Error` made. -/
structure Status where
  code : Code
  message : String
deriving DecidableEq, Repr

/-- The call `status.Error(c, msg)`, that is `status.New(c, msg).Err()`: a status error carrying
`c` and `msg`, and the nil error when `c` is `codes.OK`. -/
def statusError (c : Code) (msg : String) : Option Status :=
  if c = Code.OK then none else some { code := c, message := msg }

/-! ## `lib/errors/types.go` -/

/-- NotFoundError indicates a resource was not found. -/
structure NotFoundError where
  Resource : String
  ID : String
deriving DecidableEq, Repr

def NotFoundError.Error (e : NotFoundError) : String :=
  if e.ID ≠ "" then e.Resource ++ " " ++ e.ID ++ " not found"
  else e.Resource ++ " not found"

def NotFoundError.GRPCCode (_e : NotFoundError) : Code := Code.NotFound

/-- PermissionDeniedError indicates the caller lacks permission for an operation. -/
structure PermissionDeniedError where
  Resource : String
  Action : String
  Reason : String
deriving DecidableEq, Repr

def PermissionDeniedError.Error (e : PermissionDeniedError) : String :=
  if e.Reason ≠ "" then
    "permission denied: " ++ e.Action ++ " on " ++ e.Resource ++ ": " ++ e.Reason
  else "permission denied: " ++ e.Action ++ " on " ++ e.Resource

def PermissionDeniedError.GRPCCode (_e : PermissionDeniedError) : Code := Code.PermissionDenied

/-- UnauthenticatedError indicates the caller is not authenticated. -/
structure UnauthenticatedError where
  Message : String
deriving DecidableEq, Repr

def UnauthenticatedError.Error (e : UnauthenticatedError) : String :=
  if e.Message ≠ "" then "unauthenticated: " ++ e.Message
  else "unauthenticated"

def UnauthenticatedError.GRPCCode (_e : UnauthenticatedError) : Code := Code.Unauthenticated

/-- AlreadyExistsError indicates a resource already exists. -/
structure AlreadyExistsError where
  Resource : String
  ID : String
deriving DecidableEq, Repr

def AlreadyExistsError.Error (e : AlreadyExistsError) : String :=
  if e.ID ≠ "" then e.Resource ++ " " ++ e.ID ++ " already exists"
  else e.Resource ++ " already exists"

def AlreadyExistsError.GRPCCode (_e : AlreadyExistsError) : Code := Code.AlreadyExists

/-- InvalidArgumentError indicates an invalid argument was provided. -/
structure InvalidArgumentError where
  Argument : String
  Reason : String
deriving DecidableEq, Repr

def InvalidArgumentError.Error (e : InvalidArgumentError) : String :=
  if e.Reason ≠ "" then "invalid argument " ++ e.Argument ++ ": " ++ e.Reason
  else "invalid argument: " ++ e.Argument

def InvalidArgumentError.GRPCCode (_e : InvalidArgumentError) : Code := Code.InvalidArgument

/-- UnavailableError indicates a service or resource is temporarily unavailable. -/
structure UnavailableError where
  Service : String
  Reason : String
deriving DecidableEq, Repr

def UnavailableError.Error (e : UnavailableError) : String :=
  if e.Reason ≠ "" then e.Service ++ " unavailable: " ++ e.Reason
  else e.Service ++ " unavailable"

def UnavailableError.GRPCCode (_e : UnavailableError) : Code := Code.Unavailable

/-- DeadlineExceededError indicates an operation timed out. -/
structure DeadlineExceededError where
  Operation : String
  Timeout : String
deriving DecidableEq, Repr

def DeadlineExceededError.Error (e : DeadlineExceededError) : String :=
  if e.Timeout ≠ "" then e.Operation ++ " exceeded deadline of " ++ e.Timeout
  else e.Operation ++ " exceeded deadline"

def DeadlineExceededError.GRPCCode (_e : DeadlineExceededError) : Code := Code.DeadlineExceeded

/-- The seven typed errors of `lib/errors`, as one sum: a value is a (non-nil) pointer to one of
the seven structs, the form every `New...Error` constructor returns. -/
inductive TypedError
  | notFound (e : NotFoundError)
  | permissionDenied (e : PermissionDeniedError)
  | unauthenticated (e : UnauthenticatedError)
  | alreadyExists (e : AlreadyExistsError)
  | invalidArgument (e : InvalidArgumentError)
  | unavailable (e : UnavailableError)
  | deadlineExceeded (e : DeadlineExceededError)
deriving DecidableEq, Repr

/-- Method dispatch of `Error()` on a typed error. -/
def TypedError.Error : TypedError → String
  | .notFound e => e.Error
  | .permissionDenied e => e.Error
  | .unauthenticated e => e.Error
  | .alreadyExists e => e.Error
  | .invalidArgument e => e.Error
  | .unavailable e => e.Error
  | .deadlineExceeded e => e.Error

/-- Method dispatch of `GRPCCode()` on a typed error. -/
def TypedError.GRPCCode : TypedError → Code
  | .notFound e => e.GRPCCode
  | .permissionDenied e => e.GRPCCode
  | .unauthenticated e => e.GRPCCode
  | .alreadyExists e => e.GRPCCode
  | .invalidArgument e => e.GRPCCode
  | .unavailable e => e.GRPCCode
  | .deadlineExceeded e => e.GRPCCode

/-! ## `lib/grpc/errors.go`: `CodedError` and the Go error values -/

/-- The values of interface type `CodedError` (`GRPCCode() codes.Code`): the seven typed errors of
`lib/errors`, and any other error type that has the method (`foreign`, with the code its method
returns and the text its `Error()` returns). -/
inductive CodedError
  | typed (e : TypedError)
  | foreign (code : Code) (msg : String)
deriving DecidableEq, Repr

def CodedError.GRPCCode : CodedError → Code
  | .typed e => e.GRPCCode
  | .foreign code _ => code

def CodedError.Error : CodedError → String
  | .typed e => e.Error
  | .foreign _ msg => msg

/-- Non-nil Go `error` values, as far as `ErrorToStatus` can tell them apart:

* `errorString s`: an error with no `GRPCCode` and no `Unwrap` method (`errors.New(s)`,
  `fmt.Errorf` without `%w`);
* `coded e`: an error that implements `CodedError`;
* `wrapError msg err`: a wrapper with `Unwrap() error` returning `err` (the struct
  `fmt.Errorf` builds for one `%w`: its text `msg` is fixed when it is built);
* `wrapErrors msg errs`: a wrapper with `Unwrap() []error` returning `errs` (the struct
  `fmt.Errorf` builds for several `%w`);
* `joinError errs`: the result of `errors.Join`, with `Unwrap() []error` returning `errs`
  (`Join` has already discarded the nil values). -/
inductive GoError
  | errorString (s : String)
  | coded (e : CodedError)
  | wrapError (msg : String) (err : GoError)
  | wrapErrors (msg : String) (errs : List GoError)
  | joinError (errs : List GoError)

mutual
/-- The method `Error()`. -/
def GoError.Error : GoError → String
  | .errorString s => s
  | .coded e => e.Error
  | .wrapError msg _ => msg
  | .wrapErrors msg _ => msg
  | .joinError errs => joinLoop errs 0 ""
/-- The loop of `(*joinError).Error`: the texts of `errs`, a newline before every one but the
first (`i` is the loop index, `b` the buffer). -/
def joinLoop : List GoError → Nat → String → String
  | [], _, b => b
  | err :: rest, i, b =>
    joinLoop rest (i + 1) ((if i > 0 then b ++ "\n" else b) ++ err.Error)
end

mutual
/-- The call `errors.As(err, &codedErr)` for a target of type `CodedError`: `some e` when it
returns true having set the target to `e`, `none` when it returns false. The error itself is
tried first, then what `Unwrap` returns, depth first and in order. -/
def errorsAs : GoError → Option CodedError
  | .errorString _ => none
  | .coded e => some e
  | .wrapError _ err => errorsAs err
  | .wrapErrors _ errs => errorsAsList errs
  | .joinError errs => errorsAsList errs
/-- The loop of `errors.As` over `Unwrap() []error`. -/
def errorsAsList : List GoError → Option CodedError
  | [] => none
  | err :: rest =>
    match errorsAs err with
    | some e => some e
    | none => errorsAsList rest
end

/-! ## `strings.ToLower`, `strings.Contains` -/

/-- The rune map of `strings.ToLower` (`unicode.ToLower`), exact on every rune whose lower case
is an ASCII letter: `A`..`Z`, U+212A KELVIN SIGN and U+0130. Every other rune has its lower
case outside ASCII; it is left as it is, which changes no search for an ASCII phrase. -/
def unicodeToLower (r : Char) : Char :=
  if 'A' ≤ r ∧ r ≤ 'Z' then Char.ofNat (r.toNat + 32)
  else if r = Char.ofNat 0x212A then 'k'
  else if r = Char.ofNat 0x0130 then 'i'
  else r

/-- The function `strings.ToLower`. -/
def stringsToLower (s : String) : String := String.mk (s.data.map unicodeToLower)

/-- Whether `substr` occurs in `s` at some position (on the runes of both). -/
def runesContain : List Char → List Char → Bool
  | [], substr => substr.isEmpty
  | c :: cs, substr => substr.isPrefixOf (c :: cs) || runesContain cs substr

/-- The function `strings.Contains`. -/
def stringsContains (s substr : String) : Bool := runesContain s.data substr.data

/-! ## `lib/grpc/errors.go`: `ErrorToStatus` -/

/-- The loop of `containsAny` over `substrings`, `lower` being the lower-cased string. -/
def containsAnyLoop (lower : String) : List String → Bool
  | [] => false
  | substr :: rest => if stringsContains lower substr then true else containsAnyLoop lower rest

/-- containsAny checks if the string contains any of the substrings (case-insensitive). -/
def containsAny (s : String) (substrings : List String) : Bool :=
  containsAnyLoop (stringsToLower s) substrings

/-- One entry of the table `patternMappings`. -/
structure PatternMapping where
  patterns : List String
  code : Code
deriving DecidableEq, Repr

/-- The table `patternMappings` of `ErrorToStatus`. -/
def patternMappings : List PatternMapping :=
  [ { patterns := ["not found", "does not exist", "no such", "unknown"], code := Code.NotFound },
    { patterns := ["permission denied", "access denied", "forbidden"],
      code := Code.PermissionDenied },
    { patterns := ["unauthenticated", "not authenticated", "authentication required"],
      code := Code.Unauthenticated },
    { patterns := ["already exists", "duplicate", "conflict"], code := Code.AlreadyExists },
    { patterns := ["invalid", "malformed", "bad request", "illegal"],
      code := Code.InvalidArgument },
    { patterns := ["unavailable", "service down", "connection refused"],
      code := Code.Unavailable },
    { patterns := ["timeout", "deadline exceeded", "timed out"],
      code := Code.DeadlineExceeded } ]

/-- The loop of `ErrorToStatus` over the pattern mappings, with the statement after it: the
first mapping one of whose patterns `msg` contains decides the code, and `codes.Internal` is
the default. -/
def matchPatterns (msg : String) : List PatternMapping → Option Status
  | [] => statusError Code.Internal msg
  | mapping :: rest =>
    if containsAny msg mapping.patterns then statusError mapping.code msg
    else matchPatterns msg rest

/-- ErrorToStatus converts internal errors to appropriate gRPC status codes: the code of the
`CodedError` found by `errors.As` if there is one, pattern matching on the message if not.
The message of the status is `err.Error()` on both paths. -/
def ErrorToStatus : Option GoError → Option Status
  | none => none
  | some err =>
    match errorsAs err with
    | some codedErr => statusError codedErr.GRPCCode err.Error
    | none => matchPatterns err.Error patternMappings

/-! ## The chain of an error (package `errors`) -/

mutual
/-- The chain (tree) of an error as package `errors` defines it: the error itself, followed by
the chains of the errors its `Unwrap` method returns, depth first and in order. -/
def GoError.chain : GoError → List GoError
  | .errorString s => [.errorString s]
  | .coded e => [.coded e]
  | .wrapError msg err => .wrapError msg err :: err.chain
  | .wrapErrors msg errs => .wrapErrors msg errs :: chainList errs
  | .joinError errs => .joinError errs :: chainList errs
/-- The chains of a list of errors, one after the other. -/
def chainList : List GoError → List GoError
  | [] => []
  | err :: rest => err.chain ++ chainList rest
end

/-- The value an error has as a `CodedError`, if its type implements the interface. -/
def GoError.asCoded : GoError → Option CodedError
  | .coded e => some e
  | _ => none

/-- The coded errors of the chain of `err`, in chain order. -/
def chainCoded (err : GoError) : List CodedError := err.chain.filterMap GoError.asCoded

/-- The typed errors (of the seven kinds of `lib/errors`) of the chain of `err`, in chain
order. -/
def chainTyped (err : GoError) : List TypedError :=
  (chainCoded err).filterMap (fun c => match c with | .typed t => some t | .foreign _ _ => none)

/-- Whether a coded error is one of the seven typed errors of `lib/errors`. -/
def CodedError.isTyped : CodedError → Bool
  | .typed _ => true
  | .foreign _ _ => false

/-- The chain of `err` holds no coded error other than typed errors of the seven kinds. -/
def onlyTypedCoded (err : GoError) : Prop := ∀ c ∈ chainCoded err, c.isTyped = true

/-- The message `msg` matches the mapping `m`: one of the patterns of `m` is a substring of the
lower-cased message. -/
def PatternMapping.Matches (m : PatternMapping) (msg : String) : Prop :=
  ∃ p ∈ m.patterns, p.data <:+: (stringsToLower msg).data

/-! ## `fmt.Sscanf` and `fmt.Sprintf` with the verb `%d` -/

/-- The largest and smallest values of the Go type `int` (64 bits). -/
def MaxInt : Int := 9223372036854775807

def MinInt : Int := -9223372036854775808

/-- The value an `int` holds after an addition or subtraction whose exact result is `x`
(two's complement, 64 bits). -/
def wrapInt (x : Int) : Int := (x + 9223372036854775808) % 18446744073709551616 - 9223372036854775808

/-- The table `space` of package `fmt` (`isSpace`). -/
def isSpace (r : Char) : Bool :=
  let n := r.toNat
  (0x0009 ≤ n && n ≤ 0x000d) || n == 0x0020 || n == 0x0085 || n == 0x00a0 || n == 0x1680 ||
  (0x2000 ≤ n && n ≤ 0x200a) || (0x2028 ≤ n && n ≤ 0x2029) || n == 0x202f || n == 0x205f ||
  n == 0x3000

/-- The method `(*ss).SkipSpace` as `Sscanf` runs it (newlines are not spaces): the input left
after the leading spaces, `none` for the error "unexpected newline". -/
def skipSpace : List Char → Option (List Char)
  | [] => some []
  | r :: rest =>
    if r = '\r' ∧ rest.head? = some '\n' then skipSpace rest
    else if r = '\n' then none
    else if isSpace r then skipSpace rest
    else some (r :: rest)

/-- Membership in the digit set `"0123456789_"` that `scanNumber` accepts for base 10. -/
def isScanDigit (c : Char) : Bool := c.isDigit || c = '_'

/-- The digit loop of `strconv.ParseUint` in base 10 (`acc` is the value so far): `none` for a
syntax error, which any character other than `0`..`9` is (the underscore included, the base
being given). -/
def parseDigits : List Char → Nat → Option Nat
  | [], acc => some acc
  | c :: cs, acc => if c.isDigit then parseDigits cs (acc * 10 + (c.toNat - 48)) else none

/-- The call `fmt.Sscanf(str, "%d", &offset)` for an `int` target: `some i` when it returns a
nil error having stored `i`, `none` when it returns an error. Leading spaces are skipped, a sign
is accepted, the longest run of digit characters is the token, `strconv.ParseInt(tok, 10, 64)`
gives the value, and the input after the token is not looked at. -/
def sscanfInt (str : String) : Option Int :=
  match skipSpace str.data with
  | none => none
  | some [] => none
  | some (c :: cs) =>
    let neg := c = '-'
    let rest := if c = '+' ∨ c = '-' then cs else c :: cs
    let tok := rest.takeWhile isScanDigit
    if tok = [] then none
    else
      match parseDigits tok 0 with
      | none => none
      | some un =>
        let i : Int := if neg then -(un : Int) else (un : Int)
        if MinInt ≤ i ∧ i ≤ MaxInt then some i else none

/-- The digit loop of `(*fmt).fmtInteger` in base 10: the digits of `u` put in front of `acc`,
the last digit first (`fuel` bounds the number of digits). -/
def digitsLoop : Nat → Nat → List Char → List Char
  | 0, _, acc => acc
  | fuel + 1, u, acc =>
    if u < 10 then Char.ofNat (48 + u) :: acc
    else digitsLoop fuel (u / 10) (Char.ofNat (48 + u % 10) :: acc)

/-- The decimal digits of `u`. -/
def formatUint (u : Nat) : List Char := digitsLoop (u + 1) u []

/-- The call `fmt.Sprintf("%d", i)`. -/
def sprintfInt (i : Int) : String :=
  if i < 0 then String.mk ('-' :: formatUint i.natAbs) else String.mk (formatUint i.natAbs)

/-! ## `fleetmanager/rpcd/listVMsInLocation.go`: the gRPC handler -/

/-- The type `net.IP`: a slice of bytes. -/
abbrev IP := List UInt8

/-- The largest value of the Go type `int32`. -/
def MaxInt32 : Int := 2147483647

/-- A bound on the length of a slice of `net.IP` values: at 24 bytes an element, the backing
array of a longer slice does not fit in a 64-bit address space. -/
def maxSliceLen : Nat := 1152921504606846976

/-- Five addresses for the paging example `[A, B, C, D, E]`. -/
def ipA : IP := [10, 0, 0, 1]

def ipB : IP := [10, 0, 0, 2]

def ipC : IP := [10, 0, 0, 3]

def ipD : IP := [10, 0, 0, 4]

def ipE : IP := [10, 0, 0, 5]

/-- The pagination fields of `pb.ListVMsInLocationRequest`, a generated message that is not in
the source tree: `PageToken` is a string and `PageSize` a signed integer field that the handler
widens with `int(req.PageSize)`. The theorems take `PageSize` in the range of `int32`. -/
structure ListVMsInLocationRequest where
  PageSize : Int
  PageToken : String
deriving DecidableEq, Repr

/-- The message `pb.ListVMsInLocationResponse` (a nil and an empty `IpAddresses` are both the
empty list). -/
structure ListVMsInLocationResponse where
  IpAddresses : List IP
  NextPageToken : String
deriving DecidableEq, Repr

/-- What a call of a unary gRPC handler does: it returns a response pointer (`none` is nil) and
an error (`none` is nil), or it panics. -/
inductive HandlerResult (α : Type)
  | returned (resp : Option α) (err : Option Status)
  | panicked
deriving DecidableEq, Repr

/-- The slice expression `s[low:high]` on a slice whose capacity is its length: it panics unless
`0 ≤ low ≤ high ≤ len(s)`. -/
def sliceExpr {α : Type} (s : List α) (low high : Int) : Option (List α) :=
  if 0 ≤ low ∧ low ≤ high ∧ high ≤ (s.length : Int) then
    some ((s.drop low.toNat).take (high - low).toNat)
  else none

/-- Lines 74-103 of `listVMsInLocation.go`: the page of `ipAddrs` that starts at `startIdx`. -/
def pageFrom (ipAddrs : List IP) (req : ListVMsInLocationRequest) (startIdx : Int) :
    HandlerResult ListVMsInLocationResponse :=
  let len : Int := (ipAddrs.length : Int)
  -- Determine page size
  let pageSize : Int := if req.PageSize ≤ 0 then wrapInt (len - startIdx) else req.PageSize
  -- Calculate end index
  let endIdx : Int := wrapInt (startIdx + pageSize)
  let nextPageToken : String := if endIdx < len then sprintfInt endIdx else ""
  let endIdx : Int := if endIdx < len then endIdx else len
  -- Convert page of IPs to bytes
  match sliceExpr ipAddrs startIdx endIdx with
  | none => HandlerResult.panicked
  | some pageIPs =>
    HandlerResult.returned
      (some { IpAddresses := pageIPs.map (fun ip => ip), NextPageToken := nextPageToken }) none

/-- The gRPC handler `(*grpcServer).ListVMsInLocation`, as a function of the request and of
what the collaborator call `hypervisorsManager.ListVMsInLocation` returned (`ipAddrs`, `err`).
-/
def grpcServer.ListVMsInLocation (ipAddrs : List IP) (err : Option GoError)
    (req : ListVMsInLocationRequest) : HandlerResult ListVMsInLocationResponse :=
  match err with
  | some e => HandlerResult.returned none (ErrorToStatus (some e))
  | none =>
    -- Handle pagination
    if req.PageToken ≠ "" then
      -- Decode page token (simple integer offset for now)
      match sscanfInt req.PageToken with
      | none =>
        HandlerResult.returned none
          (ErrorToStatus (some (GoError.errorString ("invalid page token: " ++ req.PageToken))))
      | some offset =>
        if offset ≥ (ipAddrs.length : Int) then
          -- Past the end - return empty response
          HandlerResult.returned (some { IpAddresses := [], NextPageToken := "" }) none
        else pageFrom ipAddrs req offset
    else pageFrom ipAddrs req 0

/-! ## `lib/grpc/common_converters.go`: tags -/

/-- The type `tags.Tags`, a `map[string]string`: `none` is the nil map, `some l` a map with the
entries `l` (keys distinct, order immaterial). -/
abbrev tags.Tags := Option (List (String × String))

set_option linter.dupNamespace false

/-- The message `common_grpc.Tags`, with its one field `Tags map[string]string`. -/
structure common_grpc.Tags where
  Tags : Option (List (String × String))
deriving DecidableEq, Repr

/-- TagsFromProto converts protobuf Tags to internal tags.Tags (`pb` is a pointer, `none` is
nil). -/
def TagsFromProto (pb : Option common_grpc.Tags) : tags.Tags :=
  match pb with
  | none => none
  | some m =>
    match m.Tags with
    | none => none
    | some t => some t

/-! ## `hypervisor/rpcd/createVm.go` -/

/-- The conversion `uint(x)` of an integer value to the 64-bit type `uint`. -/
def toUint (x : Int) : Nat := (x % 18446744073709551616).toNat

/-- The conversion `uint16(x)`. -/
def toUint16 (x : Int) : Nat := (x % 65536).toNat

/-- The type `hypervisor.NetworkEntry` as the comment in `networkEntryFromProto` describes it
(its declaration is not in the source tree): `NumQueues` is its only field. -/
structure hypervisor.NetworkEntry where
  NumQueues : Nat
deriving DecidableEq, Repr

/-- The zero value `proto.NetworkEntry{}`. -/
def hypervisor.NetworkEntry.zero : hypervisor.NetworkEntry := { NumQueues := 0 }

/-- The type `hypervisor.Address`, with the fields `addressFromProto` sets. -/
structure hypervisor.Address where
  IpAddress : Option (List UInt8)
  MacAddress : String
deriving DecidableEq, Repr

def hypervisor.Address.zero : hypervisor.Address := { IpAddress := none, MacAddress := "" }

/-- The message `pb.Address`. -/
structure hypervisor_grpc.Address where
  IpAddress : Option (List UInt8)
  MacAddress : String
deriving DecidableEq, Repr

/-- The type `hypervisor.Volume`, with the fields `volumeFromProto` sets (`VolumeType` is the
field `Type`). -/
structure hypervisor.Volume where
  Format : Nat
  Interface : Nat
  Size : Nat
  Snapshots : Option (List (String × Nat))
  VolumeType : Nat
  VirtualSize : Nat
deriving DecidableEq, Repr

def hypervisor.Volume.zero : hypervisor.Volume :=
  { Format := 0, Interface := 0, Size := 0, Snapshots := none, VolumeType := 0, VirtualSize := 0 }

/-- The message `pb.Volume` (the enumerations are `int32` values). -/
structure hypervisor_grpc.Volume where
  Format : Int
  Interface : Int
  Size : Nat
  Snapshots : Option (List (String × Nat))
  VolumeType : Int
  VirtualSize : Nat
deriving DecidableEq, Repr

/-- The type `hypervisor.VolumeInitialisationInfo`. -/
structure hypervisor.VolumeInitialisationInfo where
  BytesPerInode : Nat
  Label : String
  ReservedBlocksPercentage : Nat
deriving DecidableEq, Repr

/-- The message `pb.VolumeInitialisationInfo`. -/
structure hypervisor_grpc.VolumeInitialisationInfo where
  BytesPerInode : Nat
  Label : String
  ReservedBlocksPercentage : Nat
deriving DecidableEq, Repr

/-- The fields of `hypervisor.VmInfo` that `createVmAsyncRequestFromProto` sets, and the fields
`Address` and `State` that the asynchronous handlers log (the struct is declared outside the
source tree; its other fields keep their zero value). Slices and maps are `Option`s, `none`
being nil. -/
structure hypervisor.VmInfo where
  Address : hypervisor.Address
  ConsoleType : Nat
  CpuPriority : Int
  DestroyOnPowerdown : Bool
  DestroyProtection : Bool
  DisableVirtIO : Bool
  ExtraKernelOptions : String
  FirmwareType : Nat
  Hostname : String
  ImageName : String
  ImageURL : String
  MachineType : Nat
  MemoryInMiB : Nat
  MilliCPUs : Nat
  NetworkEntries : Option (List hypervisor.NetworkEntry)
  OwnerGroups : Option (List String)
  OwnerUsers : Option (List String)
  SecondaryAddresses : Option (List hypervisor.Address)
  SecondarySubnetIDs : Option (List String)
  SpreadVolumes : Bool
  State : Nat
  SubnetId : String
  Tags : tags.Tags
  VirtualCPUs : Nat
  Volumes : Option (List hypervisor.Volume)
  WatchdogAction : Nat
  WatchdogModel : Nat
deriving DecidableEq, Repr

/-- The type `hypervisor.CreateVmRequest` (declared outside the source tree): the fields the
converter and `validateNoStreamingFields` use. `ImageDataSize` and `UserDataSize` are `uint64`
values, the timeouts are `time.Duration` values (nanoseconds). -/
structure hypervisor.CreateVmRequest where
  DhcpTimeout : Int
  DoNotStart : Bool
  EnableNetboot : Bool
  IdentityCertificate : Option (List UInt8)
  IdentityKey : Option (List UInt8)
  ImageDataSize : Nat
  ImageTimeout : Int
  MinimumFreeBytes : Nat
  OverlayDirectories : Option (List String)
  OverlayFiles : Option (List (String × List UInt8))
  RoundupPower : Nat
  SecondaryVolumes : Option (List hypervisor.Volume)
  SecondaryVolumesData : Bool
  SecondaryVolumesInit : Option (List hypervisor.VolumeInitialisationInfo)
  SkipBootloader : Bool
  SkipMemoryCheck : Bool
  StorageIndices : Option (List Nat)
  UserDataSize : Nat
  VmInfo : hypervisor.VmInfo
deriving DecidableEq, Repr

/-- The message `pb.CreateVmAsyncRequest` (generated code, not in the source tree), with the
fields the converter reads. `NE` is the message type `pb.NetworkEntry`, whose fields the
converter never reads. Unsigned fields are `Nat`, signed fields and enumerations `Int`;
elements of repeated message fields are pointers (`none` is nil), except those of
`SecondaryVolumesInit`: the converter reads their fields without a nil check, and they are
taken non-nil, as the elements of every decoded message are. -/
structure hypervisor_grpc.CreateVmAsyncRequest (NE : Type) where
  DhcpTimeoutNs : Int
  DoNotStart : Bool
  EnableNetboot : Bool
  IdentityCertificate : Option (List UInt8)
  IdentityKey : Option (List UInt8)
  ImageTimeoutNs : Int
  MinimumFreeBytes : Nat
  OverlayDirectories : Option (List String)
  OverlayFiles : Option (List (String × List UInt8))
  RoundupPower : Nat
  SkipBootloader : Bool
  SkipMemoryCheck : Bool
  StorageIndices : Option (List Nat)
  ConsoleType : Int
  CpuPriority : Int
  DestroyOnPowerdown : Bool
  DestroyProtection : Bool
  DisableVirtIo : Bool
  ExtraKernelOptions : String
  FirmwareType : Int
  Hostname : String
  ImageName : String
  ImageUrl : String
  MachineType : Int
  MemoryInMib : Nat
  MilliCpus : Nat
  OwnerGroups : Option (List String)
  OwnerUsers : Option (List String)
  SpreadVolumes : Bool
  SubnetId : String
  Tags : Option common_grpc.Tags
  VirtualCpus : Nat
  WatchdogAction : Int
  WatchdogModel : Int
  NetworkEntries : Option (List (Option NE))
  SecondaryAddresses : Option (List (Option hypervisor_grpc.Address))
  SecondarySubnetIds : Option (List String)
  Volumes : Option (List (Option hypervisor_grpc.Volume))
  SecondaryVolumes : Option (List (Option hypervisor_grpc.Volume))
  SecondaryVolumesInit : Option (List hypervisor_grpc.VolumeInitialisationInfo)

/-- The declared ranges of the integer fields of a `pb.CreateVmAsyncRequest` that the converter
converts with `uint(...)` or `int(...)`: `MilliCpus` and `VirtualCpus` are `uint32` values,
`CpuPriority` is an `int32` value. -/
def hypervisor_grpc.CreateVmAsyncRequest.InRange {NE : Type}
    (req : hypervisor_grpc.CreateVmAsyncRequest NE) : Prop :=
  req.MilliCpus < 4294967296 ∧ req.VirtualCpus < 4294967296 ∧
  -2147483648 ≤ req.CpuPriority ∧ req.CpuPriority ≤ MaxInt32

/-- validateNoStreamingFields validates that streaming-only fields are not used in
CreateVmAsync. Returns Unimplemented status error if any streaming fields are set. -/
def validateNoStreamingFields (request : hypervisor.CreateVmRequest) : Option Status :=
  if request.ImageDataSize > 0 then
    statusError Code.Unimplemented
      "ImageDataSize streaming not supported in CreateVmAsync - use ImageName or ImageURL instead, or use CreateVm streaming API"
  else if request.UserDataSize > 0 then
    statusError Code.Unimplemented
      "UserDataSize streaming not supported in CreateVmAsync - use CreateVm streaming API"
  else if request.SecondaryVolumesData then
    statusError Code.Unimplemented
      "SecondaryVolumesData streaming not supported in CreateVmAsync - use CreateVm streaming API"
  else none

def addressFromProto (a : Option hypervisor_grpc.Address) : hypervisor.Address :=
  match a with
  | none => hypervisor.Address.zero
  | some a => { IpAddress := a.IpAddress, MacAddress := a.MacAddress }

def networkEntryFromProto {NE : Type} (n : Option NE) : hypervisor.NetworkEntry :=
  match n with
  | none => hypervisor.NetworkEntry.zero
  | some _ => hypervisor.NetworkEntry.zero

def volumeFromProto (v : Option hypervisor_grpc.Volume) : hypervisor.Volume :=
  match v with
  | none => hypervisor.Volume.zero
  | some v =>
    { Format := toUint v.Format, Interface := toUint v.Interface, Size := v.Size,
      Snapshots := v.Snapshots, VolumeType := toUint v.VolumeType, VirtualSize := v.VirtualSize }

/-- The pattern `if len(xs) > 0 { out = make(..., len(xs)); for i, x := range xs { out[i] =
f(x) } }` of the converter: nil when `xs` is nil or empty, the converted elements if not. -/
def convertNonEmpty {α β : Type} (f : α → β) (xs : Option (List α)) : Option (List β) :=
  match xs with
  | some (x :: rest) => some ((x :: rest).map f)
  | _ => none

/-- Helper function to convert proto request to SRPC CreateVmRequest: the request pointer and
the error it returns. -/
def createVmAsyncRequestFromProto {NE : Type} (req : hypervisor_grpc.CreateVmAsyncRequest NE) :
    Option hypervisor.CreateVmRequest × Option GoError :=
  (some
    { DhcpTimeout := req.DhcpTimeoutNs
      DoNotStart := req.DoNotStart
      EnableNetboot := req.EnableNetboot
      IdentityCertificate := req.IdentityCertificate
      IdentityKey := req.IdentityKey
      ImageDataSize := 0
      ImageTimeout := req.ImageTimeoutNs
      MinimumFreeBytes := req.MinimumFreeBytes
      OverlayDirectories := req.OverlayDirectories
      OverlayFiles := req.OverlayFiles
      RoundupPower := req.RoundupPower
      SecondaryVolumes := convertNonEmpty volumeFromProto req.SecondaryVolumes
      SecondaryVolumesData := false
      SecondaryVolumesInit :=
        convertNonEmpty
          (fun vinit : hypervisor_grpc.VolumeInitialisationInfo =>
            ({ BytesPerInode := vinit.BytesPerInode, Label := vinit.Label,
               ReservedBlocksPercentage := toUint16 vinit.ReservedBlocksPercentage } :
              hypervisor.VolumeInitialisationInfo))
          req.SecondaryVolumesInit
      SkipBootloader := req.SkipBootloader
      SkipMemoryCheck := req.SkipMemoryCheck
      StorageIndices := some ((req.StorageIndices.getD []).map (fun idx => toUint idx))
      UserDataSize := 0
      VmInfo :=
        { Address := hypervisor.Address.zero
          ConsoleType := toUint req.ConsoleType
          CpuPriority := wrapInt req.CpuPriority
          DestroyOnPowerdown := req.DestroyOnPowerdown
          DestroyProtection := req.DestroyProtection
          DisableVirtIO := req.DisableVirtIo
          ExtraKernelOptions := req.ExtraKernelOptions
          FirmwareType := toUint req.FirmwareType
          Hostname := req.Hostname
          ImageName := req.ImageName
          ImageURL := req.ImageUrl
          MachineType := toUint req.MachineType
          MemoryInMiB := req.MemoryInMib
          MilliCPUs := toUint req.MilliCpus
          NetworkEntries := convertNonEmpty networkEntryFromProto req.NetworkEntries
          OwnerGroups := req.OwnerGroups
          OwnerUsers := req.OwnerUsers
          SecondaryAddresses := convertNonEmpty addressFromProto req.SecondaryAddresses
          SecondarySubnetIDs := req.SecondarySubnetIds
          SpreadVolumes := req.SpreadVolumes
          State := 0
          SubnetId := req.SubnetId
          Tags := TagsFromProto req.Tags
          VirtualCPUs := toUint req.VirtualCpus
          Volumes := convertNonEmpty volumeFromProto req.Volumes
          WatchdogAction := toUint req.WatchdogAction
          WatchdogModel := toUint req.WatchdogModel } },
    none)

/-- The request of `TestCreateVmAsyncRequestFromProto` (30 s and 5 min in nanoseconds, 10 GB);
the fields the test does not set have their zero value. -/
def testCreateVmAsyncRequest : hypervisor_grpc.CreateVmAsyncRequest Unit :=
  { DhcpTimeoutNs := 30000000000
    DoNotStart := true
    EnableNetboot := false
    IdentityCertificate := none
    IdentityKey := none
    ImageTimeoutNs := 300000000000
    MinimumFreeBytes := 10737418240
    OverlayDirectories := none
    OverlayFiles := none
    RoundupPower := 30
    SkipBootloader := false
    SkipMemoryCheck := false
    StorageIndices := none
    ConsoleType := 0
    CpuPriority := 1
    DestroyOnPowerdown := false
    DestroyProtection := true
    DisableVirtIo := false
    ExtraKernelOptions := ""
    FirmwareType := 0
    Hostname := "test-vm"
    ImageName := "test-image"
    ImageUrl := ""
    MachineType := 0
    MemoryInMib := 4096
    MilliCpus := 2000
    OwnerGroups := none
    OwnerUsers := none
    SpreadVolumes := false
    SubnetId := "test-subnet"
    Tags := none
    VirtualCpus := 2
    WatchdogAction := 0
    WatchdogModel := 0
    NetworkEntries := none
    SecondaryAddresses := none
    SecondarySubnetIds := none
    Volumes := none
    SecondaryVolumes := none
    SecondaryVolumesInit := none }

/-- The valid request of `TestValidateNoStreamingFields` ("Valid request with ImageName"); the
fields the test does not set have their zero value. -/
def testCreateVmRequest : hypervisor.CreateVmRequest :=
  { DhcpTimeout := 0
    DoNotStart := false
    EnableNetboot := false
    IdentityCertificate := none
    IdentityKey := none
    ImageDataSize := 0
    ImageTimeout := 0
    MinimumFreeBytes := 0
    OverlayDirectories := none
    OverlayFiles := none
    RoundupPower := 0
    SecondaryVolumes := none
    SecondaryVolumesData := false
    SecondaryVolumesInit := none
    SkipBootloader := false
    SkipMemoryCheck := false
    StorageIndices := none
    UserDataSize := 0
    VmInfo :=
      { Address := hypervisor.Address.zero
        ConsoleType := 0
        CpuPriority := 0
        DestroyOnPowerdown := false
        DestroyProtection := false
        DisableVirtIO := false
        ExtraKernelOptions := ""
        FirmwareType := 0
        Hostname := "test-vm"
        ImageName := "test-image"
        ImageURL := ""
        MachineType := 0
        MemoryInMiB := 1024
        MilliCPUs := 1000
        NetworkEntries := none
        OwnerGroups := none
        OwnerUsers := none
        SecondaryAddresses := none
        SecondarySubnetIDs := none
        SpreadVolumes := false
        State := 0
        SubnetId := ""
        Tags := none
        VirtualCPUs := 0
        Volumes := none
        WatchdogAction := 0
        WatchdogModel := 0 } }

/-! ## `lib/srpc/auth.go` -/

/-- The type `srpc.AuthInformation`, with the fields `GetAuthFromTLS` names (sets of strings are
lists, `none` being the nil map). -/
structure AuthInformation where
  GroupList : Option (List String)
  HaveMethodAccess : Bool
  Username : String
deriving DecidableEq, Repr

/-- What the identity extraction reads in a client certificate: the username and the group
list, `none` when the certificate cannot be parsed for them, and the permitted methods, `none`
when the certificate lists none (all methods permitted). -/
structure Certificate where
  Username : Option String
  GroupList : Option (List String)
  PermittedMethods : Option (List String)
deriving DecidableEq, Repr

/-- The type `tls.ConnectionState`: the verified certificate chains of the peer. -/
structure ConnectionState where
  VerifiedChains : List (List Certificate)
deriving DecidableEq, Repr

/-- The verified peer certificate of a TLS state: the leaf of its first verified chain. -/
def ConnectionState.verifiedPeerCertificate (state : ConnectionState) : Option Certificate :=
  state.VerifiedChains.head?.bind List.head?

/-- The four values a call of `getAuth` returns: username, permitted methods, group list and
error. -/
structure GetAuthResult where
  username : String
  permittedMethods : Option (List String)
  groupList : Option (List String)
  err : Option GoError

/-- Modelled from the spec: the function `getAuth` of `lib/srpc`, which is not in the source
tree. A session lacking any certificate, or presenting a certificate that cannot be parsed for
the username or group-list fields, fails; otherwise the identity is the certificate's username
and group list, and the permitted methods are a secondary derivation from the same certificate
that may be absent. -/
def getAuth (state : ConnectionState) : GetAuthResult :=
  match state.verifiedPeerCertificate with
  | none =>
    { username := "", permittedMethods := none, groupList := none,
      err := some (.errorString "no verified client certificate") }
  | some cert =>
    match cert.Username, cert.GroupList with
    | some username, some groupList =>
      { username := username, permittedMethods := cert.PermittedMethods,
        groupList := some groupList, err := none }
    | _, _ =>
      { username := "", permittedMethods := none, groupList := none,
        err := some (.errorString "cannot parse client certificate") }

/-- GetAuthFromTLS extracts authentication information from a TLS connection state. `authCall`
is the function `getAuth` as this call sees it. The result is the pointer (`none` is nil) and
the error. -/
def GetAuthFromTLS (authCall : ConnectionState → GetAuthResult) (state : ConnectionState) :
    Option AuthInformation × Option GoError :=
  match (authCall state).err with
  | some err => (none, some err)
  | none =>
    (some { Username := (authCall state).username, GroupList := (authCall state).groupList,
            HaveMethodAccess := false }, none)

/-- GetPermittedMethodsFromTLS returns the permitted methods from a TLS connection state.
`permCall` is the function `getAuth` as this call sees it. -/
def GetPermittedMethodsFromTLS (permCall : ConnectionState → GetAuthResult)
    (state : ConnectionState) : Option (List String) × Option GoError :=
  ((permCall state).permittedMethods, (permCall state).err)

/-! ## `lib/grpc/api.go` and `lib/grpc/interceptors.go` -/

/-- Conn represents a gRPC connection with authentication information. -/
structure Conn where
  authInfo : Option AuthInformation
  permittedMethods : Option (List String)
deriving DecidableEq, Repr

/-- GetAuthInformation returns authentication information for the client (the receiver is a
pointer, `none` is nil). -/
def Conn.GetAuthInformation (c : Option Conn) : Option AuthInformation :=
  match c with
  | none => none
  | some c => c.authInfo

/-- GetPermittedMethods returns the methods permitted by the client certificate. Returns nil if
all methods are permitted, empty map if none are permitted. -/
def Conn.GetPermittedMethods (c : Option Conn) : Option (List String) :=
  match c with
  | none => none
  | some c => c.permittedMethods

/-- The values of interface type `credentials.AuthInfo`: a `credentials.TLSInfo` with its
connection state, or a value of another type. -/
inductive PeerAuthInfo
  | TLSInfo (State : ConnectionState)
  | other (authType : String)
deriving DecidableEq, Repr

/-- The type `peer.Peer`: its field `AuthInfo` (`none` is the nil interface). -/
structure Peer where
  AuthInfo : Option PeerAuthInfo
deriving DecidableEq, Repr

/-- A `context.Context`, as far as this package reads it: the peer `peer.FromContext` finds
(`none` when it reports `ok = false`) and the value stored under `connKey` (`none` when
`ctx.Value(connKey)` is nil, `some c` for a stored pointer `c`). -/
structure Context where
  peer : Option Peer
  connValue : Option (Option Conn)
deriving DecidableEq, Repr

/-- The call `context.WithValue(ctx, connKey, conn)`. -/
def Context.WithConn (ctx : Context) (conn : Option Conn) : Context :=
  { ctx with connValue := some conn }

/-- GetConn retrieves the Conn from context. Returns nil if no Conn is present (e.g., if
interceptor wasn't used). -/
def GetConn (ctx : Context) : Option Conn :=
  match ctx.connValue with
  | some v => v
  | none => none

/-- extractConn extracts authentication information from the gRPC peer's TLS state and creates
a Conn. `authCall` and `permCall` are the function `getAuth` as the call inside
`GetAuthFromTLS` and the later call inside `GetPermittedMethodsFromTLS` see it. -/
def extractConn (authCall permCall : ConnectionState → GetAuthResult) (ctx : Context) :
    Option Conn × Option GoError :=
  match ctx.peer with
  | none => (none, some (.errorString "no peer info in context"))
  | some p =>
    match p.AuthInfo with
    | none => (none, some (.errorString "no auth info in peer"))
    | some (.other _) => (none, some (.errorString "peer auth is not TLS"))
    | some (.TLSInfo state) =>
      -- Reuse SRPC's auth extraction from TLS certificates
      match GetAuthFromTLS authCall state with
      | (_, some err) => (none, some err)
      | (authInfo, none) =>
        -- Also get permitted methods if available
        let permittedMethods := (GetPermittedMethodsFromTLS permCall state).1
        (some { authInfo := authInfo, permittedMethods := permittedMethods }, none)

/-- An error a gRPC handler or interceptor returns: one made by `status.Error`, or any other
error. -/
inductive RpcError
  | status (st : Status)
  | plain (err : GoError)

/-- The type `grpc.UnaryServerInfo` / `grpc.StreamServerInfo`: the full method name. -/
structure ServerInfo where
  FullMethod : String
deriving DecidableEq, Repr

/-- What a call of `UnaryAuthInterceptor` does: the calls of the wrapped handler it makes (each
with the context and request it passes), and the response and error it returns. -/
structure UnaryResult (α ρ : Type) where
  handlerCalls : List (Context × α)
  resp : Option ρ
  err : Option RpcError

/-- UnaryAuthInterceptor extracts authentication from TLS client certificates and stores a Conn
in the context for handlers to use. -/
def UnaryAuthInterceptor {α ρ : Type} (authCall permCall : ConnectionState → GetAuthResult)
    (ctx : Context) (req : α) (_info : ServerInfo)
    (handler : Context → α → Option ρ × Option RpcError) : UnaryResult α ρ :=
  match extractConn authCall permCall ctx with
  | (_, some err) =>
    { handlerCalls := [], resp := none,
      err := (statusError Code.Unauthenticated err.Error).map RpcError.status }
  | (conn, none) =>
    let ctx := ctx.WithConn conn
    { handlerCalls := [(ctx, req)], resp := (handler ctx req).1, err := (handler ctx req).2 }

/-- A `grpc.ServerStream`, as far as the interceptor uses it: what `Context()` returns. The
`wrappedStream` of the interceptor is the stream with that context replaced. -/
structure ServerStream where
  ctx : Context
deriving DecidableEq, Repr

/-- What a call of `StreamAuthInterceptor` does: the calls of the wrapped handler it makes (each
with the stream it passes), and the error it returns. -/
structure StreamResult (σ : Type) where
  handlerCalls : List (σ × ServerStream)
  err : Option RpcError

/-- StreamAuthInterceptor extracts authentication from TLS client certificates for streaming
RPCs. It wraps the ServerStream to inject the Conn into context. -/
def StreamAuthInterceptor {σ : Type} (authCall permCall : ConnectionState → GetAuthResult)
    (srv : σ) (ss : ServerStream) (_info : ServerInfo)
    (handler : σ → ServerStream → Option RpcError) : StreamResult σ :=
  match extractConn authCall permCall ss.ctx with
  | (_, some err) =>
    { handlerCalls := [],
      err := (statusError Code.Unauthenticated err.Error).map RpcError.status }
  | (conn, none) =>
    let wrapped : ServerStream := { ctx := ss.ctx.WithConn conn }
    { handlerCalls := [(srv, wrapped)], err := handler srv wrapped }

/-- An example TLS state: one verified chain whose leaf certificate names the user `alice`, the
group `admins` and one permitted method. -/
def exampleTLSState : ConnectionState :=
  { VerifiedChains :=
      [[{ Username := some "alice", GroupList := some ["admins"],
          PermittedMethods := some ["Hypervisor.StopVm"] }]] }

/-- An example context: a peer authenticated with `exampleTLSState`, no `Conn` stored. -/
def exampleContext : Context :=
  { peer := some { AuthInfo := some (.TLSInfo exampleTLSState) }, connValue := none }

/-! ## The paired SRPC and gRPC handlers of the mutating methods -/

/-- ErrorToString converts an error to a string, returning empty string for nil
(`lib/grpc/common_converters.go`). -/
def ErrorToString (err : Option GoError) : String :=
  match err with
  | none => ""
  | some err => err.Error

/-- Modelled from the spec: the function `ErrorToString` of `lib/errors`, which is not in the
source tree (only `types.go` is). The SRPC handlers render the collaborator's error inline in
the `Error` field of the reply with it: the error's message, and the empty string for a nil
error, as its namesake of `lib/grpc` does. -/
def errors.ErrorToString (err : Option GoError) : String :=
  match err with
  | none => ""
  | some err => err.Error

/-- A `*srpc.Conn`, as far as the handlers read it: what `GetAuthInformation()`,
`RemoteAddr()` and `Username()` return. -/
structure srpc.Conn where
  authInfo : Option AuthInformation
  remoteAddr : String
  username : String
deriving DecidableEq, Repr

def srpc.Conn.GetAuthInformation (conn : srpc.Conn) : Option AuthInformation := conn.authInfo

def srpc.Conn.RemoteAddr (conn : srpc.Conn) : String := conn.remoteAddr

def srpc.Conn.Username (conn : srpc.Conn) : String := conn.username

/-- The SRPC response types of the mutating methods (`hypervisor.StopVmResponse`,
`hypervisor.ChangeVmTagsResponse`, `hypervisor.ChangeVmOwnerUsersResponse`,
`hypervisor.ChangeVmSizeResponse`, `fleetmanager.ChangeMachineTagsResponse`,
`fleetmanager.PowerOnMachineResponse`): one field, `Error string`. -/
structure ErrorResponse where
  Error : String
deriving DecidableEq, Repr

/-- The gRPC response messages of the mutating methods (`pb.StopVmResponse` and so on), which
the handlers return empty. -/
structure EmptyResponse where
deriving DecidableEq, Repr

/-- What a call of an SRPC method handler does: the collaborator calls it makes (their
arguments, in order), the reply it stores and the error it returns. -/
structure SrpcCall (κ : Type) where
  calls : List κ
  reply : ErrorResponse
  err : Option GoError

/-- What a call of a unary gRPC handler does: the collaborator calls it makes (their arguments,
in order) and what it returns. -/
structure GrpcCall (κ : Type) where
  calls : List κ
  result : HandlerResult EmptyResponse

structure hypervisor.StopVmRequest where
  AccessToken : List UInt8
  IpAddress : IP
deriving DecidableEq, Repr

structure hypervisor_grpc.StopVmRequest where
  IpAddress : List UInt8
  AccessToken : List UInt8
deriving DecidableEq, Repr

/-- The SRPC handler `StopVm` of `hypervisor/rpcd`; `StopVm` is the collaborator
`t.manager.StopVm`. -/
def hypervisorRpcd.srpcType.StopVm
    (StopVm : IP × Option AuthInformation × List UInt8 → Option GoError)
    (conn : srpc.Conn) (request : hypervisor.StopVmRequest) :
    SrpcCall (IP × Option AuthInformation × List UInt8) :=
  let args := (request.IpAddress, conn.GetAuthInformation, request.AccessToken)
  { calls := [args], reply := { Error := errors.ErrorToString (StopVm args) }, err := none }

/-- The gRPC handler `StopVm` of `hypervisor/rpcd`. -/
def hypervisorRpcd.grpcServer.StopVm
    (StopVm : IP × Option AuthInformation × List UInt8 → Option GoError)
    (ctx : Context) (req : hypervisor_grpc.StopVmRequest) :
    GrpcCall (IP × Option AuthInformation × List UInt8) :=
  let ipAddr : IP := req.IpAddress
  let conn := GetConn ctx
  let args := (ipAddr, Conn.GetAuthInformation conn, req.AccessToken)
  match StopVm args with
  | some err => { calls := [args], result := .returned none (ErrorToStatus (some err)) }
  | none => { calls := [args], result := .returned (some {}) none }

structure hypervisor.ChangeVmTagsRequest where
  IpAddress : IP
  Tags : tags.Tags
deriving DecidableEq, Repr

structure hypervisor_grpc.ChangeVmTagsRequest where
  IpAddress : List UInt8
  Tags : Option common_grpc.Tags
deriving DecidableEq, Repr

/-- The SRPC handler `ChangeVmTags` of `hypervisor/rpcd`. -/
def hypervisorRpcd.srpcType.ChangeVmTags
    (ChangeVmTags : IP × Option AuthInformation × tags.Tags → Option GoError)
    (conn : srpc.Conn) (request : hypervisor.ChangeVmTagsRequest) :
    SrpcCall (IP × Option AuthInformation × tags.Tags) :=
  let args := (request.IpAddress, conn.GetAuthInformation, request.Tags)
  { calls := [args], reply := { Error := errors.ErrorToString (ChangeVmTags args) },
    err := none }

/-- The gRPC handler `ChangeVmTags` of `hypervisor/rpcd`. -/
def hypervisorRpcd.grpcServer.ChangeVmTags
    (ChangeVmTags : IP × Option AuthInformation × tags.Tags → Option GoError)
    (ctx : Context) (req : hypervisor_grpc.ChangeVmTagsRequest) :
    GrpcCall (IP × Option AuthInformation × tags.Tags) :=
  let ipAddr : IP := req.IpAddress
  let tags := TagsFromProto req.Tags
  let conn := GetConn ctx
  let args := (ipAddr, Conn.GetAuthInformation conn, tags)
  match ChangeVmTags args with
  | some err => { calls := [args], result := .returned none (ErrorToStatus (some err)) }
  | none => { calls := [args], result := .returned (some {}) none }

structure hypervisor.ChangeVmOwnerUsersRequest where
  IpAddress : IP
  OwnerUsers : Option (List String)
deriving DecidableEq, Repr

structure hypervisor_grpc.ChangeVmOwnerUsersRequest where
  IpAddress : List UInt8
  OwnerUsers : Option (List String)
deriving DecidableEq, Repr

/-- The SRPC handler `ChangeVmOwnerUsers` of `hypervisor/rpcd`. -/
def hypervisorRpcd.srpcType.ChangeVmOwnerUsers
    (ChangeVmOwnerUsers : IP × Option AuthInformation × Option (List String) → Option GoError)
    (conn : srpc.Conn) (request : hypervisor.ChangeVmOwnerUsersRequest) :
    SrpcCall (IP × Option AuthInformation × Option (List String)) :=
  let args := (request.IpAddress, conn.GetAuthInformation, request.OwnerUsers)
  { calls := [args], reply := { Error := errors.ErrorToString (ChangeVmOwnerUsers args) },
    err := none }

/-- The gRPC handler `ChangeVmOwnerUsers` of `hypervisor/rpcd`. -/
def hypervisorRpcd.grpcServer.ChangeVmOwnerUsers
    (ChangeVmOwnerUsers : IP × Option AuthInformation × Option (List String) → Option GoError)
    (ctx : Context) (req : hypervisor_grpc.ChangeVmOwnerUsersRequest) :
    GrpcCall (IP × Option AuthInformation × Option (List String)) :=
  let ipAddr : IP := req.IpAddress
  let conn := GetConn ctx
  let args := (ipAddr, Conn.GetAuthInformation conn, req.OwnerUsers)
  match ChangeVmOwnerUsers args with
  | some err => { calls := [args], result := .returned none (ErrorToStatus (some err)) }
  | none => { calls := [args], result := .returned (some {}) none }

structure hypervisor.ChangeVmSizeRequest where
  IpAddress : IP
  MemoryInMiB : Nat
  MilliCPUs : Nat
  VirtualCPUs : Nat
deriving DecidableEq, Repr

structure hypervisor_grpc.ChangeVmSizeRequest where
  IpAddress : List UInt8
  MemoryInMib : Nat
  MilliCpus : Nat
  VirtualCpus : Nat
deriving DecidableEq, Repr

/-- The SRPC handler `ChangeVmSize` of `hypervisor/rpcd`. -/
def hypervisorRpcd.srpcType.ChangeVmSize
    (ChangeVmSize : Option AuthInformation × hypervisor.ChangeVmSizeRequest → Option GoError)
    (conn : srpc.Conn) (request : hypervisor.ChangeVmSizeRequest) :
    SrpcCall (Option AuthInformation × hypervisor.ChangeVmSizeRequest) :=
  let args := (conn.GetAuthInformation, request)
  { calls := [args], reply := { Error := errors.ErrorToString (ChangeVmSize args) },
    err := none }

/-- The gRPC handler `ChangeVmSize` of `hypervisor/rpcd`. -/
def hypervisorRpcd.grpcServer.ChangeVmSize
    (ChangeVmSize : Option AuthInformation × hypervisor.ChangeVmSizeRequest → Option GoError)
    (ctx : Context) (req : hypervisor_grpc.ChangeVmSizeRequest) :
    GrpcCall (Option AuthInformation × hypervisor.ChangeVmSizeRequest) :=
  let ipAddr : IP := req.IpAddress
  -- Convert proto request to hypervisor request
  let hypervisorReq : hypervisor.ChangeVmSizeRequest :=
    { IpAddress := ipAddr, MemoryInMiB := req.MemoryInMib, MilliCPUs := toUint req.MilliCpus,
      VirtualCPUs := toUint req.VirtualCpus }
  let conn := GetConn ctx
  let args := (Conn.GetAuthInformation conn, hypervisorReq)
  match ChangeVmSize args with
  | some err => { calls := [args], result := .returned none (ErrorToStatus (some err)) }
  | none => { calls := [args], result := .returned (some {}) none }

structure fleetmanager.ChangeMachineTagsRequest where
  Hostname : String
  Tags : tags.Tags
deriving DecidableEq, Repr

structure fleetmanager_grpc.ChangeMachineTagsRequest where
  Hostname : String
  Tags : Option common_grpc.Tags
deriving DecidableEq, Repr

/-- The SRPC handler `ChangeMachineTags` of `fleetmanager/rpcd`. -/
def srpcType.ChangeMachineTags
    (ChangeMachineTags : String × Option AuthInformation × tags.Tags → Option GoError)
    (conn : srpc.Conn) (request : fleetmanager.ChangeMachineTagsRequest) :
    SrpcCall (String × Option AuthInformation × tags.Tags) :=
  let args := (request.Hostname, conn.GetAuthInformation, request.Tags)
  { calls := [args], reply := { Error := errors.ErrorToString (ChangeMachineTags args) },
    err := none }

/-- The gRPC handler `ChangeMachineTags` of `fleetmanager/rpcd`. -/
def grpcServer.ChangeMachineTags
    (ChangeMachineTags : String × Option AuthInformation × tags.Tags → Option GoError)
    (ctx : Context) (req : fleetmanager_grpc.ChangeMachineTagsRequest) :
    GrpcCall (String × Option AuthInformation × tags.Tags) :=
  let conn := GetConn ctx
  let args := (req.Hostname, Conn.GetAuthInformation conn, TagsFromProto req.Tags)
  match ChangeMachineTags args with
  | some err => { calls := [args], result := .returned none (ErrorToStatus (some err)) }
  | none => { calls := [args], result := .returned (some {}) none }

structure fleetmanager.PowerOnMachineRequest where
  Hostname : String
deriving DecidableEq, Repr

structure fleetmanager_grpc.PowerOnMachineRequest where
  Hostname : String
deriving DecidableEq, Repr

/-- The SRPC handler `PowerOnMachine` of `fleetmanager/rpcd`. -/
def srpcType.PowerOnMachine
    (PowerOnMachine : String × Option AuthInformation → Option GoError)
    (conn : srpc.Conn) (request : fleetmanager.PowerOnMachineRequest) :
    SrpcCall (String × Option AuthInformation) :=
  let args := (request.Hostname, conn.GetAuthInformation)
  { calls := [args], reply := { Error := errors.ErrorToString (PowerOnMachine args) },
    err := none }

/-- The gRPC handler `PowerOnMachine` of `fleetmanager/rpcd`. -/
def grpcServer.PowerOnMachine
    (PowerOnMachine : String × Option AuthInformation → Option GoError)
    (ctx : Context) (req : fleetmanager_grpc.PowerOnMachineRequest) :
    GrpcCall (String × Option AuthInformation) :=
  let conn := GetConn ctx
  let args := (req.Hostname, Conn.GetAuthInformation conn)
  match PowerOnMachine args with
  | some err => { calls := [args], result := .returned none (ErrorToStatus (some err)) }
  | none => { calls := [args], result := .returned (some {}) none }

/-- The SRPC side of the adapter contract: the handler made exactly one collaborator call, that
call returned `e`, the handler returned nil and set the reply's `Error` field to the message of
`e` (the empty string when `e` is nil). -/
def SrpcRendersInline {κ : Type} (collab : κ → Option GoError) (s : SrpcCall κ)
    (e : Option GoError) : Prop :=
  ∃ args, s.calls = [args] ∧ collab args = e ∧ s.err = none ∧
    s.reply.Error = (match e with | some err => err.Error | none => "")

/-- The gRPC side of the adapter contract: the handler made exactly one collaborator call, that
call returned `e`, and the handler returned a nil response with `ErrorToStatus(e)` when `e` is
non-nil and an empty response with a nil error otherwise. -/
def GrpcRaisesStatus {κ : Type} (collab : κ → Option GoError) (g : GrpcCall κ)
    (e : Option GoError) : Prop :=
  ∃ args, g.calls = [args] ∧ collab args = e ∧
    g.result = (match e with
      | some err => HandlerResult.returned none (ErrorToStatus (some err))
      | none => HandlerResult.returned (some {}) none)

/-- An example SRPC connection, of the user `alice`. -/
def exampleSrpcConn : srpc.Conn :=
  { authInfo := none, remoteAddr := "10.0.0.9:1234", username := "alice" }

/-- An example collaborator `StopVm` that fails with `NewNotFoundError("VM", "10.0.0.1")`. -/
def stopVmNotFound (_args : IP × Option AuthInformation × List UInt8) : Option GoError :=
  some (.coded (.typed (.notFound { Resource := "VM", ID := "10.0.0.1" })))

/-! ## The `GetUpdates` handlers, as step functions over the events of their `select` loops

Each handler is run on the list of events its `select` statements receive, in order; every event
carries what the calls made while handling it return (`conn.Encode`, `conn.Flush`,
`stream.Send`). A run ends when the handler returns, or with the handler waiting in `select`
when the events are used up. The arming of the timers (`Stop`, `Reset`) only decides when a
timer event can come and is not tracked; calls of the logger are left out. -/

/-- An update channel of the manager, named by a number. -/
abbrev UpdateChannel := Nat

/-- The type `fleetmanager.GetUpdatesRequest`. -/
structure fleetmanager.GetUpdatesRequest where
  IgnoreMissingLocalTags : Bool
  Location : String
  MaxUpdates : Nat
deriving DecidableEq, Repr

/-- The message `pb.GetUpdatesRequest` of the fleet manager. -/
structure fleetmanager_grpc.GetUpdatesRequest where
  IgnoreMissingLocalTags : Bool
  Location : String
deriving DecidableEq, Repr

/-- The type `fleetmanager.Update`: its `Error` field and its lists of deleted entities (the
maps and lists of changed entities are left out). -/
structure fleetmanager.Update where
  DeletedMachines : Option (List String)
  DeletedVMs : Option (List String)
  Error : String
deriving DecidableEq, Repr

/-- The type `hypervisor.Update`, with the fields the handlers read or set. -/
structure hypervisor.Update where
  HaveVMs : Bool
  HealthStatus : String
  VMs : Option (List String)
deriving DecidableEq, Repr

/-- The calls a `GetUpdates` handler makes to its manager: `MakeUpdateChannel` (with its request
if it takes one, and the channel it returned), `CloseUpdateChannel`, and the deferred
`unregisterManagedExternalLeases` of the hypervisor's SRPC handler. -/
inductive ManagerCall
  | MakeUpdateChannel (request : Option fleetmanager.GetUpdatesRequest)
      (returned : UpdateChannel)
  | CloseUpdateChannel (channel : UpdateChannel)
  | unregisterManagedExternalLeases
deriving DecidableEq, Repr

/-- The update channels registered with the manager after the calls `calls` (none before):
`MakeUpdateChannel` registers the channel it returns, `CloseUpdateChannel` removes the channel
it is given. -/
def registeredChannels (calls : List ManagerCall) : List UpdateChannel :=
  calls.foldl
    (fun registered call =>
      match call with
      | .MakeUpdateChannel _ ch => ch :: registered
      | .CloseUpdateChannel ch => registered.erase ch
      | .unregisterManagedExternalLeases => registered)
    []

/-- The state of a run of a `GetUpdates` loop: the updates written to the client so far
(`conn.Encode` or `stream.Send` that returned nil), the number of `conn.Flush` calls, and the
result (`none` while the handler waits in `select`, `some r` once it has returned `r`). -/
structure LoopRun (υ ε : Type) where
  written : List υ
  flushes : Nat
  result : Option (Option ε)

/-- A run of a `GetUpdates` handler: its manager calls in order, and the run of its loop. -/
structure UpdatesRun (υ ε : Type) where
  calls : List ManagerCall
  written : List υ
  flushes : Nat
  result : Option (Option ε)

/-- The events of the `select` of the fleet manager's SRPC handler: an update received (with
what `conn.Encode` returns for it), the update channel found closed, the flush timer firing
(with what `conn.Flush` returns), a value received from the close notifier. -/
inductive FleetSrpcEvent
  | update (update : fleetmanager.Update) (encodeErr : Option GoError)
  | updateChannelClosed
  | flushTimer (flushErr : Option GoError)
  | closeNotify (err : Option GoError)

/-- The loop of `(*srpcType).GetUpdates` in `fleetmanager/rpcd`, with the `return nil` after it.
`count` and `numToFlush` are the variables of the handler (`uint64` and `uint`). -/
def srpcType.getUpdatesLoop (conn : srpc.Conn) (maxUpdates : Nat) :
    List FleetSrpcEvent → (count numToFlush : Nat) → (written : List fleetmanager.Update) →
    (flushes : Nat) → LoopRun fleetmanager.Update GoError
  | events, count, numToFlush, written, flushes =>
    if maxUpdates < 1 ∨ count < maxUpdates then
      match events with
      | [] => { written := written, flushes := flushes, result := none }
      | .updateChannelClosed :: _ =>
        { written := written, flushes := flushes,
          result := some (some (.errorString
            ("error sending update to: " ++ conn.RemoteAddr ++ " for: " ++ conn.Username ++
              ": receiver not keeping up with updates"))) }
      | .update _ (some err) :: _ =>
        { written := written, flushes := flushes,
          result := some (some (.errorString ("error sending update: " ++ err.Error))) }
      | .update update none :: rest =>
        if update.Error ≠ "" then
          { written := written ++ [update], flushes := flushes, result := some none }
        else
          srpcType.getUpdatesLoop conn maxUpdates rest ((count + 1) % 18446744073709551616)
            ((numToFlush + 1) % 18446744073709551616) (written ++ [update]) flushes
      | .flushTimer (some err) :: _ =>
        { written := written, flushes := flushes + 1,
          result := some (some (.errorString ("error flushing update(s): " ++ err.Error))) }
      | .flushTimer none :: rest =>
        srpcType.getUpdatesLoop conn maxUpdates rest count 0 written (flushes + 1)
      | .closeNotify err :: _ =>
        { written := written, flushes := flushes, result := some err }
    else { written := written, flushes := flushes, result := some none }

/-- The SRPC handler `GetUpdates` of `fleetmanager/rpcd`. `decoded` is what `conn.Decode` gives
(the request, or an error), `updateChannel` the channel `MakeUpdateChannel` returns; the
deferred `CloseUpdateChannel` runs when the handler returns. -/
def srpcType.GetUpdates (conn : srpc.Conn)
    (decoded : Except GoError fleetmanager.GetUpdatesRequest) (updateChannel : UpdateChannel)
    (events : List FleetSrpcEvent) : UpdatesRun fleetmanager.Update GoError :=
  match decoded with
  | .error err => { calls := [], written := [], flushes := 0, result := some (some err) }
  | .ok request =>
    let run := srpcType.getUpdatesLoop conn request.MaxUpdates events 0 0 [] 0
    { calls := ManagerCall.MakeUpdateChannel (some request) updateChannel ::
        (match run.result with
          | some _ => [ManagerCall.CloseUpdateChannel updateChannel]
          | none => [])
      written := run.written, flushes := run.flushes, result := run.result }

/-- The events of the `select` of a gRPC `GetUpdates` handler: the stream's context done (with
what `stream.Context().Err()` then returns), an update received (with what `stream.Send`
returns for it), the update channel found closed. -/
inductive GrpcUpdatesEvent (υ : Type)
  | contextDone (ctxErr : GoError)
  | update (update : υ) (sendErr : Option GoError)
  | updateChannelClosed

/-- The loop of `(*grpcServer).GetUpdates` in `fleetmanager/rpcd`. An update is written when
`stream.Send` has sent its conversion. -/
def grpcServer.getUpdatesLoop :
    List (GrpcUpdatesEvent fleetmanager.Update) → (written : List fleetmanager.Update) →
    LoopRun fleetmanager.Update RpcError
  | [], written => { written := written, flushes := 0, result := none }
  | .contextDone ctxErr :: _, written =>
    { written := written, flushes := 0, result := some (some (.plain ctxErr)) }
  | .updateChannelClosed :: _, written =>
    { written := written, flushes := 0,
      result := some ((ErrorToStatus
        (some (.errorString "receiver not keeping up with updates"))).map RpcError.status) }
  | .update update sendErr :: rest, written =>
    if update.Error ≠ "" then
      { written := written, flushes := 0,
        result := some ((ErrorToStatus (some (.errorString update.Error))).map
          RpcError.status) }
    else
      match sendErr with
      | some err => { written := written, flushes := 0, result := some (some (.plain err)) }
      | none => grpcServer.getUpdatesLoop rest (written ++ [update])

/-- The gRPC handler `GetUpdates` of `fleetmanager/rpcd`. -/
def grpcServer.GetUpdates (req : fleetmanager_grpc.GetUpdatesRequest)
    (updateChannel : UpdateChannel) (events : List (GrpcUpdatesEvent fleetmanager.Update)) :
    UpdatesRun fleetmanager.Update RpcError :=
  -- Convert to internal request type
  let internalReq : fleetmanager.GetUpdatesRequest :=
    { IgnoreMissingLocalTags := req.IgnoreMissingLocalTags, Location := req.Location,
      MaxUpdates := 0 }
  let run := grpcServer.getUpdatesLoop events []
  { calls := ManagerCall.MakeUpdateChannel (some internalReq) updateChannel ::
      (match run.result with
        | some _ => [ManagerCall.CloseUpdateChannel updateChannel]
        | none => [])
    written := run.written, flushes := run.flushes, result := run.result }

/-- The events of the `select` of the hypervisor's SRPC handler: an update or a response
received (with what `conn.Encode` returns for it), either channel found closed, the flush timer
firing (with what `conn.Flush` returns), the heartbeat timer firing (with the health status of
the manager and what `conn.Encode` and `conn.Flush` return), a value received from the close
channel. -/
inductive HypervisorSrpcEvent
  | update (update : hypervisor.Update) (encodeErr : Option GoError)
  | updateChannelClosed
  | response (update : hypervisor.Update) (encodeErr : Option GoError)
  | responseChannelClosed
  | flushTimer (flushErr : Option GoError)
  | heartbeatTimer (healthStatus : String) (encodeErr flushErr : Option GoError)
  | closeNotify (err : Option GoError)

/-- The loop of `(*srpcType).GetUpdates` in `hypervisor/rpcd`. -/
def hypervisorRpcd.srpcType.getUpdatesLoop (conn : srpc.Conn) :
    List HypervisorSrpcEvent → (numToFlush : Nat) → (written : List hypervisor.Update) →
    (flushes : Nat) → LoopRun hypervisor.Update GoError
  | [], _, written, flushes => { written := written, flushes := flushes, result := none }
  | .updateChannelClosed :: _, _, written, flushes =>
    { written := written, flushes := flushes,
      result := some (some (.errorString
        ("error sending update to: " ++ conn.RemoteAddr ++ " for: " ++ conn.Username ++
          ": receiver not keeping up with updates"))) }
  | .update _ (some err) :: _, _, written, flushes =>
    { written := written, flushes := flushes,
      result := some (some (.errorString ("error sending update: " ++ err.Error))) }
  | .update update none :: rest, numToFlush, written, flushes =>
    hypervisorRpcd.srpcType.getUpdatesLoop conn rest
      ((numToFlush + 1) % 18446744073709551616) (written ++ [update]) flushes
  | .responseChannelClosed :: _, _, written, flushes =>
    { written := written, flushes := flushes,
      result := some (some (.errorString
        ("error sending response to: " ++ conn.RemoteAddr ++ " for: " ++ conn.Username ++
          ": receiver not keeping up with responses"))) }
  | .response _ (some err) :: _, _, written, flushes =>
    { written := written, flushes := flushes,
      result := some (some (.errorString ("error sending response: " ++ err.Error))) }
  | .response update none :: rest, numToFlush, written, flushes =>
    hypervisorRpcd.srpcType.getUpdatesLoop conn rest
      ((numToFlush + 1) % 18446744073709551616) (written ++ [update]) flushes
  | .flushTimer (some err) :: _, _, written, flushes =>
    { written := written, flushes := flushes + 1,
      result := some (some (.errorString ("error flushing update(s): " ++ err.Error))) }
  | .flushTimer none :: rest, _, written, flushes =>
    hypervisorRpcd.srpcType.getUpdatesLoop conn rest 0 written (flushes + 1)
  | .heartbeatTimer _ (some err) _ :: _, _, written, flushes =>
    { written := written, flushes := flushes,
      result := some (some (.errorString ("error writing heartbeat: " ++ err.Error))) }
  | .heartbeatTimer healthStatus none (some err) :: _, _, written, flushes =>
    { written := written ++ [{ HaveVMs := false, HealthStatus := healthStatus, VMs := none }],
      flushes := flushes + 1,
      result := some (some (.errorString ("error flushing heartbeat: " ++ err.Error))) }
  | .heartbeatTimer healthStatus none none :: rest, _, written, flushes =>
    hypervisorRpcd.srpcType.getUpdatesLoop conn rest 0
      (written ++ [{ HaveVMs := false, HealthStatus := healthStatus, VMs := none }])
      (flushes + 1)
  | .closeNotify err :: _, _, written, flushes =>
    { written := written, flushes := flushes, result := some err }

/-- The SRPC handler `GetUpdates` of `hypervisor/rpcd`. The deferred calls run when the handler
returns, the last deferred first: `unregisterManagedExternalLeases`, then
`CloseUpdateChannel`. -/
def hypervisorRpcd.srpcType.GetUpdates (conn : srpc.Conn) (updateChannel : UpdateChannel)
    (events : List HypervisorSrpcEvent) : UpdatesRun hypervisor.Update GoError :=
  let run := hypervisorRpcd.srpcType.getUpdatesLoop conn events 0 [] 0
  { calls := ManagerCall.MakeUpdateChannel none updateChannel ::
      (match run.result with
        | some _ =>
          [ManagerCall.unregisterManagedExternalLeases,
           ManagerCall.CloseUpdateChannel updateChannel]
        | none => [])
    written := run.written, flushes := run.flushes, result := run.result }

/-- The loop of `(*grpcServer).GetUpdates` in `hypervisor/rpcd`. An update is written when
`stream.Send` has sent its conversion. -/
def hypervisorRpcd.grpcServer.getUpdatesLoop :
    List (GrpcUpdatesEvent hypervisor.Update) → (written : List hypervisor.Update) →
    LoopRun hypervisor.Update RpcError
  | [], written => { written := written, flushes := 0, result := none }
  | .updateChannelClosed :: _, written =>
    { written := written, flushes := 0,
      result := some (some (.plain (.errorString "update channel closed"))) }
  | .update _ (some err) :: _, written =>
    { written := written, flushes := 0,
      result := some (some (.plain (.wrapError ("error sending update: " ++ err.Error) err))) }
  | .update update none :: rest, written =>
    hypervisorRpcd.grpcServer.getUpdatesLoop rest (written ++ [update])
  | .contextDone _ :: _, written =>
    { written := written, flushes := 0, result := some none }

/-- The gRPC handler `GetUpdates` of `hypervisor/rpcd`. -/
def hypervisorRpcd.grpcServer.GetUpdates (updateChannel : UpdateChannel)
    (events : List (GrpcUpdatesEvent hypervisor.Update)) :
    UpdatesRun hypervisor.Update RpcError :=
  let run := hypervisorRpcd.grpcServer.getUpdatesLoop events []
  { calls := ManagerCall.MakeUpdateChannel none updateChannel ::
      (match run.result with
        | some _ => [ManagerCall.CloseUpdateChannel updateChannel]
        | none => [])
    written := run.written, flushes := run.flushes, result := run.result }

/-- The handler has returned and released its subscription: after `MakeUpdateChannel` returned
`ch`, `CloseUpdateChannel` was called exactly once, with `ch` and with no other channel, and no
channel is left registered. -/
def ReleasedOnReturn (calls : List ManagerCall) (ch : UpdateChannel) : Prop :=
  (calls.filter (fun c => match c with | .CloseUpdateChannel _ => true | _ => false))
    = [ManagerCall.CloseUpdateChannel ch] ∧
  registeredChannels calls = []

/-- The updates received in `events` (those of its `update` events), in order. -/
def receivedUpdates : List FleetSrpcEvent → List fleetmanager.Update
  | [] => []
  | .update update _ :: rest => update :: receivedUpdates rest
  | .updateChannelClosed :: rest => receivedUpdates rest
  | .flushTimer _ :: rest => receivedUpdates rest
  | .closeNotify _ :: rest => receivedUpdates rest

/-- An event that delivers an update with an empty `Error` field (its `conn.Encode` returns
nil), or a firing of the flush timer whose `conn.Flush` returns nil. -/
def FleetSrpcEvent.Delivers : FleetSrpcEvent → Prop
  | .update u none => u.Error = ""
  | .flushTimer none => True
  | _ => False

/-- An event on which a gRPC `GetUpdates` loop of the fleet manager can return: cancellation, a
closed channel, an update carrying an error, a send failure. -/
def GrpcUpdatesEvent.Terminal : GrpcUpdatesEvent fleetmanager.Update → Prop
  | .contextDone _ => True
  | .updateChannelClosed => True
  | .update u sendErr => u.Error ≠ "" ∨ sendErr ≠ none

/-! ## `lib/grpc/common_converters.go`: the converters to proto and the match tags -/

/-- TagsToProto converts internal tags.Tags to protobuf Tags. -/
def TagsToProto (t : tags.Tags) : Option common_grpc.Tags :=
  match t with
  | none => none
  | some t => some { Tags := some t }

/-- The type `tags.MatchTags`, a `map[string][]string`: `none` is the nil map, `some l` a map
with the entries `l` (keys distinct, order immaterial); a value is a slice, `none` being nil. -/
abbrev tags.MatchTags := Option (List (String × Option (List String)))

/-- The message `common_grpc.StringList`, with its one field `Values []string`. -/
structure common_grpc.StringList where
  Values : Option (List String)
deriving DecidableEq, Repr

/-- The message `common_grpc.MatchTags`, with its one field
`MatchTags map[string]*common_grpc.StringList` (a value is a pointer, `none` being nil). -/
structure common_grpc.MatchTags where
  MatchTags : Option (List (String × Option common_grpc.StringList))
deriving DecidableEq, Repr

/-- MatchTagsFromProto converts protobuf MatchTags to internal tags.MatchTags: the loop stores
`v.Values` under `k` for every entry whose value `v` is not nil. -/
def MatchTagsFromProto (pb : Option common_grpc.MatchTags) : tags.MatchTags :=
  match pb with
  | none => none
  | some m =>
    match m.MatchTags with
    | none => none
    | some entries =>
      some (entries.filterMap (fun kv =>
        match kv.2 with
        | some v => some (kv.1, v.Values)
        | none => none))

/-- MatchTagsToProto converts internal tags.MatchTags to protobuf MatchTags. -/
def MatchTagsToProto (mt : tags.MatchTags) : Option common_grpc.MatchTags :=
  match mt with
  | none => none
  | some entries =>
    some { MatchTags := some (entries.map (fun kv => (kv.1, some { Values := kv.2 }))) }

/-! ## `hypervisor/rpcd/listVMs.go` -/

/-- The function `isZeros` of package `net`. -/
def isZeros (p : List UInt8) : Bool := p.all (fun b => b == 0)

/-- The method `net.IP.To4` (`none` is the nil slice): a 4-byte address is returned as it is, a
16-byte address whose first ten bytes are zero and whose next two are `0xff` gives its last four
bytes, every other slice gives nil. -/
def To4 (ip : Option (List UInt8)) : Option (List UInt8) :=
  let bytes := ip.getD []
  if bytes.length = 4 then ip
  else if bytes.length = 16 ∧ isZeros (bytes.take 10) = true ∧ bytes.get? 10 = some 0xff ∧
      bytes.get? 11 = some 0xff then
    some ((bytes.drop 12).take 4)
  else none

/-- The body of the loop of both `ListVMs` handlers: parse the string, and replace the address
by its 4-byte form when `To4` gives one. `ParseIP` is the library function `net.ParseIP`. -/
def parseAndShrink (ParseIP : String → Option (List UInt8)) (ipAddressString : String) :
    Option (List UInt8) :=
  let ipAddress := ParseIP ipAddressString
  match To4 ipAddress with
  | some shrunkIP => some shrunkIP
  | none => ipAddress

/-- The type `hypervisor.ListVMsRequest` (`SortList` is the field `Sort`). -/
structure hypervisor.ListVMsRequest where
  IgnoreStateMask : Nat
  OwnerGroups : Option (List String)
  OwnerUsers : Option (List String)
  SortList : Bool
  VmTagsToMatch : tags.MatchTags
deriving DecidableEq, Repr

/-- The message `pb.ListVMsRequest` (`SortList` is the field `Sort`). -/
structure hypervisor_grpc.ListVMsRequest where
  IgnoreStateMask : Nat
  OwnerGroups : Option (List String)
  OwnerUsers : Option (List String)
  SortList : Bool
  VmTagsToMatch : Option common_grpc.MatchTags
deriving DecidableEq, Repr

/-- The type `hypervisor.ListVMsResponse`: the slice `IpAddresses []net.IP`, which the handler
makes non-nil; an element is a `net.IP`, `none` being nil. -/
structure hypervisor.ListVMsResponse where
  IpAddresses : List (Option (List UInt8))
deriving DecidableEq, Repr

/-- The message `pb.ListVMsResponse`: the slice `IpAddresses [][]byte`, which the handler makes
non-nil; an element is a `[]byte`, `none` being nil. -/
structure hypervisor_grpc.ListVMsResponse where
  IpAddresses : List (Option (List UInt8))
deriving DecidableEq, Repr

/-- What a call of the SRPC handler `ListVMs` does: the collaborator calls it makes, the reply
it stores and the error it returns. -/
structure ListVMsSrpcCall where
  calls : List hypervisor.ListVMsRequest
  reply : hypervisor.ListVMsResponse
  err : Option GoError

/-- What a call of the gRPC handler `ListVMs` does: the collaborator calls it makes and what it
returns. -/
structure ListVMsGrpcCall where
  calls : List hypervisor.ListVMsRequest
  result : HandlerResult hypervisor_grpc.ListVMsResponse

/-- The SRPC handler `ListVMs` of `hypervisor/rpcd`; `ListVMs` is the collaborator
`t.manager.ListVMs`. -/
def hypervisorRpcd.srpcType.ListVMs (ParseIP : String → Option (List UInt8))
    (ListVMs : hypervisor.ListVMsRequest → List String)
    (_conn : srpc.Conn) (request : hypervisor.ListVMsRequest) : ListVMsSrpcCall :=
  let ipAddressStrings := ListVMs request
  let ipAddresses := ipAddressStrings.map (parseAndShrink ParseIP)
  { calls := [request], reply := { IpAddresses := ipAddresses }, err := none }

/-- The request conversion at the head of the gRPC handler `ListVMs`. -/
def listVMsRequestFromProto (req : hypervisor_grpc.ListVMsRequest) : hypervisor.ListVMsRequest :=
  { IgnoreStateMask := req.IgnoreStateMask
    OwnerGroups := req.OwnerGroups
    OwnerUsers := req.OwnerUsers
    SortList := req.SortList
    VmTagsToMatch :=
      match req.VmTagsToMatch with
      | some m => MatchTagsFromProto (some m)
      | none => none }

/-- The gRPC handler `ListVMs` of `hypervisor/rpcd`. -/
def hypervisorRpcd.grpcServer.ListVMs (ParseIP : String → Option (List UInt8))
    (ListVMs : hypervisor.ListVMsRequest → List String)
    (_ctx : Context) (req : hypervisor_grpc.ListVMsRequest) : ListVMsGrpcCall :=
  -- Convert proto request to hypervisor request
  let hypervisorReq := listVMsRequestFromProto req
  let ipAddressStrings := ListVMs hypervisorReq
  let ipAddresses := ipAddressStrings.map (parseAndShrink ParseIP)
  { calls := [hypervisorReq],
    result := .returned (some { IpAddresses := ipAddresses }) none }

/-- An example of what `net.ParseIP` returns: the IPv4-mapped 16-byte form for the dotted quad
`10.0.0.1`, the 16 bytes of `::1`, and nil for every other string. -/
def exampleParseIP (s : String) : Option (List UInt8) :=
  if s = "10.0.0.1" then some [0, 0, 0, 0, 0, 0, 0, 0, 0, 0, 0xff, 0xff, 10, 0, 0, 1]
  else if s = "::1" then some [0, 0, 0, 0, 0, 0, 0, 0, 0, 0, 0, 0, 0, 0, 0, 1]
  else none

/-! ## `hypervisor/rpcd/destroyVm.go` and the handler `CreateVmAsync` of `createVm.go` -/

/-- An argument of a `Debugf` call of these handlers: a string, the `net.IP` of the request, an
error, a status error, the `net.IP` of a VM address (`none` is nil) or a VM state. -/
inductive LogArg
  | str (s : String)
  | ip (ip : IP)
  | err (e : GoError)
  | status (st : Status)
  | vmIP (ip : Option (List UInt8))
  | state (state : Nat)

/-- One call of `logger.Debugf`: the level, the format string and the arguments. The log is the
list of these calls, in order. -/
structure LogEntry where
  level : Nat
  format : String
  args : List LogArg

/-- What an SRPC method handler returns: the reply it stored and its error, or a panic. -/
inductive SrpcOutcome
  | returned (reply : ErrorResponse) (err : Option GoError)
  | panicked

/-- What a call of a logging SRPC handler does: the `Debugf` calls and the collaborator calls it
makes (in order), and how it ends. -/
structure SrpcRun (κ : Type) where
  log : List LogEntry
  calls : List κ
  outcome : SrpcOutcome

/-- What a call of a logging gRPC handler does: the `Debugf` calls and the collaborator calls it
makes (in order), and what it returns. -/
structure GrpcRun (κ ρ : Type) where
  log : List LogEntry
  calls : List κ
  result : HandlerResult ρ

structure hypervisor.DestroyVmRequest where
  AccessToken : List UInt8
  IpAddress : IP
deriving DecidableEq, Repr

structure hypervisor_grpc.DestroyVmRequest where
  IpAddress : List UInt8
  AccessToken : List UInt8
deriving DecidableEq, Repr

/-- The SRPC handler `DestroyVm` of `hypervisor/rpcd`; `DestroyVm` is the collaborator
`t.manager.DestroyVm`. The arguments of the first `Debugf` call read `authInfo.Username`, which
panics when `authInfo` is nil. -/
def hypervisorRpcd.srpcType.DestroyVm
    (DestroyVm : IP × Option AuthInformation × List UInt8 → Option GoError)
    (conn : srpc.Conn) (request : hypervisor.DestroyVmRequest) :
    SrpcRun (IP × Option AuthInformation × List UInt8) :=
  match conn.GetAuthInformation with
  | none => { log := [], calls := [], outcome := .panicked }
  | some authInfo =>
    let start : LogEntry :=
      ⟨1, "DestroyVm(%s) starting, IP=%s\n", [.str authInfo.Username, .ip request.IpAddress]⟩
    let args := (request.IpAddress, some authInfo, request.AccessToken)
    match DestroyVm args with
    | none =>
      { log := [start, ⟨1, "DestroyVm(%s) finished, IP=%s\n",
                        [.str authInfo.Username, .ip request.IpAddress]⟩],
        calls := [args],
        outcome := .returned { Error := errors.ErrorToString none } none }
    | some err =>
      { log := [start, ⟨1, "DestroyVm(%s) failed, IP=%s, error: %s\n",
                        [.str authInfo.Username, .ip request.IpAddress, .err err]⟩],
        calls := [args],
        outcome := .returned { Error := errors.ErrorToString (some err) } none }

/-- The gRPC handler `DestroyVm` of `hypervisor/rpcd` (gRPC sync handler - blocks until VM is
fully destroyed). -/
def hypervisorRpcd.grpcServer.DestroyVm
    (DestroyVm : IP × Option AuthInformation × List UInt8 → Option GoError)
    (ctx : Context) (req : hypervisor_grpc.DestroyVmRequest) :
    GrpcRun (IP × Option AuthInformation × List UInt8) EmptyResponse :=
  let ipAddr : IP := req.IpAddress
  let conn := GetConn ctx
  match Conn.GetAuthInformation conn with
  | none => { log := [], calls := [], result := .panicked }
  | some authInfo =>
    let start : LogEntry :=
      ⟨1, "DestroyVm(%s) starting, IP=%s\n", [.str authInfo.Username, .ip ipAddr]⟩
    let args := (ipAddr, some authInfo, req.AccessToken)
    match DestroyVm args with
    | none =>
      { log := [start, ⟨1, "DestroyVm(%s) finished, IP=%s\n",
                        [.str authInfo.Username, .ip ipAddr]⟩],
        calls := [args],
        result := .returned (some {}) none }
    | some err =>
      { log := [start, ⟨1, "DestroyVm(%s) failed, IP=%s, error: %s\n",
                        [.str authInfo.Username, .ip ipAddr, .err err]⟩],
        calls := [args],
        result := .returned none (ErrorToStatus (some err)) }

/-- The messages `pb.DestroyVmAsyncResponse` and `pb.CreateVmAsyncResponse`: one field, the
pointer `VmInfo`. `VI` is the message type `pb.VmInfo`. -/
structure AsyncResponse (VI : Type) where
  VmInfo : Option VI

/-- The gRPC handler `DestroyVmAsync` of `hypervisor/rpcd` (gRPC async handler - returns
immediately); `DestroyVmAsync` is the collaborator `s.manager.DestroyVmAsync`, which returns a
pointer and an error. `vmInfoToProto` is the converter of `getVmInfo.go` as this call sees it:
the handler passes its result on untouched. After a nil error the handler reads `vmInfo.State`,
which panics when the pointer is nil. -/
def hypervisorRpcd.grpcServer.DestroyVmAsync {VI : Type}
    (DestroyVmAsync :
      IP × Option AuthInformation × List UInt8 → Option hypervisor.VmInfo × Option GoError)
    (vmInfoToProto : Option hypervisor.VmInfo → Option VI)
    (ctx : Context) (req : hypervisor_grpc.DestroyVmRequest) :
    GrpcRun (IP × Option AuthInformation × List UInt8) (AsyncResponse VI) :=
  let ipAddr : IP := req.IpAddress
  let conn := GetConn ctx
  match Conn.GetAuthInformation conn with
  | none => { log := [], calls := [], result := .panicked }
  | some authInfo =>
    let start : LogEntry :=
      ⟨1, "DestroyVmAsync(%s) starting, IP=%s\n", [.str authInfo.Username, .ip ipAddr]⟩
    let args := (ipAddr, some authInfo, req.AccessToken)
    match DestroyVmAsync args with
    | (_, some err) =>
      { log := [start, ⟨1, "DestroyVmAsync(%s) failed, IP=%s, error: %s\n",
                        [.str authInfo.Username, .ip ipAddr, .err err]⟩],
        calls := [args],
        result := .returned none (ErrorToStatus (some err)) }
    | (none, none) => { log := [start], calls := [args], result := .panicked }
    | (some vmInfo, none) =>
      { log := [start, ⟨1, "DestroyVmAsync(%s) initiated, IP=%s, state=%s\n",
                        [.str authInfo.Username, .ip ipAddr, .state vmInfo.State]⟩],
        calls := [args],
        result := .returned (some { VmInfo := vmInfoToProto (some vmInfo) }) none }

/-- The gRPC handler `CreateVmAsync` of `hypervisor/rpcd` (gRPC async handler - returns
immediately with VM in StateStarting or StateStopped); `CreateVmAsync` is the collaborator
`s.manager.CreateVmAsync`, `vmInfoToProto` the converter of `getVmInfo.go` as this call sees
it. -/
def hypervisorRpcd.grpcServer.CreateVmAsync {NE VI : Type}
    (CreateVmAsync :
      hypervisor.CreateVmRequest × Option AuthInformation →
        Option hypervisor.VmInfo × Option GoError)
    (vmInfoToProto : Option hypervisor.VmInfo → Option VI)
    (ctx : Context) (req : hypervisor_grpc.CreateVmAsyncRequest NE) :
    GrpcRun (hypervisor.CreateVmRequest × Option AuthInformation) (AsyncResponse VI) :=
  -- Get auth info
  let conn := GetConn ctx
  match Conn.GetAuthInformation conn with
  | none => { log := [], calls := [], result := .panicked }
  | some authInfo =>
    let start : LogEntry := ⟨1, "CreateVmAsync(%s) starting via gRPC\n", [.str authInfo.Username]⟩
    -- Convert proto request to SRPC CreateVmRequest
    match createVmAsyncRequestFromProto req with
    | (_, some err) =>
      { log := [start, ⟨1, "CreateVmAsync(%s) failed to convert request: %s\n",
                        [.str authInfo.Username, .err err]⟩],
        calls := [],
        result := .returned none (ErrorToStatus (some err)) }
    | (none, none) => { log := [start], calls := [], result := .panicked }
    | (some request, none) =>
      -- Validate that streaming modes are not used
      match validateNoStreamingFields request with
      | some err =>
        { log := [start, ⟨1, "CreateVmAsync(%s) validation failed: %s\n",
                          [.str authInfo.Username, .status err]⟩],
          calls := [],
          result := .returned none (some err) }
      | none =>
        -- Call the async CreateVm business logic
        let args := (request, some authInfo)
        match CreateVmAsync args with
        | (_, some err) =>
          { log := [start, ⟨1, "CreateVmAsync(%s) failed: %s\n",
                            [.str authInfo.Username, .err err]⟩],
            calls := [args],
            result := .returned none (ErrorToStatus (some err)) }
        | (none, none) => { log := [start], calls := [args], result := .panicked }
        | (some vmInfo, none) =>
          { log := [start, ⟨1, "CreateVmAsync(%s) initiated, hostname=%s, IP=%s, state=%s\n",
                            [.str authInfo.Username, .str vmInfo.Hostname,
                             .vmIP vmInfo.Address.IpAddress, .state vmInfo.State]⟩],
            calls := [args],
            result := .returned (some { VmInfo := vmInfoToProto (some vmInfo) }) none }

/-- An example identity. -/
def exampleAuthInfo : AuthInformation :=
  { GroupList := some ["admins"], HaveMethodAccess := false, Username := "alice" }

/-- A context in which the auth interceptor stored a `Conn` holding `exampleAuthInfo`. -/
def authenticatedContext : Context :=
  { peer := some { AuthInfo := some (.TLSInfo exampleTLSState) },
    connValue := some (some { authInfo := some exampleAuthInfo, permittedMethods := none }) }

/-! ## Following the page tokens of `ListVMsInLocation` -/

/-- The pages a client collects from the gRPC handler `ListVMsInLocation` when it calls it with
the token `tok` and then feeds each returned next-page token into the next call, until a
response carries the empty token. The collaborator returns `ipAddrs` with a nil error at every
call. `fuel` bounds the number of calls; the result is `none` when the fuel runs out or a call
does not return a response. -/
def followTokens (ipAddrs : List IP) (pageSize : Int) :
    Nat → String → Option (List (List IP))
  | 0, _ => none
  | fuel + 1, tok =>
    match grpcServer.ListVMsInLocation ipAddrs none { PageSize := pageSize, PageToken := tok } with
    | .returned (some resp) none =>
      if resp.NextPageToken = "" then some [resp.IpAddresses]
      else (followTokens ipAddrs pageSize fuel resp.NextPageToken).map
        (fun pages => resp.IpAddresses :: pages)
    | _ => none


/-! ## Examples and predicates for the handlers above -/

/-- The request of `TestCreateVmAsyncRequestFromProto` with three network entries added: two
entries that hold a name and a number of queues, and a nil entry between them. -/
def exampleNetworkRequest : hypervisor_grpc.CreateVmAsyncRequest (String × Nat) :=
  { DhcpTimeoutNs := 30000000000
    DoNotStart := true
    EnableNetboot := false
    IdentityCertificate := none
    IdentityKey := none
    ImageTimeoutNs := 300000000000
    MinimumFreeBytes := 10737418240
    OverlayDirectories := none
    OverlayFiles := none
    RoundupPower := 30
    SkipBootloader := false
    SkipMemoryCheck := false
    StorageIndices := none
    ConsoleType := 0
    CpuPriority := 1
    DestroyOnPowerdown := false
    DestroyProtection := true
    DisableVirtIo := false
    ExtraKernelOptions := ""
    FirmwareType := 0
    Hostname := "test-vm"
    ImageName := "test-image"
    ImageUrl := ""
    MachineType := 0
    MemoryInMib := 4096
    MilliCpus := 2000
    OwnerGroups := none
    OwnerUsers := none
    SpreadVolumes := false
    SubnetId := "test-subnet"
    Tags := none
    VirtualCpus := 2
    WatchdogAction := 0
    WatchdogModel := 0
    NetworkEntries := some [some ("eth0", 4), none, some ("eth1", 2)]
    SecondaryAddresses := none
    SecondarySubnetIds := none
    Volumes := none
    SecondaryVolumes := none
    SecondaryVolumesInit := none }

/-- An SRPC connection whose client is authenticated as `exampleAuthInfo`. -/
def authenticatedSrpcConn : srpc.Conn :=
  { authInfo := some exampleAuthInfo, remoteAddr := "10.0.0.9:1234", username := "alice" }

/-- An example collaborator `DestroyVm` that fails with `NewNotFoundError("VM", "10.0.0.1")`. -/
def destroyVmNotFound (_args : IP × Option AuthInformation × List UInt8) : Option GoError :=
  some (.coded (.typed (.notFound { Resource := "VM", ID := "10.0.0.1" })))

/-- An example collaborator `CreateVmAsync` that fails with an untyped error. -/
def createVmAsyncFails (_args : hypervisor.CreateVmRequest × Option AuthInformation) :
    Option hypervisor.VmInfo × Option GoError :=
  (none, some (.errorString "no free address"))

/-- The log entry `e` holds the username and the IP address among its arguments. -/
def LogEntry.Names (e : LogEntry) (username : String) (ip : IP) : Prop :=
  LogArg.str username ∈ e.args ∧ LogArg.ip ip ∈ e.args

/-- An example context: a peer whose certificate names the user `alice` and the group `admins`,
as that of `exampleContext` does, and permits no method (an empty non-nil set). -/
def noMethodsContext : Context :=
  { peer := some { AuthInfo := some (.TLSInfo
      { VerifiedChains :=
          [[{ Username := some "alice", GroupList := some ["admins"],
              PermittedMethods := some [] }]] }) },
    connValue := none }

/-- An example unary handler that depends on the context only through the identity of the
caller: it answers with the caller's username. -/
def whoAmI (ctx : Context) (_req : Unit) : Option String × Option RpcError :=
  ((Conn.GetAuthInformation (GetConn ctx)).map (fun authInfo => authInfo.Username), none)

/-- The first twelve bytes of the 16-byte form of an IPv4 address (`v4InV6Prefix` of package
`net`). -/
def v4InV6Prefix : List UInt8 := [0, 0, 0, 0, 0, 0, 0, 0, 0, 0, 0xff, 0xff]

/-- An example collaborator `ListVMs`: an IPv4 address, an IPv6 address and a string that is no
address. -/
def exampleListVMs (_request : hypervisor.ListVMsRequest) : List String :=
  ["10.0.0.1", "::1", "bogus"]

/-- The mappings of `patternMappings` that the loop of `ErrorToStatus` tests before it reaches
the mapping of the code `c`. -/
def mappingsBefore (c : Code) : List PatternMapping :=
  patternMappings.takeWhile (fun m => m.code != c)

/-! ## Lemmas: `errors.As` and the chain -/

mutual
theorem errorsAs_eq_filterMap_chain :
    ∀ err : GoError, errorsAs err = (err.chain.filterMap GoError.asCoded).head?
  | .errorString s => by simp [errorsAs, GoError.chain, GoError.asCoded]
  | .coded e => by simp [errorsAs, GoError.chain, GoError.asCoded]
  | .wrapError msg err => by
    simp [errorsAs, GoError.chain, GoError.asCoded, errorsAs_eq_filterMap_chain err]
  | .wrapErrors msg errs => by
    simp [errorsAs, GoError.chain, GoError.asCoded, errorsAsList_eq_filterMap_chain errs]
  | .joinError errs => by
    simp [errorsAs, GoError.chain, GoError.asCoded, errorsAsList_eq_filterMap_chain errs]
theorem errorsAsList_eq_filterMap_chain :
    ∀ errs : List GoError, errorsAsList errs = ((chainList errs).filterMap GoError.asCoded).head?
  | [] => by simp [errorsAsList, chainList]
  | err :: rest => by
    rw [errorsAsList, chainList, List.filterMap_append, errorsAs_eq_filterMap_chain err,
      errorsAsList_eq_filterMap_chain rest]
    cases h : (err.chain.filterMap GoError.asCoded) with
    | nil => simp
    | cons a l => simp
end

theorem errorsAs_eq_head (err : GoError) : errorsAs err = (chainCoded err).head? :=
  errorsAs_eq_filterMap_chain err

theorem runesContain_iff (s substr : List Char) :
    runesContain s substr = true ↔ substr <:+: s := by
  induction s with
  | nil => simp [runesContain, List.isEmpty_iff]
  | cons c cs ih =>
    simp only [runesContain, Bool.or_eq_true, ih, List.infix_cons_iff]
    rw [ List.isPrefixOf_iff_prefix]

theorem containsAnyLoop_iff (lower : String) (substrings : List String) :
    containsAnyLoop lower substrings = true ↔ ∃ p ∈ substrings, p.data <:+: lower.data := by
  induction substrings with
  | nil => simp [containsAnyLoop]
  | cons p ps ih =>
    simp only [containsAnyLoop, List.mem_cons, exists_eq_or_imp, ← ih]
    by_cases h : stringsContains lower p = true
    · have h' : p.data <:+: lower.data := (runesContain_iff _ _).1 h
      simp [h, h']
    · have h' : ¬ (p.data <:+: lower.data) := fun hc => h ((runesContain_iff _ _).2 hc)
      simp [h, h', ih]

theorem containsAny_iff (msg : String) (m : PatternMapping) :
    containsAny msg m.patterns = true ↔ m.Matches msg :=
  containsAnyLoop_iff (stringsToLower msg) m.patterns

/-! ## Lemmas: `ErrorToStatus` -/

theorem statusError_of_ne_OK {c : Code} (h : c ≠ Code.OK) (msg : String) :
    statusError c msg = some { code := c, message := msg } := by
  simp [statusError, h]

theorem TypedError.GRPCCode_ne_OK (t : TypedError) : t.GRPCCode ≠ Code.OK := by
  cases t <;> simp [TypedError.GRPCCode, NotFoundError.GRPCCode, PermissionDeniedError.GRPCCode,
    UnauthenticatedError.GRPCCode, AlreadyExistsError.GRPCCode, InvalidArgumentError.GRPCCode,
    UnavailableError.GRPCCode, DeadlineExceededError.GRPCCode]

theorem TypedError.GRPCCode_mem (t : TypedError) :
    t.GRPCCode ∈ [Code.NotFound, Code.PermissionDenied, Code.Unauthenticated, Code.AlreadyExists,
      Code.InvalidArgument, Code.Unavailable, Code.DeadlineExceeded] := by
  cases t <;> simp [TypedError.GRPCCode, NotFoundError.GRPCCode, PermissionDeniedError.GRPCCode,
    UnauthenticatedError.GRPCCode, AlreadyExistsError.GRPCCode, InvalidArgumentError.GRPCCode,
    UnavailableError.GRPCCode, DeadlineExceededError.GRPCCode]

theorem patternMappings_code_ne_OK : ∀ m ∈ patternMappings, m.code ≠ Code.OK := by decide

theorem patternMappings_code_mem : ∀ m ∈ patternMappings,
    m.code ∈ [Code.NotFound, Code.PermissionDenied, Code.Unauthenticated, Code.AlreadyExists,
      Code.InvalidArgument, Code.Unavailable, Code.DeadlineExceeded] := by decide

/-- No mapping of the list matches: the loop falls through to `codes.Internal`. -/
theorem matchPatterns_of_no_match (msg : String) (ms : List PatternMapping)
    (h : ∀ m ∈ ms, ¬ m.Matches msg) : matchPatterns msg ms = statusError Code.Internal msg := by
  induction ms with
  | nil => rfl
  | cons x rest ih =>
    have hx : containsAny msg x.patterns = false := by
      have := h x (List.mem_cons_self _ _)
      rw [← containsAny_iff] at this
      simpa using this
    simp only [matchPatterns, hx]
    exact ih (fun m hm => h m (List.mem_cons_of_mem _ hm))

/-- The first mapping that matches decides the code. -/
theorem matchPatterns_of_first_match (msg : String) (earlier : List PatternMapping)
    (m : PatternMapping) (later : List PatternMapping)
    (hearlier : ∀ m' ∈ earlier, ¬ m'.Matches msg) (hm : m.Matches msg) :
    matchPatterns msg (earlier ++ m :: later) = statusError m.code msg := by
  induction earlier with
  | nil =>
    have hx : containsAny msg m.patterns = true := (containsAny_iff msg m).2 hm
    simp [matchPatterns, hx]
  | cons x rest ih =>
    have hx : containsAny msg x.patterns = false := by
      have := hearlier x (List.mem_cons_self _ _)
      rw [← containsAny_iff] at this
      simpa using this
    simp only [List.cons_append, matchPatterns, hx]
    exact ih (fun m' hm' => hearlier m' (List.mem_cons_of_mem _ hm'))

/-- Whatever the message, the pattern loop ends with a status the code of which is one of the
seven pattern codes or `Internal`. -/
theorem matchPatterns_total (msg : String) :
    ∀ ms : List PatternMapping, (∀ m ∈ ms, m ∈ patternMappings) →
      ∃ c, matchPatterns msg ms = some { code := c, message := msg } ∧
        c ∈ [Code.NotFound, Code.PermissionDenied, Code.Unauthenticated, Code.AlreadyExists,
          Code.InvalidArgument, Code.Unavailable, Code.DeadlineExceeded, Code.Internal]
  | [], _ => ⟨Code.Internal, rfl, by decide⟩
  | x :: rest, h => by
    by_cases hx : containsAny msg x.patterns = true
    · refine ⟨x.code, ?_, ?_⟩
      · simp [matchPatterns, hx,
          statusError_of_ne_OK (patternMappings_code_ne_OK x (h x (List.mem_cons_self _ _)))]
      · have := patternMappings_code_mem x (h x (List.mem_cons_self _ _))
        simp only [List.mem_cons] at this ⊢
        tauto
    · have hx' : containsAny msg x.patterns = false := by simpa using hx
      simp only [matchPatterns, hx']
      exact matchPatterns_total msg rest (fun m hm => h m (List.mem_cons_of_mem _ hm))

/-- The error has no coded error in its chain: `ErrorToStatus` takes the pattern path. -/
theorem ErrorToStatus_of_untyped (err : GoError) (h : chainCoded err = []) :
    ErrorToStatus (some err) = matchPatterns err.Error patternMappings := by
  have hAs : errorsAs err = none := by rw [errorsAs_eq_head, h]; rfl
  simp [ErrorToStatus, hAs]

/-- The first coded error of the chain decides the code, the whole error gives the message. -/
theorem ErrorToStatus_of_first_coded (err : GoError) (c : CodedError) (cs : List CodedError)
    (h : chainCoded err = c :: cs) :
    ErrorToStatus (some err) = statusError c.GRPCCode err.Error := by
  have hAs : errorsAs err = some c := by rw [errorsAs_eq_head, h]; rfl
  simp [ErrorToStatus, hAs]

/-- When the chain holds typed errors and no other coded error, its first coded error is its
first typed error. -/
theorem chainCoded_of_first_typed (err : GoError) (t : TypedError) (rest : List TypedError)
    (hfirst : chainTyped err = t :: rest) (honly : onlyTypedCoded err) :
    ∃ cs, chainCoded err = CodedError.typed t :: cs := by
  unfold chainTyped at hfirst
  unfold onlyTypedCoded at honly
  cases hc : chainCoded err with
  | nil => rw [hc] at hfirst; simp at hfirst
  | cons c cs =>
    rw [hc] at hfirst honly
    cases c with
    | foreign code msg =>
      have := honly (CodedError.foreign code msg) (List.mem_cons_self _ _)
      simp [CodedError.isTyped] at this
    | typed t' =>
      simp only [List.filterMap_cons] at hfirst
      have : t' = t := (List.cons.inj hfirst).1
      exact ⟨cs, by rw [this]⟩

theorem ErrorToStatus_of_first_typed (err : GoError) (t : TypedError) (rest : List TypedError)
    (hfirst : chainTyped err = t :: rest) (honly : onlyTypedCoded err) :
    ErrorToStatus (some err) = some { code := t.GRPCCode, message := err.Error } := by
  obtain ⟨cs, hcs⟩ := chainCoded_of_first_typed err t rest hfirst honly
  rw [ErrorToStatus_of_first_coded err _ cs hcs]
  exact statusError_of_ne_OK t.GRPCCode_ne_OK _

/-! ## Theorems: status translation -/

/-- C1: for each of the seven typed errors, whatever strings its context fields hold,
`ErrorToStatus` returns a status whose code is the fixed code of the kind: `NotFound`,
`PermissionDenied`, `Unauthenticated`, `AlreadyExists`, `InvalidArgument`, `Unavailable`,
`DeadlineExceeded`. -/
theorem C1_typed_error_fixed_code :
    (∀ e : NotFoundError,
      (ErrorToStatus (some (.coded (.typed (.notFound e))))).map Status.code
        = some Code.NotFound) ∧
    (∀ e : PermissionDeniedError,
      (ErrorToStatus (some (.coded (.typed (.permissionDenied e))))).map Status.code
        = some Code.PermissionDenied) ∧
    (∀ e : UnauthenticatedError,
      (ErrorToStatus (some (.coded (.typed (.unauthenticated e))))).map Status.code
        = some Code.Unauthenticated) ∧
    (∀ e : AlreadyExistsError,
      (ErrorToStatus (some (.coded (.typed (.alreadyExists e))))).map Status.code
        = some Code.AlreadyExists) ∧
    (∀ e : InvalidArgumentError,
      (ErrorToStatus (some (.coded (.typed (.invalidArgument e))))).map Status.code
        = some Code.InvalidArgument) ∧
    (∀ e : UnavailableError,
      (ErrorToStatus (some (.coded (.typed (.unavailable e))))).map Status.code
        = some Code.Unavailable) ∧
    (∀ e : DeadlineExceededError,
      (ErrorToStatus (some (.coded (.typed (.deadlineExceeded e))))).map Status.code
        = some Code.DeadlineExceeded) := by
  refine ⟨?_, ?_, ?_, ?_, ?_, ?_, ?_⟩ <;> intro e <;> rfl

/-- C2: for an error built by wrapping or joining typed and untyped errors (its chain holds no
coded error other than typed ones), if `t` is the first typed error of its chain then
`ErrorToStatus` returns the code of `t`, whatever the text of the errors around it. -/
theorem C2_wrapped_typed_error_code (err : GoError) (t : TypedError) (rest : List TypedError)
    (hfirst : chainTyped err = t :: rest) (honly : onlyTypedCoded err) :
    (ErrorToStatus (some err)).map Status.code = some t.GRPCCode := by
  rw [ErrorToStatus_of_first_typed err t rest hfirst honly]
  rfl

/-- C2 at `errors.Join(errors.New("context"), NewNotFoundError("machine", "host1"))`, the error
of `TestErrorToStatus_WrappedTypedError`: the code is `NotFound`. -/
theorem C2_wrapped_typed_error_code_witness :
    chainTyped (.joinError [.errorString "context",
        .coded (.typed (.notFound { Resource := "machine", ID := "host1" }))])
      = [TypedError.notFound { Resource := "machine", ID := "host1" }] ∧
    onlyTypedCoded (.joinError [.errorString "context",
        .coded (.typed (.notFound { Resource := "machine", ID := "host1" }))]) ∧
    (ErrorToStatus (some (.joinError [.errorString "context",
        .coded (.typed (.notFound { Resource := "machine", ID := "host1" }))]))).map Status.code
      = some Code.NotFound :=
  ⟨by decide, by unfold onlyTypedCoded; decide,
    C2_wrapped_typed_error_code _ (.notFound { Resource := "machine", ID := "host1" }) []
      (by decide) (by unfold onlyTypedCoded; decide)⟩

/-- C3: for an untyped error (no coded error in its chain), where a message contains a phrase
when the phrase is a substring of the lower-cased message: if the message contains a phrase of
exactly one kind, `ErrorToStatus` returns the code of that kind; if it contains no phrase of any
of the seven kinds, `ErrorToStatus` returns `Internal`. -/
theorem C3_untyped_error_single_kind (err : GoError) (huntyped : chainCoded err = []) :
    (∀ m ∈ patternMappings, m.Matches err.Error →
      (∀ m' ∈ patternMappings, m' ≠ m → ¬ m'.Matches err.Error) →
      (ErrorToStatus (some err)).map Status.code = some m.code) ∧
    ((∀ m ∈ patternMappings, ¬ m.Matches err.Error) →
      (ErrorToStatus (some err)).map Status.code = some Code.Internal) := by
  rw [ErrorToStatus_of_untyped err huntyped]
  constructor
  · intro m hm hmatch hothers
    obtain ⟨earlier, later, hsplit, hnot⟩ := List.eq_append_cons_of_mem hm
    have hearlier : ∀ m' ∈ earlier, ¬ m'.Matches err.Error := by
      intro m' hm'
      refine hothers m' ?_ ?_
      · rw [hsplit]; exact List.mem_append_left _ hm'
      · rintro rfl; exact hnot hm'
    rw [hsplit, matchPatterns_of_first_match _ earlier m later hearlier hmatch,
      statusError_of_ne_OK (patternMappings_code_ne_OK m hm)]
    rfl
  · intro hnone
    rw [matchPatterns_of_no_match _ _ hnone]
    rfl

/-- C3 at `errors.New("machine not found")`, which contains a phrase of the not-found kind only
(code `NotFound`), and at `errors.New("something went wrong")`, which contains no phrase (code
`Internal`). -/
theorem C3_untyped_error_single_kind_witness :
    chainCoded (.errorString "machine not found") = [] ∧
    (ErrorToStatus (some (.errorString "machine not found"))).map Status.code
      = some Code.NotFound ∧
    chainCoded (.errorString "something went wrong") = [] ∧
    (ErrorToStatus (some (.errorString "something went wrong"))).map Status.code
      = some Code.Internal :=
  ⟨rfl,
    (C3_untyped_error_single_kind (.errorString "machine not found") rfl).1
      { patterns := ["not found", "does not exist", "no such", "unknown"], code := Code.NotFound }
      (by decide)
      ((containsAny_iff _ _).1 (by decide))
      (fun m' h1 h2 hM =>
        (by decide : ∀ m' ∈ patternMappings,
          m' ≠ { patterns := ["not found", "does not exist", "no such", "unknown"],
                 code := Code.NotFound } →
          containsAny "machine not found" m'.patterns ≠ true) m' h1 h2
          ((containsAny_iff _ _).2 hM)),
    rfl,
    (C3_untyped_error_single_kind (.errorString "something went wrong") rfl).2
      (fun m h1 hM =>
        (by decide : ∀ m ∈ patternMappings,
          containsAny "something went wrong" m.patterns ≠ true) m h1
          ((containsAny_iff _ _).2 hM))⟩

/-- C4: the kinds are tested in the order not-found, permission-denied, unauthenticated,
already-exists, invalid-argument, unavailable, deadline-exceeded; for every untyped error the
code is that of the first kind one of whose phrases is a substring of the lower-cased message;
`"Invalid: machine NOT FOUND"` gives `NotFound`; and two messages with the same lower-cased
text get the same code. -/
theorem C4_first_matching_kind_wins :
    patternMappings.map PatternMapping.code
      = [Code.NotFound, Code.PermissionDenied, Code.Unauthenticated, Code.AlreadyExists,
          Code.InvalidArgument, Code.Unavailable, Code.DeadlineExceeded] ∧
    (∀ (err : GoError) (earlier : List PatternMapping) (m : PatternMapping)
        (later : List PatternMapping),
      chainCoded err = [] →
      patternMappings = earlier ++ m :: later →
      m.Matches err.Error →
      (∀ m' ∈ earlier, ¬ m'.Matches err.Error) →
      ErrorToStatus (some err) = some { code := m.code, message := err.Error }) ∧
    ErrorToStatus (some (.errorString "Invalid: machine NOT FOUND"))
      = some { code := Code.NotFound, message := "Invalid: machine NOT FOUND" } ∧
    (∀ err err' : GoError, chainCoded err = [] → chainCoded err' = [] →
      stringsToLower err.Error = stringsToLower err'.Error →
      (ErrorToStatus (some err)).map Status.code
        = (ErrorToStatus (some err')).map Status.code) := by
  refine ⟨by decide, ?_, by decide, ?_⟩
  · intro err earlier m later huntyped hsplit hmatch hearlier
    have hm : m ∈ patternMappings := by rw [hsplit]; simp
    rw [ErrorToStatus_of_untyped err huntyped, hsplit,
      matchPatterns_of_first_match _ earlier m later hearlier hmatch,
      statusError_of_ne_OK (patternMappings_code_ne_OK m hm)]
  · intro err err' hu hu' hlower
    rw [ErrorToStatus_of_untyped err hu, ErrorToStatus_of_untyped err' hu']
    generalize patternMappings = ms
    induction ms with
    | nil => simp [matchPatterns, statusError]
    | cons x rest ih =>
      have hx : containsAny err.Error x.patterns = containsAny err'.Error x.patterns := by
        unfold containsAny; rw [hlower]
      simp only [matchPatterns, hx]
      split
      · simp only [statusError]; split <;> rfl
      · exact ih

/-- C4 at `errors.New("Bad hostname: ILLEGAL character")`: the four kinds before
invalid-argument do not match, the invalid-argument kind does (through `"illegal"`, in upper
case in the message), and the code is `InvalidArgument`. -/
theorem C4_first_matching_kind_wins_witness :
    chainCoded (.errorString "Bad hostname: ILLEGAL character") = [] ∧
    patternMappings = patternMappings.take 4 ++
      { patterns := ["invalid", "malformed", "bad request", "illegal"],
        code := Code.InvalidArgument } :: patternMappings.drop 5 ∧
    ErrorToStatus (some (.errorString "Bad hostname: ILLEGAL character"))
      = some { code := Code.InvalidArgument, message := "Bad hostname: ILLEGAL character" } :=
  ⟨rfl, by decide,
    C4_first_matching_kind_wins.2.1 (.errorString "Bad hostname: ILLEGAL character")
      (patternMappings.take 4)
      { patterns := ["invalid", "malformed", "bad request", "illegal"],
        code := Code.InvalidArgument }
      (patternMappings.drop 5) rfl (by decide) ((containsAny_iff _ _).1 (by decide))
      (fun m' h1 hM =>
        (by decide : ∀ m' ∈ patternMappings.take 4,
          containsAny "Bad hostname: ILLEGAL character" m'.patterns ≠ true) m' h1
          ((containsAny_iff _ _).2 hM))⟩

/-- C5 fails for a joined error: for
`errors.Join(errors.New("context"), NewNotFoundError("machine", "host1"))` the code is
`NotFound` but the message of the status is the text of the whole joined error,
`"context\nmachine host1 not found"`, not the text of the typed error,
`"machine host1 not found"`. -/
theorem C5_message_is_typed_text_counterexample :
    chainTyped (.joinError [.errorString "context",
        .coded (.typed (.notFound { Resource := "machine", ID := "host1" }))])
      = [TypedError.notFound { Resource := "machine", ID := "host1" }] ∧
    (TypedError.notFound { Resource := "machine", ID := "host1" }).Error
      = "machine host1 not found" ∧
    ErrorToStatus (some (.joinError [.errorString "context",
        .coded (.typed (.notFound { Resource := "machine", ID := "host1" }))]))
      = some { code := Code.NotFound, message := "context\nmachine host1 not found" } ∧
    (ErrorToStatus (some (.joinError [.errorString "context",
        .coded (.typed (.notFound { Resource := "machine", ID := "host1" }))]))).map
          Status.message
      ≠ some (TypedError.notFound { Resource := "machine", ID := "host1" }).Error := by
  decide

/-- C5 as amended: for an error whose chain holds a typed error (and no coded error other than
typed ones), the status has the fixed code of the first typed error `t` of the chain and its
message is the rendered text of the whole error given to `ErrorToStatus`; that text is the
typed error's own `Error()` string when the error is the typed error itself. -/
theorem C5_typed_code_and_whole_message (err : GoError) (t : TypedError)
    (rest : List TypedError) (hfirst : chainTyped err = t :: rest)
    (honly : onlyTypedCoded err) :
    ErrorToStatus (some err) = some { code := t.GRPCCode, message := err.Error } ∧
    ErrorToStatus (some (.coded (.typed t))) = some { code := t.GRPCCode, message := t.Error } :=
  ⟨ErrorToStatus_of_first_typed err t rest hfirst honly,
    ErrorToStatus_of_first_typed (.coded (.typed t)) t [] rfl
      (by intro c hc
          have : c = CodedError.typed t := by simpa [chainCoded, GoError.chain,
            GoError.asCoded] using hc
          rw [this]; rfl)⟩

/-- C5 as amended, at `fmt.Errorf("lookup failed: %w", NewUnavailableError("topology",
"loading"))`: code `Unavailable`, message the wrapper's text. -/
theorem C5_typed_code_and_whole_message_witness :
    chainTyped (.wrapError "lookup failed: topology unavailable: loading"
        (.coded (.typed (.unavailable { Service := "topology", Reason := "loading" }))))
      = [TypedError.unavailable { Service := "topology", Reason := "loading" }] ∧
    onlyTypedCoded (.wrapError "lookup failed: topology unavailable: loading"
        (.coded (.typed (.unavailable { Service := "topology", Reason := "loading" })))) ∧
    ErrorToStatus (some (.wrapError "lookup failed: topology unavailable: loading"
        (.coded (.typed (.unavailable { Service := "topology", Reason := "loading" })))))
      = some { code := Code.Unavailable,
               message := "lookup failed: topology unavailable: loading" } :=
  ⟨by decide, by unfold onlyTypedCoded; decide,
    (C5_typed_code_and_whole_message _
      (.unavailable { Service := "topology", Reason := "loading" }) []
      (by decide) (by unfold onlyTypedCoded; decide)).1⟩

/-- C6: `ErrorToStatus(nil)` is nil, and for every non-nil error whose chain holds no coded
error other than the seven typed kinds it returns a non-nil status error whose code is one of
`NotFound`, `PermissionDenied`, `Unauthenticated`, `AlreadyExists`, `InvalidArgument`,
`Unavailable`, `DeadlineExceeded`, `Internal` (so never `OK` and never `Unimplemented`) and
whose message is the text of the error. `ErrorToStatus` being a total function of the error
value, the same input gives the same code and message. -/
theorem C6_total_translation :
    ErrorToStatus none = none ∧
    (∀ err : GoError, onlyTypedCoded err →
      ∃ st : Status, ErrorToStatus (some err) = some st ∧
        st.code ∈ [Code.NotFound, Code.PermissionDenied, Code.Unauthenticated,
          Code.AlreadyExists, Code.InvalidArgument, Code.Unavailable, Code.DeadlineExceeded,
          Code.Internal] ∧
        st.code ≠ Code.OK ∧ st.code ≠ Code.Unimplemented ∧
        st.message = err.Error) := by
  refine ⟨rfl, ?_⟩
  intro err honly
  have key : ∃ st : Status, ErrorToStatus (some err) = some st ∧
      st.code ∈ [Code.NotFound, Code.PermissionDenied, Code.Unauthenticated,
        Code.AlreadyExists, Code.InvalidArgument, Code.Unavailable, Code.DeadlineExceeded,
        Code.Internal] ∧ st.message = err.Error := by
    cases hc : chainCoded err with
    | nil =>
      obtain ⟨c, hres, hmem⟩ := matchPatterns_total err.Error patternMappings (fun _ h => h)
      exact ⟨_, by rw [ErrorToStatus_of_untyped err hc, hres], hmem, rfl⟩
    | cons c cs =>
      have hty : c.isTyped = true := honly c (by rw [hc]; exact List.mem_cons_self _ _)
      cases c with
      | foreign code msg => simp [CodedError.isTyped] at hty
      | typed t =>
        refine ⟨_, by rw [ErrorToStatus_of_first_coded err _ cs hc]; exact
          statusError_of_ne_OK t.GRPCCode_ne_OK _, ?_, rfl⟩
        have := t.GRPCCode_mem
        simp only [List.mem_cons] at this ⊢
        tauto
  obtain ⟨st, hres, hmem, hmsg⟩ := key
  refine ⟨st, hres, hmem, ?_, ?_, hmsg⟩
  · intro h; rw [h] at hmem; revert hmem; decide
  · intro h; rw [h] at hmem; revert hmem; decide

/-- C6 at `errors.Join(errors.New("context"), NewDeadlineExceededError("GetMachineInfo",
"30s"))`: a status of code `DeadlineExceeded`. -/
theorem C6_total_translation_witness :
    onlyTypedCoded (.joinError [.errorString "context", .coded (.typed
      (.deadlineExceeded { Operation := "GetMachineInfo", Timeout := "30s" }))]) ∧
    ∃ st : Status, ErrorToStatus (some (.joinError [.errorString "context", .coded (.typed
      (.deadlineExceeded { Operation := "GetMachineInfo", Timeout := "30s" }))])) = some st ∧
      st.code ∈ [Code.NotFound, Code.PermissionDenied, Code.Unauthenticated,
          Code.AlreadyExists, Code.InvalidArgument, Code.Unavailable, Code.DeadlineExceeded,
          Code.Internal] ∧
      st.code ≠ Code.OK ∧ st.code ≠ Code.Unimplemented ∧
      st.message = "context\nGetMachineInfo exceeded deadline of 30s" :=
  ⟨by unfold onlyTypedCoded; decide,
    C6_total_translation.2 _ (by unfold onlyTypedCoded; decide)⟩

/-! ## Lemmas: `%d` written by `Sprintf` and read back by `Sscanf` -/

theorem digitChar_facts (d : Nat) (hd : d < 10) :
    (Char.ofNat (48 + d)).isDigit = true ∧ (Char.ofNat (48 + d)).toNat - 48 = d ∧
    isSpace (Char.ofNat (48 + d)) = false ∧ Char.ofNat (48 + d) ≠ '\n' ∧
    Char.ofNat (48 + d) ≠ '\r' ∧ Char.ofNat (48 + d) ≠ '+' ∧ Char.ofNat (48 + d) ≠ '-' ∧
    isScanDigit (Char.ofNat (48 + d)) = true := by
  interval_cases d <;> decide

/-- The digit loop puts in front of `acc` a non-empty run of digit characters that
`parseDigits` reads back as `u`. -/
theorem digitsLoop_spec : ∀ (fuel u : Nat) (acc : List Char), u < fuel →
    ∃ ds : List Char, digitsLoop fuel u acc = ds ++ acc ∧ ds ≠ [] ∧
      (∀ c ∈ ds, ∃ d, d < 10 ∧ c = Char.ofNat (48 + d)) ∧
      ∀ (k : Nat) (rest : List Char),
        parseDigits (ds ++ rest) k = parseDigits rest (k * 10 ^ ds.length + u)
  | 0, _, _, h => absurd h (Nat.not_lt_zero _)
  | fuel + 1, u, acc, h => by
    by_cases hu : u < 10
    · refine ⟨[Char.ofNat (48 + u)], by simp [digitsLoop, hu], by simp, ?_, ?_⟩
      · intro c hc
        exact ⟨u, hu, by simpa using hc⟩
      · intro k rest
        obtain ⟨h1, h2, -⟩ := digitChar_facts u hu
        simp [parseDigits, h1, h2]
    · have hlt : u / 10 < fuel := by omega
      obtain ⟨ds, hds, hne, hdig, hparse⟩ :=
        digitsLoop_spec fuel (u / 10) (Char.ofNat (48 + u % 10) :: acc) hlt
      refine ⟨ds ++ [Char.ofNat (48 + u % 10)], by simp [digitsLoop, hu, hds], by simp, ?_, ?_⟩
      · intro c hc
        rcases List.mem_append.1 hc with hc | hc
        · exact hdig c hc
        · exact ⟨u % 10, Nat.mod_lt _ (by decide), by simpa using hc⟩
      · intro k rest
        obtain ⟨h1, h2, -⟩ := digitChar_facts (u % 10) (Nat.mod_lt _ (by decide))
        rw [List.append_assoc, hparse]
        simp only [List.singleton_append, parseDigits, h1, if_true, h2, List.length_append,
          List.length_singleton]
        congr 1
        rw [pow_succ]
        have := Nat.div_add_mod u 10
        nlinarith [this]

theorem formatUint_spec (u : Nat) :
    ∃ (d : Nat) (ds : List Char), formatUint u = Char.ofNat (48 + d) :: ds ∧ d < 10 ∧
      (∀ c ∈ formatUint u, isScanDigit c = true) ∧ parseDigits (formatUint u) 0 = some u := by
  obtain ⟨ds, hds, hne, hdig, hparse⟩ := digitsLoop_spec (u + 1) u [] (Nat.lt_succ_self u)
  rw [List.append_nil] at hds
  have hfmt : formatUint u = ds := hds
  cases ds with
  | nil => exact absurd rfl hne
  | cons c cs =>
    obtain ⟨d, hd, hc⟩ := hdig c (List.mem_cons_self _ _)
    refine ⟨d, cs, by rw [hfmt, hc], hd, ?_, ?_⟩
    · intro x hx
      rw [hfmt] at hx
      obtain ⟨d', hd', hx'⟩ := hdig x hx
      rw [hx']
      exact (digitChar_facts d' hd').2.2.2.2.2.2.2
    · have := hparse 0 []
      rw [List.append_nil] at this
      rw [hfmt, this]
      simp [parseDigits]

theorem takeWhile_eq_self_of_all {α : Type} (q : α → Bool) :
    ∀ l : List α, (∀ x ∈ l, q x = true) → l.takeWhile q = l
  | [], _ => rfl
  | x :: xs, h => by
    rw [List.takeWhile_cons, h x (List.mem_cons_self _ _)]
    simp only [if_true]
    rw [takeWhile_eq_self_of_all q xs (fun y hy => h y (List.mem_cons_of_mem _ hy))]

/-- The decimal text `Sprintf("%d", i)` writes for an `int` is read back by
`Sscanf(_, "%d", _)` as `i`. -/
theorem sscanfInt_sprintfInt (i : Int) (hmin : MinInt ≤ i) (hmax : i ≤ MaxInt) :
    sscanfInt (sprintfInt i) = some i := by
  obtain ⟨d, ds, hfmt, hd, hall, hparse⟩ := formatUint_spec i.natAbs
  obtain ⟨-, -, hsp, hnl, hcr, hplus, hminus, -⟩ := digitChar_facts d hd
  have htake : (formatUint i.natAbs).takeWhile isScanDigit = formatUint i.natAbs :=
    takeWhile_eq_self_of_all _ _ hall
  by_cases hneg : i < 0
  · have hdata : (sprintfInt i).data = '-' :: formatUint i.natAbs := by
      simp [sprintfInt, hneg]
    have hsp' : isSpace '-' = false := by decide
    have hskip : skipSpace ('-' :: formatUint i.natAbs) = some ('-' :: formatUint i.natAbs) := by
      simp [skipSpace, hsp']
    have hval : -((i.natAbs : Nat) : Int) = i := by omega
    unfold sscanfInt
    rw [hdata, hskip]
    simp only [or_true, if_true, htake, hparse]
    rw [if_neg (by rw [hfmt]; simp)]
    simp only [eq_self_iff_true, if_true, hval]
    rw [if_pos ⟨hmin, hmax⟩]
  · have hdata : (sprintfInt i).data = formatUint i.natAbs := by
      simp [sprintfInt, hneg]
    have hskip : skipSpace (Char.ofNat (48 + d) :: ds) = some (Char.ofNat (48 + d) :: ds) := by
      simp [skipSpace, hsp, hnl, hcr]
    have hval : ((i.natAbs : Nat) : Int) = i := by omega
    unfold sscanfInt
    rw [hdata, hfmt, hskip]
    simp only [hplus, hminus, or_self, if_false]
    rw [← hfmt, htake, hparse]
    rw [if_neg (by rw [hfmt]; simp)]
    simp only [hminus, if_false, hval]
    rw [if_pos ⟨hmin, hmax⟩]

theorem sprintfInt_ne_empty (i : Int) : sprintfInt i ≠ "" := by
  obtain ⟨d, ds, hfmt, -⟩ := formatUint_spec i.natAbs
  unfold sprintfInt
  split
  · intro h
    have := congrArg String.data h
    simp at this
  · intro h
    have := congrArg String.data h
    rw [hfmt] at this
    simp at this

theorem sscanfInt_empty : sscanfInt "" = none := by decide

/-! ## Lemmas: the page computation -/

theorem wrapInt_eq (x : Int) (hmin : MinInt ≤ x) (hmax : x ≤ MaxInt) : wrapInt x = x := by
  unfold wrapInt
  unfold MinInt at hmin
  unfold MaxInt at hmax
  omega

/-- A positive page size: the page is `ipAddrs[s : min(s+p, n)]`, with a token when items
remain. -/
theorem pageFrom_positive (ipAddrs : List IP) (p s : Nat) (tok : String)
    (hlen : ipAddrs.length < maxSliceLen) (hp : 1 ≤ p) (hp32 : (p : Int) ≤ MaxInt32)
    (hs : s ≤ ipAddrs.length) :
    pageFrom ipAddrs { PageSize := (p : Int), PageToken := tok } (s : Int)
      = HandlerResult.returned
          (some { IpAddresses := (ipAddrs.take (min (s + p) ipAddrs.length)).drop s,
                  NextPageToken :=
                    if s + p < ipAddrs.length then sprintfInt ((s + p : Nat) : Int) else "" })
          none := by
  unfold maxSliceLen at hlen
  unfold MaxInt32 at hp32
  have hw : wrapInt ((s : Int) + (p : Int)) = ((s + p : Nat) : Int) := by
    rw [wrapInt_eq _ (by unfold MinInt; omega) (by unfold MaxInt; omega)]
    push_cast; rfl
  have hp0 : ¬ ((p : Int) ≤ 0) := by omega
  unfold pageFrom sliceExpr
  simp only [hp0, if_false, hw, List.map_id']
  by_cases hmore : s + p < ipAddrs.length
  · have h1 : ((s + p : Nat) : Int) < (ipAddrs.length : Int) := by omega
    have h2 : (0 : Int) ≤ (s : Int) ∧ (s : Int) ≤ ((s + p : Nat) : Int) ∧
        ((s + p : Nat) : Int) ≤ (ipAddrs.length : Int) := by omega
    have h3 : (((s + p : Nat) : Int) - (s : Int)).toNat = min (s + p) ipAddrs.length - s := by
      omega
    simp only [h1, hmore, if_true, h2, and_self, Int.toNat_ofNat, h3, List.drop_take]
  · have h1 : ¬ ((s + p : Nat) : Int) < (ipAddrs.length : Int) := by omega
    have h2 : (0 : Int) ≤ (s : Int) ∧ (s : Int) ≤ (ipAddrs.length : Int) ∧
        (ipAddrs.length : Int) ≤ (ipAddrs.length : Int) := by omega
    have h3 : ((ipAddrs.length : Int) - (s : Int)).toNat = min (s + p) ipAddrs.length - s := by
      omega
    simp only [h1, hmore, if_false, h2, and_self, if_true, Int.toNat_ofNat, h3, List.drop_take]

/-- A page size of zero or less: the page is all of `ipAddrs[s:]`, with no token. -/
theorem pageFrom_all (ipAddrs : List IP) (p : Int) (s : Nat) (tok : String)
    (hlen : ipAddrs.length < maxSliceLen) (hp : p ≤ 0) (hs : s ≤ ipAddrs.length) :
    pageFrom ipAddrs { PageSize := p, PageToken := tok } (s : Int)
      = HandlerResult.returned (some { IpAddresses := ipAddrs.drop s, NextPageToken := "" })
          none := by
  unfold maxSliceLen at hlen
  have hw1 : wrapInt ((ipAddrs.length : Int) - (s : Int)) = (ipAddrs.length : Int) - (s : Int) :=
    wrapInt_eq _ (by unfold MinInt; omega) (by unfold MaxInt; omega)
  have hw2 : wrapInt ((s : Int) + ((ipAddrs.length : Int) - (s : Int))) = (ipAddrs.length : Int) := by
    rw [wrapInt_eq _ (by unfold MinInt; omega) (by unfold MaxInt; omega)]
    omega
  have h2 : (0 : Int) ≤ (s : Int) ∧ (s : Int) ≤ (ipAddrs.length : Int) ∧
      (ipAddrs.length : Int) ≤ (ipAddrs.length : Int) := by omega
  have h3 : ((ipAddrs.length : Int) - (s : Int)).toNat = ipAddrs.length - s := by omega
  unfold pageFrom sliceExpr
  simp only [hp, if_true, hw1, hw2, lt_self_iff_false, if_false, h2, and_self, Int.toNat_ofNat,
    h3, List.map_id']
  rw [List.take_of_length_le (by simp)]

/-! ## Theorems: pagination of `ListVMsInLocation` -/

/-- C7: for a result list of length `n`, a page size `p ≥ 1` and a start offset `s < n` given
as the empty token (`s = 0`) or as the decimal text of `s`, the handler returns the page
`ipAddrs[s : min(s+p, n)]`, and the next-page token is the decimal text of `s+p` when
`s+p < n` and empty otherwise. -/
theorem C7_page_and_next_token (ipAddrs : List IP) (p s : Nat) (tok : String)
    (hlen : ipAddrs.length < maxSliceLen) (hp : 1 ≤ p) (hp32 : (p : Int) ≤ MaxInt32)
    (hs : s < ipAddrs.length)
    (htok : tok = sprintfInt (s : Int) ∨ (tok = "" ∧ s = 0)) :
    grpcServer.ListVMsInLocation ipAddrs none { PageSize := (p : Int), PageToken := tok }
      = HandlerResult.returned
          (some { IpAddresses := (ipAddrs.take (min (s + p) ipAddrs.length)).drop s,
                  NextPageToken :=
                    if s + p < ipAddrs.length then sprintfInt ((s + p : Nat) : Int) else "" })
          none := by
  have hpage := pageFrom_positive ipAddrs p s tok hlen hp hp32 (Nat.le_of_lt hs)
  rcases htok with htok | ⟨htok, hs0⟩
  · have hscan : sscanfInt tok = some (s : Int) := by
      rw [htok]
      unfold maxSliceLen at hlen
      exact sscanfInt_sprintfInt _ (by unfold MinInt; omega) (by unfold MaxInt; omega)
    have hne : tok ≠ "" := by rw [htok]; exact sprintfInt_ne_empty _
    have hin : ¬ ((s : Int) ≥ (ipAddrs.length : Int)) := by omega
    unfold grpcServer.ListVMsInLocation
    simp only [hne, ne_eq, not_false_eq_true, if_true, hscan, hin, if_false]
    exact hpage
  · subst hs0
    unfold grpcServer.ListVMsInLocation
    simp only [htok, ne_eq, not_true_eq_false, if_false]
    rw [htok] at hpage
    exact hpage

/-- C7 on `[A, B, C, D, E]` with page size 2: the empty token gives `[A, B]` and the token
`"2"`, the token `"2"` gives `[C, D]` and the token `"4"`, the token `"4"` gives `[E]` and no
token. -/
theorem C7_page_and_next_token_witness :
    grpcServer.ListVMsInLocation [ipA, ipB, ipC, ipD, ipE] none
        { PageSize := 2, PageToken := "" }
      = HandlerResult.returned (some { IpAddresses := [ipA, ipB], NextPageToken := "2" })
          none ∧
    grpcServer.ListVMsInLocation [ipA, ipB, ipC, ipD, ipE] none
        { PageSize := 2, PageToken := "2" }
      = HandlerResult.returned (some { IpAddresses := [ipC, ipD], NextPageToken := "4" })
          none ∧
    grpcServer.ListVMsInLocation [ipA, ipB, ipC, ipD, ipE] none
        { PageSize := 2, PageToken := "4" }
      = HandlerResult.returned (some { IpAddresses := [ipE], NextPageToken := "" }) none :=
  ⟨(C7_page_and_next_token [ipA, ipB, ipC, ipD, ipE] 2 0 "" (by decide) (by decide)
      (by decide) (by decide) (Or.inr ⟨rfl, rfl⟩)).trans (by decide),
    (C7_page_and_next_token [ipA, ipB, ipC, ipD, ipE] 2 2 "2" (by decide) (by decide)
      (by decide) (by decide) (Or.inl (by decide))).trans (by decide),
    (C7_page_and_next_token [ipA, ipB, ipC, ipD, ipE] 2 4 "4" (by decide) (by decide)
      (by decide) (by decide) (Or.inl (by decide))).trans (by decide)⟩

/-- C8 fails: on `[A, B, C, D, E]` with page size 2 the third call (token `"4"`) returns `[E]`
with no token, and a fourth call made with that empty token does not return the empty page:
it returns `[A, B]` with the token `"2"`. -/
theorem C8_fourth_call_counterexample :
    grpcServer.ListVMsInLocation [ipA, ipB, ipC, ipD, ipE] none
        { PageSize := 2, PageToken := "4" }
      = HandlerResult.returned (some { IpAddresses := [ipE], NextPageToken := "" }) none ∧
    grpcServer.ListVMsInLocation [ipA, ipB, ipC, ipD, ipE] none
        { PageSize := 2, PageToken := "" }
      ≠ HandlerResult.returned (some { IpAddresses := [], NextPageToken := "" }) none := by
  decide

/-- C8 as amended: on `[A, B, C, D, E]` with page size 2, after the third call has returned
`[E]` with no next token, a fourth call made with that empty token starts again at offset 0 and
returns the first page `[A, B]` with the next token `"2"`. -/
theorem C8_fourth_call_restarts :
    grpcServer.ListVMsInLocation [ipA, ipB, ipC, ipD, ipE] none
        { PageSize := 2, PageToken := "4" }
      = HandlerResult.returned (some { IpAddresses := [ipE], NextPageToken := "" }) none ∧
    grpcServer.ListVMsInLocation [ipA, ipB, ipC, ipD, ipE] none
        { PageSize := 2, PageToken := "" }
      = HandlerResult.returned (some { IpAddresses := [ipA, ipB], NextPageToken := "2" })
          none := by
  decide

/-- C9: for a page token that is empty (offset `s = 0`) or the decimal text of an offset
`s < n`, and a page size of zero or less, the page is all the remaining items `ipAddrs[s:n]`
and the next-page token is empty. -/
theorem C9_nonpositive_page_size_returns_rest (ipAddrs : List IP) (p : Int) (s : Nat)
    (tok : String) (hlen : ipAddrs.length < maxSliceLen) (hp : p ≤ 0)
    (htok : (tok = sprintfInt (s : Int) ∧ s < ipAddrs.length) ∨ (tok = "" ∧ s = 0)) :
    grpcServer.ListVMsInLocation ipAddrs none { PageSize := p, PageToken := tok }
      = HandlerResult.returned (some { IpAddresses := ipAddrs.drop s, NextPageToken := "" })
          none := by
  rcases htok with ⟨htok, hs⟩ | ⟨htok, hs0⟩
  · have hpage := pageFrom_all ipAddrs p s tok hlen hp (Nat.le_of_lt hs)
    have hscan : sscanfInt tok = some (s : Int) := by
      rw [htok]
      unfold maxSliceLen at hlen
      exact sscanfInt_sprintfInt _ (by unfold MinInt; omega) (by unfold MaxInt; omega)
    have hne : tok ≠ "" := by rw [htok]; exact sprintfInt_ne_empty _
    have hin : ¬ ((s : Int) ≥ (ipAddrs.length : Int)) := by omega
    unfold grpcServer.ListVMsInLocation
    simp only [hne, ne_eq, not_false_eq_true, if_true, hscan, hin, if_false]
    exact hpage
  · subst hs0
    have hpage := pageFrom_all ipAddrs p 0 "" hlen hp (Nat.zero_le _)
    unfold grpcServer.ListVMsInLocation
    simp only [htok, ne_eq, not_true_eq_false, if_false]
    exact hpage

/-- C9 on `[A, B, C, D, E]`: with the token `"2"` and page size 0 the page is `[C, D, E]`, with
the empty token and page size -3 it is the whole list; no token in either case. -/
theorem C9_nonpositive_page_size_returns_rest_witness :
    grpcServer.ListVMsInLocation [ipA, ipB, ipC, ipD, ipE] none
        { PageSize := 0, PageToken := "2" }
      = HandlerResult.returned (some { IpAddresses := [ipC, ipD, ipE], NextPageToken := "" })
          none ∧
    grpcServer.ListVMsInLocation [ipA, ipB, ipC, ipD, ipE] none
        { PageSize := -3, PageToken := "" }
      = HandlerResult.returned
          (some { IpAddresses := [ipA, ipB, ipC, ipD, ipE], NextPageToken := "" }) none :=
  ⟨C9_nonpositive_page_size_returns_rest [ipA, ipB, ipC, ipD, ipE] 0 2 "2" (by decide)
      (by decide) (Or.inl ⟨by decide, by decide⟩),
    C9_nonpositive_page_size_returns_rest [ipA, ipB, ipC, ipD, ipE] (-3) 0 "" (by decide)
      (by decide) (Or.inr ⟨rfl, rfl⟩)⟩

/-- C10: for every result list (of any length `n`, zero included) and every page size, a token
that decodes to an offset `s ≥ n`, and the empty token when `n = 0`, give a successful response
(a nil error, no panic) with an empty page and an empty next-page token. -/
theorem C10_start_past_end_is_empty_page (ipAddrs : List IP) (p : Int)
    (hmax : p ≤ MaxInt32) :
    (∀ (tok : String) (s : Int), sscanfInt tok = some s → (ipAddrs.length : Int) ≤ s →
      grpcServer.ListVMsInLocation ipAddrs none { PageSize := p, PageToken := tok }
        = HandlerResult.returned (some { IpAddresses := [], NextPageToken := "" }) none) ∧
    (ipAddrs = [] →
      grpcServer.ListVMsInLocation ipAddrs none { PageSize := p, PageToken := "" }
        = HandlerResult.returned (some { IpAddresses := [], NextPageToken := "" }) none) := by
  constructor
  · intro tok s hscan hpast
    have hne : tok ≠ "" := by
      intro h
      rw [h, sscanfInt_empty] at hscan
      exact Option.noConfusion hscan
    unfold grpcServer.ListVMsInLocation
    simp only [hne, ne_eq, not_false_eq_true, if_true, hscan, ge_iff_le, hpast]
  · intro hnil
    subst hnil
    unfold MaxInt32 at hmax
    unfold grpcServer.ListVMsInLocation
    simp only [ne_eq, not_true_eq_false, if_false]
    by_cases hp : p ≤ 0
    · exact pageFrom_all [] p 0 "" (by decide) hp (Nat.le_refl _)
    · have hw : wrapInt p = p :=
        wrapInt_eq _ (by unfold MinInt; omega) (by unfold MaxInt; omega)
      have h1 : ¬ (p < 0) := by omega
      unfold pageFrom sliceExpr
      simp [hp, hw, h1]

/-- C10 on `[A, B, C, D, E]` with the tokens `"5"` and `"7"`, and on the empty list with the
empty token: an empty page and no token. -/
theorem C10_start_past_end_is_empty_page_witness :
    grpcServer.ListVMsInLocation [ipA, ipB, ipC, ipD, ipE] none
        { PageSize := 2, PageToken := "5" }
      = HandlerResult.returned (some { IpAddresses := [], NextPageToken := "" }) none ∧
    grpcServer.ListVMsInLocation [ipA, ipB, ipC, ipD, ipE] none
        { PageSize := 2, PageToken := "7" }
      = HandlerResult.returned (some { IpAddresses := [], NextPageToken := "" }) none ∧
    grpcServer.ListVMsInLocation [] none { PageSize := 2, PageToken := "" }
      = HandlerResult.returned (some { IpAddresses := [], NextPageToken := "" }) none :=
  ⟨(C10_start_past_end_is_empty_page [ipA, ipB, ipC, ipD, ipE] 2 (by decide)).1
      "5" 5 (by decide) (by decide),
    (C10_start_past_end_is_empty_page [ipA, ipB, ipC, ipD, ipE] 2 (by decide)).1
      "7" 7 (by decide) (by decide),
    (C10_start_past_end_is_empty_page [] 2 (by decide)).2 rfl⟩


/-! ## Lemmas: the codes of `ErrorToStatus` -/

/-- For an error whose chain holds no coded error other than typed ones, `ErrorToStatus`
returns a status with one of the seven kind codes or `Internal`, and the text of the error. -/
theorem ErrorToStatus_of_onlyTyped (err : GoError) (honly : onlyTypedCoded err) :
    ∃ st : Status, ErrorToStatus (some err) = some st ∧
      st.code ∈ [Code.NotFound, Code.PermissionDenied, Code.Unauthenticated,
        Code.AlreadyExists, Code.InvalidArgument, Code.Unavailable, Code.DeadlineExceeded,
        Code.Internal] ∧ st.message = err.Error := by
  cases hc : chainCoded err with
  | nil =>
    obtain ⟨c, hres, hmem⟩ := matchPatterns_total err.Error patternMappings (fun _ h => h)
    exact ⟨_, by rw [ErrorToStatus_of_untyped err hc, hres], hmem, rfl⟩
  | cons c cs =>
    have hty : c.isTyped = true := honly c (by rw [hc]; exact List.mem_cons_self _ _)
    cases c with
    | foreign code msg => simp [CodedError.isTyped] at hty
    | typed t =>
      refine ⟨_, by rw [ErrorToStatus_of_first_coded err _ cs hc]; exact
        statusError_of_ne_OK t.GRPCCode_ne_OK _, ?_, rfl⟩
      have := t.GRPCCode_mem
      simp only [List.mem_cons] at this ⊢
      tauto

/-! ## Theorems: malformed page tokens -/

/-- C11, the handler at malformed page tokens: the token `"abc"` gives a status of code
`InvalidArgument`, but the token `"not found"` gives a status of code `NotFound` (the text of
the error, `"invalid page token: not found"`, holds a not-found phrase, and that kind is tested
first), the token `"12abc"` is read as the offset 12 and gives a successful (empty) page, and
the token `"-1abc"` is read as the offset -1 and makes the handler panic. -/
theorem C11_malformed_token_divergence :
    grpcServer.ListVMsInLocation [ipA, ipB, ipC, ipD, ipE] none
        { PageSize := 2, PageToken := "abc" }
      = HandlerResult.returned none
          (some { code := Code.InvalidArgument, message := "invalid page token: abc" }) ∧
    grpcServer.ListVMsInLocation [ipA, ipB, ipC, ipD, ipE] none
        { PageSize := 2, PageToken := "not found" }
      = HandlerResult.returned none
          (some { code := Code.NotFound, message := "invalid page token: not found" }) ∧
    grpcServer.ListVMsInLocation [ipA, ipB, ipC, ipD, ipE] none
        { PageSize := 2, PageToken := "12abc" }
      = HandlerResult.returned (some { IpAddresses := [], NextPageToken := "" }) none ∧
    grpcServer.ListVMsInLocation [ipA, ipB, ipC, ipD, ipE] none
        { PageSize := 2, PageToken := "-1abc" }
      = HandlerResult.panicked := by
  decide

/-! ## Theorems: `CreateVmAsync` request validation and conversion -/

/-- C12: `validateNoStreamingFields` returns nil exactly when `ImageDataSize` is 0,
`UserDataSize` is 0 and `SecondaryVolumesData` is false; otherwise it returns a status error of
code `Unimplemented` whose message names the first offending field, in the order
`ImageDataSize`, `UserDataSize`, `SecondaryVolumesData`. `Unimplemented` is none of the codes
`ErrorToStatus` gives to an error whose chain holds no coded error other than the typed
kinds. -/
theorem C12_streaming_fields_unimplemented :
    (∀ request : hypervisor.CreateVmRequest,
      (validateNoStreamingFields request = none ↔
        ¬ (request.ImageDataSize > 0 ∨ request.UserDataSize > 0 ∨
            request.SecondaryVolumesData = true)) ∧
      ((request.ImageDataSize > 0 ∨ request.UserDataSize > 0 ∨
            request.SecondaryVolumesData = true) →
        ∃ st, validateNoStreamingFields request = some st ∧ st.code = Code.Unimplemented) ∧
      (request.ImageDataSize > 0 →
        validateNoStreamingFields request = some
          { code := Code.Unimplemented,
            message := "ImageDataSize streaming not supported in CreateVmAsync - use ImageName or ImageURL instead, or use CreateVm streaming API" }) ∧
      (request.ImageDataSize = 0 → request.UserDataSize > 0 →
        validateNoStreamingFields request = some
          { code := Code.Unimplemented,
            message := "UserDataSize streaming not supported in CreateVmAsync - use CreateVm streaming API" }) ∧
      (request.ImageDataSize = 0 → request.UserDataSize = 0 →
        request.SecondaryVolumesData = true →
        validateNoStreamingFields request = some
          { code := Code.Unimplemented,
            message := "SecondaryVolumesData streaming not supported in CreateVmAsync - use CreateVm streaming API" })) ∧
    (∀ (err : GoError) (st : Status), onlyTypedCoded err → ErrorToStatus (some err) = some st →
      st.code ≠ Code.Unimplemented) := by
  constructor
  · intro request
    have h1 : ∀ (h : request.ImageDataSize > 0), validateNoStreamingFields request = some
        { code := Code.Unimplemented,
          message := "ImageDataSize streaming not supported in CreateVmAsync - use ImageName or ImageURL instead, or use CreateVm streaming API" } := by
      intro h
      simp [validateNoStreamingFields, h, statusError]
    have h2 : ∀ (h0 : request.ImageDataSize = 0) (h : request.UserDataSize > 0),
        validateNoStreamingFields request = some
        { code := Code.Unimplemented,
          message := "UserDataSize streaming not supported in CreateVmAsync - use CreateVm streaming API" } := by
      intro h0 h
      simp [validateNoStreamingFields, h0, h, statusError]
    have h3 : ∀ (h0 : request.ImageDataSize = 0) (h0' : request.UserDataSize = 0)
        (h : request.SecondaryVolumesData = true),
        validateNoStreamingFields request = some
        { code := Code.Unimplemented,
          message := "SecondaryVolumesData streaming not supported in CreateVmAsync - use CreateVm streaming API" } := by
      intro h0 h0' h
      simp [validateNoStreamingFields, h0, h0', h, statusError]
    have hsome : (request.ImageDataSize > 0 ∨ request.UserDataSize > 0 ∨
        request.SecondaryVolumesData = true) →
        ∃ st, validateNoStreamingFields request = some st ∧ st.code = Code.Unimplemented := by
      intro h
      by_cases hi : request.ImageDataSize > 0
      · exact ⟨_, h1 hi, rfl⟩
      · have hi0 : request.ImageDataSize = 0 := by omega
        by_cases hu : request.UserDataSize > 0
        · exact ⟨_, h2 hi0 hu, rfl⟩
        · have hu0 : request.UserDataSize = 0 := by omega
          rcases h with h | h | h
          · exact absurd h hi
          · exact absurd h hu
          · exact ⟨_, h3 hi0 hu0 h, rfl⟩
    refine ⟨⟨?_, ?_⟩, hsome, h1, h2, h3⟩
    · intro hnone hcond
      obtain ⟨st, hst, -⟩ := hsome hcond
      rw [hnone] at hst
      exact Option.noConfusion hst
    · intro hcond
      have hi0 : request.ImageDataSize = 0 := by
        by_contra h; exact hcond (Or.inl (Nat.pos_of_ne_zero h))
      have hu0 : request.UserDataSize = 0 := by
        by_contra h; exact hcond (Or.inr (Or.inl (Nat.pos_of_ne_zero h)))
      have hs : request.SecondaryVolumesData = false := by
        cases hsv : request.SecondaryVolumesData with
        | false => rfl
        | true => exact absurd (Or.inr (Or.inr hsv)) hcond
      simp [validateNoStreamingFields, hi0, hu0, hs]
  · intro err st honly hst
    obtain ⟨st', hst', hmem, -⟩ := ErrorToStatus_of_onlyTyped err honly
    rw [hst] at hst'
    cases hst'
    intro h
    rw [h] at hmem
    revert hmem
    decide

/-- C12 at the requests of `TestValidateNoStreamingFields`: nil for the valid request,
`Unimplemented` naming `ImageDataSize` when `ImageDataSize` and `UserDataSize` are both set,
naming `UserDataSize` when only `UserDataSize` is set, naming `SecondaryVolumesData` when only
that is set; and `ErrorToStatus` gives `InvalidArgument`, not `Unimplemented`, to an
`InvalidArgumentError`. -/
theorem C12_streaming_fields_unimplemented_witness :
    validateNoStreamingFields testCreateVmRequest = none ∧
    validateNoStreamingFields
        { testCreateVmRequest with ImageDataSize := 1024, UserDataSize := 1024 }
      = some { code := Code.Unimplemented,
               message := "ImageDataSize streaming not supported in CreateVmAsync - use ImageName or ImageURL instead, or use CreateVm streaming API" } ∧
    validateNoStreamingFields { testCreateVmRequest with UserDataSize := 1024 }
      = some { code := Code.Unimplemented,
               message := "UserDataSize streaming not supported in CreateVmAsync - use CreateVm streaming API" } ∧
    validateNoStreamingFields { testCreateVmRequest with SecondaryVolumesData := true }
      = some { code := Code.Unimplemented,
               message := "SecondaryVolumesData streaming not supported in CreateVmAsync - use CreateVm streaming API" } ∧
    Code.InvalidArgument ≠ Code.Unimplemented :=
  ⟨((C12_streaming_fields_unimplemented.1 testCreateVmRequest).1).2 (by decide),
    (C12_streaming_fields_unimplemented.1
      { testCreateVmRequest with ImageDataSize := 1024, UserDataSize := 1024 }).2.2.1
      (by decide),
    (C12_streaming_fields_unimplemented.1
      { testCreateVmRequest with UserDataSize := 1024 }).2.2.2.1 (by decide) (by decide),
    (C12_streaming_fields_unimplemented.1
      { testCreateVmRequest with SecondaryVolumesData := true }).2.2.2.2 (by decide)
      (by decide) (by decide),
    C12_streaming_fields_unimplemented.2
      (.coded (.typed (.invalidArgument { Argument := "hostname", Reason := "empty" })))
      { code := Code.InvalidArgument, message := "invalid argument hostname: empty" }
      (by unfold onlyTypedCoded; decide) (by decide)⟩

/-- C13: `createVmAsyncRequestFromProto` returns a non-nil request and a nil error for every
proto request, and the request carries the scalar fields over unchanged: `DhcpTimeout` and
`ImageTimeout` are `DhcpTimeoutNs` and `ImageTimeoutNs` nanoseconds, and `DoNotStart`,
`MinimumFreeBytes`, `ImageName`, `Hostname`, `MemoryInMiB`, `MilliCPUs`, `VirtualCPUs`,
`SubnetId`, `CpuPriority` and `DestroyProtection` equal the proto fields (which hold values of
their declared 32-bit types). -/
theorem C13_converter_succeeds_and_copies_scalars {NE : Type}
    (req : hypervisor_grpc.CreateVmAsyncRequest NE) (hrange : req.InRange) :
    ∃ request : hypervisor.CreateVmRequest,
      createVmAsyncRequestFromProto req = (some request, none) ∧
      request.DhcpTimeout = req.DhcpTimeoutNs ∧
      request.ImageTimeout = req.ImageTimeoutNs ∧
      request.DoNotStart = req.DoNotStart ∧
      request.MinimumFreeBytes = req.MinimumFreeBytes ∧
      request.VmInfo.ImageName = req.ImageName ∧
      request.VmInfo.Hostname = req.Hostname ∧
      request.VmInfo.MemoryInMiB = req.MemoryInMib ∧
      request.VmInfo.MilliCPUs = req.MilliCpus ∧
      request.VmInfo.VirtualCPUs = req.VirtualCpus ∧
      request.VmInfo.SubnetId = req.SubnetId ∧
      request.VmInfo.CpuPriority = req.CpuPriority ∧
      request.VmInfo.DestroyProtection = req.DestroyProtection := by
  obtain ⟨hm, hv, hc1, hc2⟩ := hrange
  unfold MaxInt32 at hc2
  refine ⟨_, rfl, rfl, rfl, rfl, rfl, rfl, rfl, rfl, ?_, ?_, rfl, ?_, rfl⟩
  · show toUint (req.MilliCpus : Int) = req.MilliCpus
    unfold toUint
    omega
  · show toUint (req.VirtualCpus : Int) = req.VirtualCpus
    unfold toUint
    omega
  · show wrapInt req.CpuPriority = req.CpuPriority
    exact wrapInt_eq _ (by unfold MinInt; omega) (by unfold MaxInt; omega)

/-- C13 at the request of `TestCreateVmAsyncRequestFromProto`: the converter succeeds and the
converted request has the values the test checks. -/
theorem C13_converter_succeeds_and_copies_scalars_witness :
    testCreateVmAsyncRequest.InRange ∧
    ∃ request : hypervisor.CreateVmRequest,
      createVmAsyncRequestFromProto testCreateVmAsyncRequest = (some request, none) ∧
      request.DhcpTimeout = 30000000000 ∧
      request.ImageTimeout = 300000000000 ∧
      request.DoNotStart = true ∧
      request.MinimumFreeBytes = 10737418240 ∧
      request.VmInfo.ImageName = "test-image" ∧
      request.VmInfo.Hostname = "test-vm" ∧
      request.VmInfo.MemoryInMiB = 4096 ∧
      request.VmInfo.MilliCPUs = 2000 ∧
      request.VmInfo.VirtualCPUs = 2 ∧
      request.VmInfo.SubnetId = "test-subnet" ∧
      request.VmInfo.CpuPriority = 1 ∧
      request.VmInfo.DestroyProtection = true :=
  ⟨by unfold hypervisor_grpc.CreateVmAsyncRequest.InRange; decide,
    C13_converter_succeeds_and_copies_scalars testCreateVmAsyncRequest
      (by unfold hypervisor_grpc.CreateVmAsyncRequest.InRange; decide)⟩

/-! ## Theorems: identity extraction and the auth interceptors -/

/-- C14: `GetAuthFromTLS` and `extractConn` return either a nil identity with a non-nil error
or a non-nil identity with a nil error, never both non-nil; each failure path (no peer info, no
auth info, auth info that is not TLS, an error of the certificate extraction) returns nil with
its error; and with `getAuth` as the spec describes it, a TLS state with no verified peer
certificate makes both fail. -/
theorem C14_extraction_failure_returns_nil :
    (∀ (authCall : ConnectionState → GetAuthResult) (state : ConnectionState),
      (∃ err, GetAuthFromTLS authCall state = (none, some err)) ∨
      (∃ authInfo, GetAuthFromTLS authCall state = (some authInfo, none))) ∧
    (∀ (authCall permCall : ConnectionState → GetAuthResult) (ctx : Context),
      (∃ err, extractConn authCall permCall ctx = (none, some err)) ∨
      (∃ conn authInfo, extractConn authCall permCall ctx = (some conn, none) ∧
        conn.authInfo = some authInfo)) ∧
    (∀ (authCall permCall : ConnectionState → GetAuthResult) (ctx : Context),
      ctx.peer = none →
      extractConn authCall permCall ctx
        = (none, some (.errorString "no peer info in context"))) ∧
    (∀ (authCall permCall : ConnectionState → GetAuthResult) (ctx : Context),
      ctx.peer = some { AuthInfo := none } →
      extractConn authCall permCall ctx = (none, some (.errorString "no auth info in peer"))) ∧
    (∀ (authCall permCall : ConnectionState → GetAuthResult) (ctx : Context)
        (authType : String),
      ctx.peer = some { AuthInfo := some (.other authType) } →
      extractConn authCall permCall ctx = (none, some (.errorString "peer auth is not TLS"))) ∧
    (∀ (authCall permCall : ConnectionState → GetAuthResult) (ctx : Context)
        (state : ConnectionState) (err : GoError),
      ctx.peer = some { AuthInfo := some (.TLSInfo state) } →
      (authCall state).err = some err →
      GetAuthFromTLS authCall state = (none, some err) ∧
      extractConn authCall permCall ctx = (none, some err)) ∧
    (∀ state : ConnectionState, state.verifiedPeerCertificate = none →
      ∃ err, GetAuthFromTLS getAuth state = (none, some err)) ∧
    (∀ (permCall : ConnectionState → GetAuthResult) (ctx : Context) (state : ConnectionState),
      ctx.peer = some { AuthInfo := some (.TLSInfo state) } →
      state.verifiedPeerCertificate = none →
      ∃ err, extractConn getAuth permCall ctx = (none, some err)) := by
  have hauth : ∀ (authCall : ConnectionState → GetAuthResult) (state : ConnectionState),
      (∃ err, (authCall state).err = some err ∧
        GetAuthFromTLS authCall state = (none, some err)) ∨
      (∃ authInfo, (authCall state).err = none ∧
        GetAuthFromTLS authCall state = (some authInfo, none)) := by
    intro authCall state
    cases h : (authCall state).err with
    | some err => exact Or.inl ⟨err, rfl, by simp [GetAuthFromTLS, h]⟩
    | none =>
      exact Or.inr ⟨⟨(authCall state).groupList, false, (authCall state).username⟩, rfl,
        by simp [GetAuthFromTLS, h]⟩
  have hcert : ∀ (authCall permCall : ConnectionState → GetAuthResult) (ctx : Context)
      (state : ConnectionState) (err : GoError),
      ctx.peer = some { AuthInfo := some (.TLSInfo state) } →
      (authCall state).err = some err →
      GetAuthFromTLS authCall state = (none, some err) ∧
      extractConn authCall permCall ctx = (none, some err) := by
    intro authCall permCall ctx state err hpeer herr
    have h1 : GetAuthFromTLS authCall state = (none, some err) := by
      simp [GetAuthFromTLS, herr]
    exact ⟨h1, by simp [extractConn, hpeer, h1]⟩
  have hnocert : ∀ state : ConnectionState, state.verifiedPeerCertificate = none →
      (getAuth state).err = some (.errorString "no verified client certificate") := by
    intro state h
    simp [getAuth, h]
  refine ⟨?_, ?_, ?_, ?_, ?_, hcert, ?_, ?_⟩
  · intro authCall state
    rcases hauth authCall state with ⟨err, -, h⟩ | ⟨authInfo, -, h⟩
    · exact Or.inl ⟨err, h⟩
    · exact Or.inr ⟨authInfo, h⟩
  · intro authCall permCall ctx
    cases hpeer : ctx.peer with
    | none =>
      exact Or.inl ⟨.errorString "no peer info in context", by simp [extractConn, hpeer]⟩
    | some p =>
      cases hai : p.AuthInfo with
      | none =>
        exact Or.inl ⟨.errorString "no auth info in peer", by simp [extractConn, hpeer, hai]⟩
      | some ai =>
        cases ai with
        | other authType =>
          exact Or.inl ⟨.errorString "peer auth is not TLS", by simp [extractConn, hpeer, hai]⟩
        | TLSInfo state =>
          rcases hauth authCall state with ⟨err, -, h⟩ | ⟨authInfo, -, h⟩
          · exact Or.inl ⟨err, by simp [extractConn, hpeer, hai, h]⟩
          · exact Or.inr ⟨⟨some authInfo, (GetPermittedMethodsFromTLS permCall state).1⟩,
              authInfo, by simp [extractConn, hpeer, hai, h], rfl⟩
  · intro authCall permCall ctx hpeer
    simp [extractConn, hpeer]
  · intro authCall permCall ctx hpeer
    simp [extractConn, hpeer]
  · intro authCall permCall ctx authType hpeer
    simp [extractConn, hpeer]
  · intro state h
    have hx : GetAuthFromTLS getAuth state
        = (none, some (.errorString "no verified client certificate")) := by
      simp [GetAuthFromTLS, hnocert state h]
    exact ⟨_, hx⟩
  · intro permCall ctx state hpeer h
    exact ⟨_, (hcert getAuth permCall ctx state _ hpeer (hnocert state h)).2⟩

/-- C14 at a TLS state with no verified chain: `GetAuthFromTLS` and `extractConn` return nil
with the error of the extraction. -/
theorem C14_extraction_failure_returns_nil_witness :
    ConnectionState.verifiedPeerCertificate { VerifiedChains := [] } = none ∧
    (∃ err, GetAuthFromTLS getAuth { VerifiedChains := [] } = (none, some err)) ∧
    (∃ err, extractConn getAuth getAuth
      { peer := some { AuthInfo := some (.TLSInfo { VerifiedChains := [] }) },
        connValue := none } = (none, some err)) :=
  ⟨rfl, C14_extraction_failure_returns_nil.2.2.2.2.2.2.1 { VerifiedChains := [] } rfl,
    C14_extraction_failure_returns_nil.2.2.2.2.2.2.2 getAuth _ { VerifiedChains := [] } rfl
      rfl⟩

/-- C15: for both interceptors, when `extractConn` fails with `err` the interceptor returns a
status of code `Unauthenticated` with the message of `err` and does not call the handler; when
it succeeds with `conn` the handler is called exactly once, with a context (or a stream whose
context is one) from which `GetConn` returns `conn`, and the interceptor returns what the
handler returns. The identity of `conn` is the one `GetAuthFromTLS` extracted. -/
theorem C15_interceptors :
    (∀ (α ρ : Type) (authCall permCall : ConnectionState → GetAuthResult) (ctx : Context)
        (req : α) (info : ServerInfo) (handler : Context → α → Option ρ × Option RpcError)
        (err : GoError),
      (extractConn authCall permCall ctx).2 = some err →
      UnaryAuthInterceptor authCall permCall ctx req info handler
        = { handlerCalls := [], resp := none,
            err := some (.status { code := Code.Unauthenticated, message := err.Error }) }) ∧
    (∀ (α ρ : Type) (authCall permCall : ConnectionState → GetAuthResult) (ctx : Context)
        (req : α) (info : ServerInfo) (handler : Context → α → Option ρ × Option RpcError)
        (conn : Option Conn),
      extractConn authCall permCall ctx = (conn, none) →
      UnaryAuthInterceptor authCall permCall ctx req info handler
        = { handlerCalls := [(ctx.WithConn conn, req)],
            resp := (handler (ctx.WithConn conn) req).1,
            err := (handler (ctx.WithConn conn) req).2 } ∧
      GetConn (ctx.WithConn conn) = conn) ∧
    (∀ (σ : Type) (authCall permCall : ConnectionState → GetAuthResult) (srv : σ)
        (ss : ServerStream) (info : ServerInfo) (handler : σ → ServerStream → Option RpcError)
        (err : GoError),
      (extractConn authCall permCall ss.ctx).2 = some err →
      StreamAuthInterceptor authCall permCall srv ss info handler
        = { handlerCalls := [],
            err := some (.status { code := Code.Unauthenticated, message := err.Error }) }) ∧
    (∀ (σ : Type) (authCall permCall : ConnectionState → GetAuthResult) (srv : σ)
        (ss : ServerStream) (info : ServerInfo) (handler : σ → ServerStream → Option RpcError)
        (conn : Option Conn),
      extractConn authCall permCall ss.ctx = (conn, none) →
      StreamAuthInterceptor authCall permCall srv ss info handler
        = { handlerCalls := [(srv, { ctx := ss.ctx.WithConn conn })],
            err := handler srv { ctx := ss.ctx.WithConn conn } } ∧
      GetConn (ss.ctx.WithConn conn) = conn) ∧
    (∀ (authCall permCall : ConnectionState → GetAuthResult) (ctx : Context)
        (state : ConnectionState) (authInfo : Option AuthInformation),
      ctx.peer = some { AuthInfo := some (.TLSInfo state) } →
      GetAuthFromTLS authCall state = (authInfo, none) →
      ∃ conn, extractConn authCall permCall ctx = (some conn, none) ∧
        Conn.GetAuthInformation (GetConn (ctx.WithConn (some conn))) = authInfo) := by
  refine ⟨?_, ?_, ?_, ?_, ?_⟩
  · intro α ρ authCall permCall ctx req info handler err herr
    cases hx : extractConn authCall permCall ctx with
    | mk c e =>
      rw [hx] at herr
      simp only at herr
      subst herr
      simp [UnaryAuthInterceptor, hx, statusError]
  · intro α ρ authCall permCall ctx req info handler conn hx
    exact ⟨by simp [UnaryAuthInterceptor, hx], by simp [GetConn, Context.WithConn]⟩
  · intro σ authCall permCall srv ss info handler err herr
    cases hx : extractConn authCall permCall ss.ctx with
    | mk c e =>
      rw [hx] at herr
      simp only at herr
      subst herr
      simp [StreamAuthInterceptor, hx, statusError]
  · intro σ authCall permCall srv ss info handler conn hx
    exact ⟨by simp [StreamAuthInterceptor, hx], by simp [GetConn, Context.WithConn]⟩
  · intro authCall permCall ctx state authInfo hpeer hauth
    refine ⟨⟨authInfo, (GetPermittedMethodsFromTLS permCall state).1⟩,
      by simp [extractConn, hpeer, hauth], ?_⟩
    simp [GetConn, Context.WithConn, Conn.GetAuthInformation]

/-- C15 at a context without peer information (the status is `Unauthenticated` with the message
`"no peer info in context"`, no handler call) and at `exampleContext` (the handler is called
once and reads the identity `alice` through `GetConn`). -/
theorem C15_interceptors_witness :
    UnaryAuthInterceptor getAuth getAuth { peer := none, connValue := none } "request"
        { FullMethod := "/hypervisor.Hypervisor/StopVm" }
        (fun _ _ => ((some "response" : Option String), (none : Option RpcError)))
      = { handlerCalls := [], resp := none,
          err := some (.status { code := Code.Unauthenticated,
                                 message := "no peer info in context" }) } ∧
    (UnaryAuthInterceptor getAuth getAuth exampleContext "request"
        { FullMethod := "/hypervisor.Hypervisor/StopVm" }
        (fun ctx _ =>
          ((Conn.GetAuthInformation (GetConn ctx)).map AuthInformation.Username,
            (none : Option RpcError)))).resp = some "alice" ∧
    (UnaryAuthInterceptor getAuth getAuth exampleContext "request"
        { FullMethod := "/hypervisor.Hypervisor/StopVm" }
        (fun ctx _ =>
          ((Conn.GetAuthInformation (GetConn ctx)).map AuthInformation.Username,
            (none : Option RpcError)))).handlerCalls.length = 1 :=
  ⟨C15_interceptors.1 String String getAuth getAuth { peer := none, connValue := none }
      "request" { FullMethod := "/hypervisor.Hypervisor/StopVm" } _
      (.errorString "no peer info in context") rfl,
    congrArg UnaryResult.resp
      (C15_interceptors.2.1 String String getAuth getAuth exampleContext "request"
        { FullMethod := "/hypervisor.Hypervisor/StopVm" } _
        (some { authInfo := some { GroupList := some ["admins"], HaveMethodAccess := false,
                                   Username := "alice" },
                permittedMethods := some ["Hypervisor.StopVm"] }) rfl).1,
    congrArg (fun r => r.handlerCalls.length)
      (C15_interceptors.2.1 String String getAuth getAuth exampleContext "request"
        { FullMethod := "/hypervisor.Hypervisor/StopVm" } _
        (some { authInfo := some { GroupList := some ["admins"], HaveMethodAccess := false,
                                   Username := "alice" },
                permittedMethods := some ["Hypervisor.StopVm"] }) rfl).1⟩

/-- C16: `extractConn` succeeds whenever `GetAuthFromTLS` succeeds, whatever the call of
`GetPermittedMethodsFromTLS` returns (its error is not looked at), and the `Conn` it returns
gives back through `GetPermittedMethods` exactly the set that call returned (nil, empty or
populated) and through `GetAuthInformation` the extracted identity; both methods return nil on a
nil `Conn`. -/
theorem C16_permitted_methods_optional :
    (∀ (authCall permCall : ConnectionState → GetAuthResult) (ctx : Context)
        (state : ConnectionState) (authInfo : AuthInformation),
      ctx.peer = some { AuthInfo := some (.TLSInfo state) } →
      GetAuthFromTLS authCall state = (some authInfo, none) →
      ∃ conn, extractConn authCall permCall ctx = (some conn, none) ∧
        Conn.GetPermittedMethods (some conn) = (GetPermittedMethodsFromTLS permCall state).1 ∧
        Conn.GetAuthInformation (some conn) = some authInfo) ∧
    Conn.GetPermittedMethods none = none ∧
    Conn.GetAuthInformation none = none := by
  refine ⟨?_, rfl, rfl⟩
  intro authCall permCall ctx state authInfo hpeer hauth
  exact ⟨⟨some authInfo, (GetPermittedMethodsFromTLS permCall state).1⟩,
    by simp [extractConn, hpeer, hauth], rfl, rfl⟩

/-- C16 at `exampleContext`: when the call for the permitted methods returns an error and a nil
set, and when it returns an empty set, `extractConn` succeeds with the identity `alice`, and
`GetPermittedMethods` returns nil in the first case and the empty set in the second. -/
theorem C16_permitted_methods_optional_witness :
    (∃ conn, extractConn getAuth
        (fun _ => { username := "", permittedMethods := none, groupList := none,
                    err := some (.errorString "no permitted methods") })
        exampleContext = (some conn, none) ∧
      Conn.GetPermittedMethods (some conn) = none ∧
      Conn.GetAuthInformation (some conn)
        = some { GroupList := some ["admins"], HaveMethodAccess := false,
                 Username := "alice" }) ∧
    (∃ conn, extractConn getAuth
        (fun _ => { username := "alice", permittedMethods := some [], groupList := none,
                    err := none })
        exampleContext = (some conn, none) ∧
      Conn.GetPermittedMethods (some conn) = some [] ∧
      Conn.GetAuthInformation (some conn)
        = some { GroupList := some ["admins"], HaveMethodAccess := false,
                 Username := "alice" }) :=
  ⟨C16_permitted_methods_optional.1 getAuth _ exampleContext exampleTLSState _ rfl rfl,
    C16_permitted_methods_optional.1 getAuth _ exampleContext exampleTLSState _ rfl rfl⟩


/-! ## Theorems: the paired handlers -/

/-- C17 fails in its last sentence: when the collaborator returns the error `errors.New("")`
the gRPC `StopVm` handler returns a status (code `Internal`, empty message) while the SRPC
`StopVm` handler leaves the `Error` string empty; and when it returns an error whose
`GRPCCode()` is `codes.OK`, the SRPC `Error` string is set while `ErrorToStatus` gives the gRPC
handler a nil error to return. -/
theorem C17_status_iff_error_string_counterexample :
    (hypervisorRpcd.grpcServer.StopVm (fun _ => some (.errorString "")) exampleContext
        { IpAddress := [10, 0, 0, 1], AccessToken := [] }).result
      = HandlerResult.returned none (some { code := Code.Internal, message := "" }) ∧
    (hypervisorRpcd.srpcType.StopVm (fun _ => some (.errorString ""))
        exampleSrpcConn { IpAddress := [10, 0, 0, 1], AccessToken := [] }).reply.Error = "" ∧
    (hypervisorRpcd.grpcServer.StopVm
        (fun _ => some (.coded (.foreign Code.OK "VM is busy"))) exampleContext
        { IpAddress := [10, 0, 0, 1], AccessToken := [] }).result
      = HandlerResult.returned none none ∧
    (hypervisorRpcd.srpcType.StopVm
        (fun _ => some (.coded (.foreign Code.OK "VM is busy")))
        exampleSrpcConn { IpAddress := [10, 0, 0, 1], AccessToken := [] }).reply.Error
      = "VM is busy" := by
  decide

/-- C17 as amended: each of the twelve handlers makes exactly one collaborator call; the SRPC
handler returns nil and sets the reply's `Error` field to the message of the error `e` that call
returned (`""` for nil), the gRPC handler returns a nil response with `ErrorToStatus(e)` for a
non-nil `e` and an empty response with a nil error otherwise. Hence, for an SRPC and a gRPC
handler whose calls returned the same `e`: when `e` is non-nil and its chain holds no coded
error other than typed ones, a gRPC status is returned and its message is the SRPC `Error`
string; a gRPC status is returned only when `e` is non-nil; and the SRPC `Error` string is set
only when `e` is non-nil. -/
theorem C17_paired_handlers :
    (∀ m conn request, ∃ e,
      SrpcRendersInline m (hypervisorRpcd.srpcType.StopVm m conn request) e) ∧
    (∀ m ctx req, ∃ e, GrpcRaisesStatus m (hypervisorRpcd.grpcServer.StopVm m ctx req) e) ∧
    (∀ m conn request, ∃ e,
      SrpcRendersInline m (hypervisorRpcd.srpcType.ChangeVmTags m conn request) e) ∧
    (∀ m ctx req, ∃ e,
      GrpcRaisesStatus m (hypervisorRpcd.grpcServer.ChangeVmTags m ctx req) e) ∧
    (∀ m conn request, ∃ e,
      SrpcRendersInline m (hypervisorRpcd.srpcType.ChangeVmOwnerUsers m conn request) e) ∧
    (∀ m ctx req, ∃ e,
      GrpcRaisesStatus m (hypervisorRpcd.grpcServer.ChangeVmOwnerUsers m ctx req) e) ∧
    (∀ m conn request, ∃ e,
      SrpcRendersInline m (hypervisorRpcd.srpcType.ChangeVmSize m conn request) e) ∧
    (∀ m ctx req, ∃ e,
      GrpcRaisesStatus m (hypervisorRpcd.grpcServer.ChangeVmSize m ctx req) e) ∧
    (∀ m conn request, ∃ e, SrpcRendersInline m (srpcType.ChangeMachineTags m conn request) e) ∧
    (∀ m ctx req, ∃ e, GrpcRaisesStatus m (grpcServer.ChangeMachineTags m ctx req) e) ∧
    (∀ m conn request, ∃ e, SrpcRendersInline m (srpcType.PowerOnMachine m conn request) e) ∧
    (∀ m ctx req, ∃ e, GrpcRaisesStatus m (grpcServer.PowerOnMachine m ctx req) e) ∧
    (∀ (κ κ' : Type) (collab : κ → Option GoError) (collab' : κ' → Option GoError)
        (s : SrpcCall κ) (g : GrpcCall κ') (e : Option GoError),
      SrpcRendersInline collab s e → GrpcRaisesStatus collab' g e →
      (∀ err, e = some err → onlyTypedCoded err →
        ∃ st, g.result = HandlerResult.returned none (some st) ∧
          st.message = s.reply.Error) ∧
      (∀ resp st, g.result = HandlerResult.returned resp (some st) → e ≠ none) ∧
      (s.reply.Error ≠ "" → e ≠ none) ∧
      (e = none →
        g.result = HandlerResult.returned (some {}) none ∧ s.reply.Error = "")) := by
  have hs : ∀ {κ : Type} (m : κ → Option GoError) (args : κ),
      SrpcRendersInline m
        { calls := [args], reply := { Error := errors.ErrorToString (m args) }, err := none }
        (m args) := by
    intro κ m args
    refine ⟨args, rfl, rfl, rfl, ?_⟩
    cases m args <;> rfl
  have hg : ∀ {κ : Type} (m : κ → Option GoError) (args : κ),
      GrpcRaisesStatus m
        (match m args with
          | some err =>
            ({ calls := [args], result := .returned none (ErrorToStatus (some err)) } :
              GrpcCall κ)
          | none => { calls := [args], result := .returned (some {}) none })
        (m args) := by
    intro κ m args
    cases h : m args with
    | some err => exact ⟨args, rfl, h, rfl⟩
    | none => exact ⟨args, rfl, h, rfl⟩
  refine ⟨fun m conn request => ⟨_, hs m _⟩, fun m ctx req => ⟨_, hg m _⟩,
    fun m conn request => ⟨_, hs m _⟩, fun m ctx req => ⟨_, hg m _⟩,
    fun m conn request => ⟨_, hs m _⟩, fun m ctx req => ⟨_, hg m _⟩,
    fun m conn request => ⟨_, hs m _⟩, fun m ctx req => ⟨_, hg m _⟩,
    fun m conn request => ⟨_, hs m _⟩, fun m ctx req => ⟨_, hg m _⟩,
    fun m conn request => ⟨_, hs m _⟩, fun m ctx req => ⟨_, hg m _⟩, ?_⟩
  intro κ κ' collab collab' s g e hsr hgr
  obtain ⟨args, -, -, -, hreply⟩ := hsr
  obtain ⟨args', -, -, hres⟩ := hgr
  refine ⟨?_, ?_, ?_, ?_⟩
  · intro err he honly
    subst he
    obtain ⟨st, hst, -, hmsg⟩ := ErrorToStatus_of_onlyTyped err honly
    refine ⟨st, ?_, ?_⟩
    · rw [hres]; simp only [hst]
    · rw [hmsg, hreply]
  · intro resp st hst he
    subst he
    rw [hres] at hst
    cases hst
  · intro hne he
    subst he
    exact hne hreply
  · intro he
    subst he
    exact ⟨hres, hreply⟩

/-- C17 as amended, at the `StopVm` pair when the collaborator returns
`NewNotFoundError("VM", "10.0.0.1")`: the gRPC handler returns the status `NotFound` with the
message `"VM 10.0.0.1 not found"`, which is the SRPC `Error` string. -/
theorem C17_paired_handlers_witness :
    onlyTypedCoded (.coded (.typed (.notFound { Resource := "VM", ID := "10.0.0.1" }))) ∧
    (∃ st,
      (hypervisorRpcd.grpcServer.StopVm stopVmNotFound exampleContext
        { IpAddress := [10, 0, 0, 1], AccessToken := [] }).result
        = HandlerResult.returned none (some st) ∧
      st.message =
        (hypervisorRpcd.srpcType.StopVm stopVmNotFound exampleSrpcConn
          { IpAddress := [10, 0, 0, 1], AccessToken := [] }).reply.Error) ∧
    (hypervisorRpcd.srpcType.StopVm stopVmNotFound exampleSrpcConn
      { IpAddress := [10, 0, 0, 1], AccessToken := [] }).reply.Error
      = "VM 10.0.0.1 not found" :=
  ⟨by unfold onlyTypedCoded; decide,
    (C17_paired_handlers.2.2.2.2.2.2.2.2.2.2.2.2 _ _ stopVmNotFound stopVmNotFound
      (hypervisorRpcd.srpcType.StopVm stopVmNotFound exampleSrpcConn
        { IpAddress := [10, 0, 0, 1], AccessToken := [] })
      (hypervisorRpcd.grpcServer.StopVm stopVmNotFound exampleContext
        { IpAddress := [10, 0, 0, 1], AccessToken := [] })
      (some (.coded (.typed (.notFound { Resource := "VM", ID := "10.0.0.1" }))))
      ⟨([10, 0, 0, 1], none, []), rfl, rfl, rfl, rfl⟩
      ⟨([10, 0, 0, 1], none, []), rfl, rfl, rfl⟩).1 _ rfl
      (by unfold onlyTypedCoded; decide),
    by decide⟩


/-! ## Theorems: the `GetUpdates` handlers -/

/-- C18, the four handlers at a closed update channel: the gRPC handler of the hypervisor
returns the error `"update channel closed"`, whose text does not say that the receiver is not
keeping up; the three other handlers return an error whose text ends in (or is) `"receiver not
keeping up with updates"`. None returns nil. -/
theorem C18_closed_channel_report :
    (∀ ch rest,
      (hypervisorRpcd.grpcServer.GetUpdates ch (.updateChannelClosed :: rest)).result
        = some (some (.plain (.errorString "update channel closed")))) ∧
    stringsContains (stringsToLower "update channel closed") "not keeping up" = false ∧
    (∀ req ch rest,
      (grpcServer.GetUpdates req ch (.updateChannelClosed :: rest)).result
        = some (some (.status { code := Code.Internal,
                                message := "receiver not keeping up with updates" }))) ∧
    (∀ conn ch rest,
      (hypervisorRpcd.srpcType.GetUpdates conn ch (.updateChannelClosed :: rest)).result
        = some (some (.errorString
            ("error sending update to: " ++ conn.RemoteAddr ++ " for: " ++ conn.Username ++
              ": receiver not keeping up with updates")))) ∧
    (∀ conn request ch rest,
      (srpcType.GetUpdates conn (.ok request) ch (.updateChannelClosed :: rest)).result
        = some (some (.errorString
            ("error sending update to: " ++ conn.RemoteAddr ++ " for: " ++ conn.Username ++
              ": receiver not keeping up with updates")))) := by
  refine ⟨fun _ _ => rfl, by decide, fun _ _ _ => ?_, fun _ _ _ => rfl, fun _ request _ _ => ?_⟩
  · have h : ErrorToStatus (some (.errorString "receiver not keeping up with updates"))
        = some { code := Code.Internal, message := "receiver not keeping up with updates" } := by
      decide
    simp [grpcServer.GetUpdates, grpcServer.getUpdatesLoop, h]
  · have hcond : request.MaxUpdates = 0 ∨ 0 < request.MaxUpdates := by omega
    simp [srpcType.GetUpdates, srpcType.getUpdatesLoop, hcond]

/-! ### Lemmas on the loops -/

theorem released_of_make_close (request : Option fleetmanager.GetUpdatesRequest)
    (ch : UpdateChannel) :
    ReleasedOnReturn
      [ManagerCall.MakeUpdateChannel request ch, ManagerCall.CloseUpdateChannel ch] ch := by
  simp [ReleasedOnReturn, registeredChannels]

theorem released_of_make_unregister_close (ch : UpdateChannel) :
    ReleasedOnReturn
      [ManagerCall.MakeUpdateChannel none ch, ManagerCall.unregisterManagedExternalLeases,
        ManagerCall.CloseUpdateChannel ch] ch := by
  simp [ReleasedOnReturn, registeredChannels]

/-- C19: in each of the four handlers, every run that has returned after `MakeUpdateChannel`
returned the channel `ch` has called `CloseUpdateChannel` exactly once, with `ch`, and leaves no
channel registered; the SRPC handler of the fleet manager calls neither when decoding the
request fails. While a handler waits in `select` its only call is `MakeUpdateChannel`. -/
theorem C19_channel_released_on_return :
    (∀ conn decoded ch events r,
      (srpcType.GetUpdates conn decoded ch events).result = some r →
      ((∃ err, decoded = .error err) ∧
        (srpcType.GetUpdates conn decoded ch events).calls = []) ∨
      ((∃ request, decoded = .ok request ∧
          (srpcType.GetUpdates conn decoded ch events).calls.head?
            = some (ManagerCall.MakeUpdateChannel (some request) ch)) ∧
        ReleasedOnReturn (srpcType.GetUpdates conn decoded ch events).calls ch)) ∧
    (∀ req ch events r,
      (grpcServer.GetUpdates req ch events).result = some r →
      (∃ request, (grpcServer.GetUpdates req ch events).calls.head?
          = some (ManagerCall.MakeUpdateChannel request ch)) ∧
      ReleasedOnReturn (grpcServer.GetUpdates req ch events).calls ch) ∧
    (∀ conn ch events r,
      (hypervisorRpcd.srpcType.GetUpdates conn ch events).result = some r →
      (hypervisorRpcd.srpcType.GetUpdates conn ch events).calls.head?
          = some (ManagerCall.MakeUpdateChannel none ch) ∧
      ReleasedOnReturn (hypervisorRpcd.srpcType.GetUpdates conn ch events).calls ch) ∧
    (∀ ch events r,
      (hypervisorRpcd.grpcServer.GetUpdates ch events).result = some r →
      (hypervisorRpcd.grpcServer.GetUpdates ch events).calls.head?
          = some (ManagerCall.MakeUpdateChannel none ch) ∧
      ReleasedOnReturn (hypervisorRpcd.grpcServer.GetUpdates ch events).calls ch) := by
  refine ⟨?_, ?_, ?_, ?_⟩
  · intro conn decoded ch events r hr
    cases decoded with
    | error err => exact Or.inl ⟨⟨err, rfl⟩, rfl⟩
    | ok request =>
      refine Or.inr ⟨⟨request, rfl, rfl⟩, ?_⟩
      simp only [srpcType.GetUpdates] at hr ⊢
      rw [hr]
      exact released_of_make_close _ ch
  · intro req ch events r hr
    refine ⟨⟨_, rfl⟩, ?_⟩
    simp only [grpcServer.GetUpdates] at hr ⊢
    rw [hr]
    exact released_of_make_close _ ch
  · intro conn ch events r hr
    refine ⟨rfl, ?_⟩
    simp only [hypervisorRpcd.srpcType.GetUpdates] at hr ⊢
    rw [hr]
    exact released_of_make_unregister_close ch
  · intro ch events r hr
    refine ⟨rfl, ?_⟩
    simp only [hypervisorRpcd.grpcServer.GetUpdates] at hr ⊢
    rw [hr]
    exact released_of_make_close _ ch

/-- C19 at two runs: the gRPC handler of the hypervisor that sends one update and is then
cancelled, and the SRPC handler of the fleet manager that finds its channel closed; both have
called `CloseUpdateChannel` once, with the channel 7 they were given. -/
theorem C19_channel_released_on_return_witness :
    (hypervisorRpcd.grpcServer.GetUpdates 7
        [.update { HaveVMs := false, HealthStatus := "healthy", VMs := none } none,
         .contextDone (.errorString "context canceled")]).result = some none ∧
    ReleasedOnReturn
      (hypervisorRpcd.grpcServer.GetUpdates 7
        [.update { HaveVMs := false, HealthStatus := "healthy", VMs := none } none,
         .contextDone (.errorString "context canceled")]).calls 7 ∧
    ReleasedOnReturn
      (srpcType.GetUpdates exampleSrpcConn
        (.ok { IgnoreMissingLocalTags := false, Location := "", MaxUpdates := 0 }) 7
        [.updateChannelClosed]).calls 7 :=
  ⟨rfl,
    (C19_channel_released_on_return.2.2.2 7
      [.update { HaveVMs := false, HealthStatus := "healthy", VMs := none } none,
       .contextDone (.errorString "context canceled")] none rfl).2,
    (C19_channel_released_on_return.1 exampleSrpcConn
      (.ok { IgnoreMissingLocalTags := false, Location := "", MaxUpdates := 0 }) 7
      [.updateChannelClosed] _ rfl).elim (fun h => by obtain ⟨⟨err, he⟩, -⟩ := h; cases he)
      (fun h => h.2)⟩

/-- With a bound `maxUpdates ≥ 1`, on events that only deliver updates or flush, the loop of the
fleet manager's SRPC handler writes updates until `count` reaches the bound and then returns
nil. -/
theorem getUpdatesLoop_bounded (conn : srpc.Conn) (maxUpdates : Nat) (hmax1 : 1 ≤ maxUpdates)
    (hmax64 : maxUpdates < 18446744073709551616) :
    ∀ (events : List FleetSrpcEvent) (count numToFlush : Nat)
      (written : List fleetmanager.Update) (flushes : Nat),
      count ≤ maxUpdates → (∀ ev ∈ events, ev.Delivers) →
      maxUpdates - count ≤ (receivedUpdates events).length →
      (srpcType.getUpdatesLoop conn maxUpdates events count numToFlush written flushes).result
          = some none ∧
      (srpcType.getUpdatesLoop conn maxUpdates events count numToFlush written flushes).written
          = written ++ (receivedUpdates events).take (maxUpdates - count)
  | [], count, numToFlush, written, flushes, hcount, _, hlen => by
    have hc : ¬ (maxUpdates = 0 ∨ count < maxUpdates) := by
      simp [receivedUpdates] at hlen; omega
    simp [srpcType.getUpdatesLoop, hc, receivedUpdates]
  | ev :: rest, count, numToFlush, written, flushes, hcount, hdel, hlen => by
    by_cases hc : maxUpdates = 0 ∨ count < maxUpdates
    · have hlt : count < maxUpdates := by omega
      have hev := hdel ev (List.mem_cons_self _ _)
      have hrest : ∀ e ∈ rest, e.Delivers := fun e he => hdel e (List.mem_cons_of_mem _ he)
      cases ev with
      | updateChannelClosed => exact absurd hev (by simp [FleetSrpcEvent.Delivers])
      | closeNotify err => exact absurd hev (by simp [FleetSrpcEvent.Delivers])
      | flushTimer flushErr =>
        cases flushErr with
        | some err => exact absurd hev (by simp [FleetSrpcEvent.Delivers])
        | none =>
          have ih := getUpdatesLoop_bounded conn maxUpdates hmax1 hmax64 rest count 0 written
            (flushes + 1) hcount hrest (by simpa [receivedUpdates] using hlen)
          simpa [srpcType.getUpdatesLoop, hc, receivedUpdates] using ih
      | update u encodeErr =>
        cases encodeErr with
        | some err => exact absurd hev (by simp [FleetSrpcEvent.Delivers])
        | none =>
          have hu : u.Error = "" := by simpa [FleetSrpcEvent.Delivers] using hev
          have hmod : (count + 1) % 18446744073709551616 = count + 1 :=
            Nat.mod_eq_of_lt (by omega)
          have hlen' : maxUpdates - (count + 1) ≤ (receivedUpdates rest).length := by
            simp [receivedUpdates] at hlen; omega
          have ih := getUpdatesLoop_bounded conn maxUpdates hmax1 hmax64 rest (count + 1)
            ((numToFlush + 1) % 18446744073709551616) (written ++ [u]) flushes (by omega)
            hrest hlen'
          have htake : (receivedUpdates (.update u none :: rest)).take (maxUpdates - count)
              = u :: (receivedUpdates rest).take (maxUpdates - (count + 1)) := by
            have : maxUpdates - count = (maxUpdates - (count + 1)) + 1 := by omega
            rw [this]; rfl
          rw [htake]
          simpa [srpcType.getUpdatesLoop, hc, hu, hmod] using ih
    · have hcount' : maxUpdates - count = 0 := by omega
      unfold srpcType.getUpdatesLoop
      simp [hc, hcount']

/-- With `maxUpdates = 0`, on events that only deliver updates or flush, the loop of the fleet
manager's SRPC handler writes every update and does not return. -/
theorem getUpdatesLoop_unbounded (conn : srpc.Conn) :
    ∀ (events : List FleetSrpcEvent) (count numToFlush : Nat)
      (written : List fleetmanager.Update) (flushes : Nat),
      (∀ ev ∈ events, ev.Delivers) →
      (srpcType.getUpdatesLoop conn 0 events count numToFlush written flushes).result = none ∧
      (srpcType.getUpdatesLoop conn 0 events count numToFlush written flushes).written
          = written ++ receivedUpdates events
  | [], count, numToFlush, written, flushes, _ => by
    simp [srpcType.getUpdatesLoop, receivedUpdates]
  | ev :: rest, count, numToFlush, written, flushes, hdel => by
    have hev := hdel ev (List.mem_cons_self _ _)
    have hrest : ∀ e ∈ rest, e.Delivers := fun e he => hdel e (List.mem_cons_of_mem _ he)
    cases ev with
    | updateChannelClosed => exact absurd hev (by simp [FleetSrpcEvent.Delivers])
    | closeNotify err => exact absurd hev (by simp [FleetSrpcEvent.Delivers])
    | flushTimer flushErr =>
      cases flushErr with
      | some err => exact absurd hev (by simp [FleetSrpcEvent.Delivers])
      | none =>
        have ih := getUpdatesLoop_unbounded conn rest count 0 written (flushes + 1) hrest
        simpa [srpcType.getUpdatesLoop, receivedUpdates] using ih
    | update u encodeErr =>
      cases encodeErr with
      | some err => exact absurd hev (by simp [FleetSrpcEvent.Delivers])
      | none =>
        have hu : u.Error = "" := by simpa [FleetSrpcEvent.Delivers] using hev
        have ih := getUpdatesLoop_unbounded conn rest ((count + 1) % 18446744073709551616)
          ((numToFlush + 1) % 18446744073709551616) (written ++ [u]) flushes hrest
        simpa [srpcType.getUpdatesLoop, receivedUpdates, hu] using ih

/-- The gRPC loop of the fleet manager returns only on a terminal event. -/
theorem grpc_getUpdatesLoop_returns_on_terminal :
    ∀ (events : List (GrpcUpdatesEvent fleetmanager.Update))
      (written : List fleetmanager.Update) (r : Option RpcError),
      (grpcServer.getUpdatesLoop events written).result = some r →
      ∃ ev ∈ events, ev.Terminal
  | [], written, r, h => by simp [grpcServer.getUpdatesLoop] at h
  | .contextDone e :: rest, _, _, _ =>
    ⟨_, List.mem_cons_self _ _, by simp [GrpcUpdatesEvent.Terminal]⟩
  | .updateChannelClosed :: rest, _, _, _ =>
    ⟨_, List.mem_cons_self _ _, by simp [GrpcUpdatesEvent.Terminal]⟩
  | .update u sendErr :: rest, written, r, h => by
    by_cases hu : u.Error ≠ ""
    · exact ⟨_, List.mem_cons_self _ _, Or.inl hu⟩
    · cases sendErr with
      | some err => exact ⟨_, List.mem_cons_self _ _, Or.inr (by simp)⟩
      | none =>
        have hu' : u.Error = "" := by simpa using hu
        simp only [grpcServer.getUpdatesLoop, hu', ne_eq, not_true_eq_false, if_false] at h
        obtain ⟨ev, hev, hterm⟩ :=
          grpc_getUpdatesLoop_returns_on_terminal rest (written ++ [u]) r h
        exact ⟨ev, List.mem_cons_of_mem _ hev, hterm⟩

/-- C20: the SRPC handler of the fleet manager, given a request with `MaxUpdates = n ≥ 1` and
events that deliver updates with an empty `Error` field (and flushes between them), at least `n`
updates in all, writes exactly the first `n` updates and returns nil; with `MaxUpdates = 0` it
writes every update and does not return, however many there are. The gRPC handler passes
`MaxUpdates = 0` to `MakeUpdateChannel`, and when it returns one of its events is a
cancellation, a closed channel, an update carrying an error or a send failure. -/
theorem C20_bounded_and_unbounded_updates :
    (∀ (conn : srpc.Conn) (request : fleetmanager.GetUpdatesRequest) (ch : UpdateChannel)
        (events : List FleetSrpcEvent),
      1 ≤ request.MaxUpdates → request.MaxUpdates < 18446744073709551616 →
      (∀ ev ∈ events, ev.Delivers) →
      request.MaxUpdates ≤ (receivedUpdates events).length →
      (srpcType.GetUpdates conn (.ok request) ch events).result = some none ∧
      (srpcType.GetUpdates conn (.ok request) ch events).written
        = (receivedUpdates events).take request.MaxUpdates ∧
      (srpcType.GetUpdates conn (.ok request) ch events).written.length
        = request.MaxUpdates) ∧
    (∀ (conn : srpc.Conn) (request : fleetmanager.GetUpdatesRequest) (ch : UpdateChannel)
        (events : List FleetSrpcEvent),
      request.MaxUpdates = 0 → (∀ ev ∈ events, ev.Delivers) →
      (srpcType.GetUpdates conn (.ok request) ch events).result = none ∧
      (srpcType.GetUpdates conn (.ok request) ch events).written = receivedUpdates events) ∧
    (∀ (req : fleetmanager_grpc.GetUpdatesRequest) (ch : UpdateChannel)
        (events : List (GrpcUpdatesEvent fleetmanager.Update)),
      (grpcServer.GetUpdates req ch events).calls.head?
        = some (ManagerCall.MakeUpdateChannel
            (some { IgnoreMissingLocalTags := req.IgnoreMissingLocalTags,
                    Location := req.Location, MaxUpdates := 0 }) ch) ∧
      (∀ r, (grpcServer.GetUpdates req ch events).result = some r →
        ∃ ev ∈ events, ev.Terminal)) := by
  refine ⟨?_, ?_, ?_⟩
  · intro conn request ch events h1 h64 hdel hlen
    obtain ⟨hres, hwr⟩ := getUpdatesLoop_bounded conn request.MaxUpdates h1 h64 events 0 0 [] 0
      (Nat.zero_le _) hdel (by simpa using hlen)
    simp only [Nat.sub_zero, List.nil_append] at hwr
    refine ⟨hres, hwr, ?_⟩
    show (srpcType.getUpdatesLoop conn request.MaxUpdates events 0 0 [] 0).written.length = _
    rw [hwr, List.length_take]
    omega
  · intro conn request ch events h0 hdel
    obtain ⟨hres, hwr⟩ := getUpdatesLoop_unbounded conn events 0 0 [] 0 hdel
    simp only [List.nil_append] at hwr
    constructor
    · show (srpcType.getUpdatesLoop conn request.MaxUpdates events 0 0 [] 0).result = none
      rw [h0]; exact hres
    · show (srpcType.getUpdatesLoop conn request.MaxUpdates events 0 0 [] 0).written = _
      rw [h0]; exact hwr
  · intro req ch events
    exact ⟨rfl, fun r hr => grpc_getUpdatesLoop_returns_on_terminal events [] r hr⟩

/-- C20 at a request with `MaxUpdates = 2` and three delivered updates (a flush between them):
the handler writes the first two and returns nil; with `MaxUpdates = 0` it writes all three and
is still waiting. -/
theorem C20_bounded_and_unbounded_updates_witness :
    (srpcType.GetUpdates exampleSrpcConn
        (.ok { IgnoreMissingLocalTags := false, Location := "", MaxUpdates := 2 }) 7
        [.update { DeletedMachines := some ["m1"], DeletedVMs := none, Error := "" } none,
         .flushTimer none,
         .update { DeletedMachines := some ["m2"], DeletedVMs := none, Error := "" } none,
         .update { DeletedMachines := some ["m3"], DeletedVMs := none, Error := "" } none]).result
      = some none ∧
    (srpcType.GetUpdates exampleSrpcConn
        (.ok { IgnoreMissingLocalTags := false, Location := "", MaxUpdates := 2 }) 7
        [.update { DeletedMachines := some ["m1"], DeletedVMs := none, Error := "" } none,
         .flushTimer none,
         .update { DeletedMachines := some ["m2"], DeletedVMs := none, Error := "" } none,
         .update { DeletedMachines := some ["m3"], DeletedVMs := none, Error := "" } none]).written
      = [{ DeletedMachines := some ["m1"], DeletedVMs := none, Error := "" },
         { DeletedMachines := some ["m2"], DeletedVMs := none, Error := "" }] ∧
    (srpcType.GetUpdates exampleSrpcConn
        (.ok { IgnoreMissingLocalTags := false, Location := "", MaxUpdates := 0 }) 7
        [.update { DeletedMachines := some ["m1"], DeletedVMs := none, Error := "" } none,
         .flushTimer none,
         .update { DeletedMachines := some ["m2"], DeletedVMs := none, Error := "" } none,
         .update { DeletedMachines := some ["m3"], DeletedVMs := none, Error := "" } none]).result
      = none :=
  ⟨(C20_bounded_and_unbounded_updates.1 exampleSrpcConn
      { IgnoreMissingLocalTags := false, Location := "", MaxUpdates := 2 } 7 _ (by decide)
      (by decide) (by simp [FleetSrpcEvent.Delivers]) (by decide)).1,
    (C20_bounded_and_unbounded_updates.1 exampleSrpcConn
      { IgnoreMissingLocalTags := false, Location := "", MaxUpdates := 2 } 7 _ (by decide)
      (by decide) (by simp [FleetSrpcEvent.Delivers]) (by decide)).2.1,
    (C20_bounded_and_unbounded_updates.2.1 exampleSrpcConn
      { IgnoreMissingLocalTags := false, Location := "", MaxUpdates := 0 } 7 _ rfl
      (by simp [FleetSrpcEvent.Delivers])).1⟩



/-! ## Theorems: logging of `DestroyVm` -/

/-- C21: for both `DestroyVm` handlers, every request and every collaborator outcome, when the
caller has an identity the handler returns, it calls the collaborator once, and the log it
leaves holds exactly a start entry and then an outcome entry: "finished" when the collaborator
returns nil, "failed" with the error when it returns one. Both entries hold the username of the
identity and the IP address of the request. -/
theorem C21_destroy_logs_start_and_outcome
    (DestroyVm : IP × Option AuthInformation × List UInt8 → Option GoError)
    (authInfo : AuthInformation) :
    (∀ (conn : srpc.Conn) (request : hypervisor.DestroyVmRequest),
      conn.GetAuthInformation = some authInfo →
      ∃ start outcome reply,
        (hypervisorRpcd.srpcType.DestroyVm DestroyVm conn request).log = [start, outcome] ∧
        (hypervisorRpcd.srpcType.DestroyVm DestroyVm conn request).outcome
          = .returned reply none ∧
        (hypervisorRpcd.srpcType.DestroyVm DestroyVm conn request).calls
          = [(request.IpAddress, some authInfo, request.AccessToken)] ∧
        start.format = "DestroyVm(%s) starting, IP=%s\n" ∧
        start.Names authInfo.Username request.IpAddress ∧
        outcome.Names authInfo.Username request.IpAddress ∧
        (DestroyVm (request.IpAddress, some authInfo, request.AccessToken) = none →
          outcome.format = "DestroyVm(%s) finished, IP=%s\n") ∧
        (∀ err, DestroyVm (request.IpAddress, some authInfo, request.AccessToken) = some err →
          outcome.format = "DestroyVm(%s) failed, IP=%s, error: %s\n" ∧
          LogArg.err err ∈ outcome.args)) ∧
    (∀ (ctx : Context) (req : hypervisor_grpc.DestroyVmRequest),
      Conn.GetAuthInformation (GetConn ctx) = some authInfo →
      ∃ start outcome resp err,
        (hypervisorRpcd.grpcServer.DestroyVm DestroyVm ctx req).log = [start, outcome] ∧
        (hypervisorRpcd.grpcServer.DestroyVm DestroyVm ctx req).result = .returned resp err ∧
        (hypervisorRpcd.grpcServer.DestroyVm DestroyVm ctx req).calls
          = [(req.IpAddress, some authInfo, req.AccessToken)] ∧
        start.format = "DestroyVm(%s) starting, IP=%s\n" ∧
        start.Names authInfo.Username req.IpAddress ∧
        outcome.Names authInfo.Username req.IpAddress ∧
        (DestroyVm (req.IpAddress, some authInfo, req.AccessToken) = none →
          outcome.format = "DestroyVm(%s) finished, IP=%s\n") ∧
        (∀ e, DestroyVm (req.IpAddress, some authInfo, req.AccessToken) = some e →
          outcome.format = "DestroyVm(%s) failed, IP=%s, error: %s\n" ∧
          LogArg.err e ∈ outcome.args)) := by
  constructor
  · intro conn request hauth
    unfold hypervisorRpcd.srpcType.DestroyVm
    simp only [hauth]
    cases h : DestroyVm (request.IpAddress, some authInfo, request.AccessToken) with
    | none =>
      exact ⟨_, _, _, rfl, rfl, rfl, rfl, by simp [LogEntry.Names], by simp [LogEntry.Names],
        fun _ => rfl, fun err herr => by simp at herr⟩
    | some e =>
      refine ⟨_, _, _, rfl, rfl, rfl, rfl, by simp [LogEntry.Names], by simp [LogEntry.Names],
        fun hnone => by simp at hnone, fun err herr => ?_⟩
      have he : e = err := by simpa using herr
      subst he
      exact ⟨rfl, by simp⟩
  · intro ctx req hauth
    unfold hypervisorRpcd.grpcServer.DestroyVm
    simp only [hauth]
    cases h : DestroyVm (req.IpAddress, some authInfo, req.AccessToken) with
    | none =>
      exact ⟨_, _, _, _, rfl, rfl, rfl, rfl, by simp [LogEntry.Names],
        by simp [LogEntry.Names], fun _ => rfl, fun err herr => by simp at herr⟩
    | some e =>
      refine ⟨_, _, _, _, rfl, rfl, rfl, rfl, by simp [LogEntry.Names],
        by simp [LogEntry.Names], fun hnone => by simp at hnone, fun err herr => ?_⟩
      have he : e = err := by simpa using herr
      subst he
      exact ⟨rfl, by simp⟩

/-- C21 for the user `alice` and the address `10.0.0.1`, with a collaborator that reports the
VM as not found: on both transports the log is the start entry followed by the "failed" entry,
each naming `alice` and the address. -/
theorem C21_destroy_logs_start_and_outcome_witness :
    (∃ start outcome,
      (hypervisorRpcd.srpcType.DestroyVm destroyVmNotFound authenticatedSrpcConn
          { AccessToken := [], IpAddress := [10, 0, 0, 1] }).log = [start, outcome] ∧
      start.Names "alice" [10, 0, 0, 1] ∧ outcome.Names "alice" [10, 0, 0, 1] ∧
      outcome.format = "DestroyVm(%s) failed, IP=%s, error: %s\n") ∧
    (∃ start outcome,
      (hypervisorRpcd.grpcServer.DestroyVm destroyVmNotFound authenticatedContext
          { IpAddress := [10, 0, 0, 1], AccessToken := [] }).log = [start, outcome] ∧
      start.Names "alice" [10, 0, 0, 1] ∧ outcome.Names "alice" [10, 0, 0, 1] ∧
      outcome.format = "DestroyVm(%s) failed, IP=%s, error: %s\n") := by
  constructor
  · obtain ⟨start, outcome, _, hlog, _, _, _, hs, ho, _, hfail⟩ :=
      (C21_destroy_logs_start_and_outcome destroyVmNotFound exampleAuthInfo).1
        authenticatedSrpcConn { AccessToken := [], IpAddress := [10, 0, 0, 1] } rfl
    exact ⟨start, outcome, hlog, hs, ho, (hfail _ rfl).1⟩
  · obtain ⟨start, outcome, _, _, hlog, _, _, _, hs, ho, _, hfail⟩ :=
      (C21_destroy_logs_start_and_outcome destroyVmNotFound exampleAuthInfo).2
        authenticatedContext { IpAddress := [10, 0, 0, 1], AccessToken := [] } rfl
    exact ⟨start, outcome, hlog, hs, ho, (hfail _ rfl).1⟩

/-! ## Theorems: following the page tokens -/

/-- One call of the handler at the offset `s < n`, given as the empty token (`s = 0`) or as the
decimal text of `s`, with a page size `p ≥ 1`: the page is `ipAddrs[s : min(s+p, n)]` and the
next-page token is the decimal text of `s+p` when `s+p < n`, and empty otherwise. -/
theorem ListVMsInLocation_page (ipAddrs : List IP) (p s : Nat) (tok : String)
    (hlen : ipAddrs.length < maxSliceLen) (hp : 1 ≤ p) (hp32 : (p : Int) ≤ MaxInt32)
    (hs : s < ipAddrs.length)
    (htok : tok = sprintfInt (s : Int) ∨ (tok = "" ∧ s = 0)) :
    grpcServer.ListVMsInLocation ipAddrs none { PageSize := (p : Int), PageToken := tok }
      = HandlerResult.returned
          (some { IpAddresses := (ipAddrs.take (min (s + p) ipAddrs.length)).drop s,
                  NextPageToken :=
                    if s + p < ipAddrs.length then sprintfInt ((s + p : Nat) : Int) else "" })
          none := by
  have hpage := pageFrom_positive ipAddrs p s tok hlen hp hp32 (Nat.le_of_lt hs)
  rcases htok with htok | ⟨htok, hs0⟩
  · have hscan : sscanfInt tok = some (s : Int) := by
      rw [htok]
      unfold maxSliceLen at hlen
      exact sscanfInt_sprintfInt _ (by unfold MinInt; omega) (by unfold MaxInt; omega)
    have hne : tok ≠ "" := by rw [htok]; exact sprintfInt_ne_empty _
    have hin : ¬ ((s : Int) ≥ (ipAddrs.length : Int)) := by omega
    unfold grpcServer.ListVMsInLocation
    simp only [hne, ne_eq, not_false_eq_true, if_true, hscan, hin, if_false]
    exact hpage
  · subst hs0
    unfold grpcServer.ListVMsInLocation
    simp only [htok, ne_eq, not_true_eq_false, if_false]
    rw [htok] at hpage
    exact hpage

/-- Following the tokens from the offset `s < n` with fuel for `n - s` calls: the pages
collected are non-empty, of length at most `p`, their concatenation is `ipAddrs[s:]` and there
are `ceil((n - s) / p)` of them. -/
theorem followTokens_from (ipAddrs : List IP) (p : Nat)
    (hlen : ipAddrs.length < maxSliceLen) (hp : 1 ≤ p) (hp32 : (p : Int) ≤ MaxInt32) :
    ∀ (fuel s : Nat) (tok : String), s < ipAddrs.length → ipAddrs.length - s ≤ fuel →
      (tok = sprintfInt (s : Int) ∨ (tok = "" ∧ s = 0)) →
      ∃ pages, followTokens ipAddrs (p : Int) fuel tok = some pages ∧
        pages.flatten = ipAddrs.drop s ∧
        pages.length = (ipAddrs.length - s + p - 1) / p ∧
        (∀ page ∈ pages, page.length ≤ p ∧ page ≠ []) := by
  intro fuel
  induction fuel with
  | zero =>
    intro s tok hs hfuel
    omega
  | succ fuel ih =>
    intro s tok hs hfuel htok
    have hpage := ListVMsInLocation_page ipAddrs p s tok hlen hp hp32 hs htok
    have hcount : (ipAddrs.length - s + p - 1) / p = (ipAddrs.length - s - 1) / p + 1 := by
      have h1 : ipAddrs.length - s + p - 1 = (ipAddrs.length - s - 1) + p := by omega
      rw [h1, Nat.add_div_right _ (by omega)]
    have hpagelen : ((ipAddrs.take (min (s + p) ipAddrs.length)).drop s).length ≤ p ∧
        (ipAddrs.take (min (s + p) ipAddrs.length)).drop s ≠ [] := by
      have hl : ((ipAddrs.take (min (s + p) ipAddrs.length)).drop s).length
          = min (s + p) ipAddrs.length - s := by
        rw [List.length_drop, List.length_take]
        omega
      refine ⟨by omega, ?_⟩
      intro hnil
      rw [hnil] at hl
      simp only [List.length_nil] at hl
      omega
    unfold followTokens
    rw [hpage]
    by_cases hmore : s + p < ipAddrs.length
    · have hne : sprintfInt ((s + p : Nat) : Int) ≠ "" := sprintfInt_ne_empty _
      simp only [hmore, if_true, hne, if_false]
      obtain ⟨pages, hrun, hjoin, hlen', hpages⟩ :=
        ih (s + p) (sprintfInt ((s + p : Nat) : Int)) hmore (by omega) (Or.inl rfl)
      refine ⟨_ :: pages, by rw [hrun]; rfl, ?_, ?_, ?_⟩
      · rw [List.flatten_cons, hjoin]
        have hmin : min (s + p) ipAddrs.length = s + p := by omega
        rw [hmin]
        have hsplit : ipAddrs.drop s
            = ((ipAddrs.take (s + p)) ++ ipAddrs.drop (s + p)).drop s := by
          rw [List.take_append_drop]
        rw [hsplit, List.drop_append_of_le_length]
        rw [List.length_take]
        omega
      · rw [List.length_cons, hlen', hcount]
        have h2 : ipAddrs.length - (s + p) + p - 1 = ipAddrs.length - s - 1 := by omega
        rw [h2]
      · intro page hmem
        rcases List.mem_cons.1 hmem with h | h
        · rw [h]; exact hpagelen
        · exact hpages page h
    · simp only [hmore, if_false, if_true]
      refine ⟨[_], rfl, ?_, ?_, ?_⟩
      · have hmin : min (s + p) ipAddrs.length = ipAddrs.length := by omega
        rw [hmin, List.take_length]
        simp
      · rw [hcount, Nat.div_eq_of_lt (by omega)]
        rfl
      · intro page hmem
        rw [List.mem_singleton.1 hmem]
        exact hpagelen

/-- C22: for every result list of length `n` and every page size `p ≥ 1`, calling the handler
with the empty token and then with each returned next-page token ends (any fuel above `n`
suffices) at a response with the empty token, after `max(1, ceil(n/p))` pages, each of length
at most `p` and non-empty when `n > 0`, whose concatenation is the result list. The decimal
token of every offset below `n` decodes to that offset. -/
theorem C22_tokens_resume (ipAddrs : List IP) (p : Nat)
    (hlen : ipAddrs.length < maxSliceLen) (hp : 1 ≤ p) (hp32 : (p : Int) ≤ MaxInt32) :
    (∀ s : Nat, s < ipAddrs.length → sscanfInt (sprintfInt (s : Int)) = some (s : Int)) ∧
    ∀ fuel, ipAddrs.length + 1 ≤ fuel →
      ∃ pages, followTokens ipAddrs (p : Int) fuel "" = some pages ∧
        pages.length = max 1 ((ipAddrs.length + p - 1) / p) ∧
        pages.flatten = ipAddrs ∧
        (∀ page ∈ pages, page.length ≤ p) ∧
        (0 < ipAddrs.length → ∀ page ∈ pages, page ≠ []) := by
  constructor
  · intro s hs
    unfold maxSliceLen at hlen
    exact sscanfInt_sprintfInt _ (by unfold MinInt; omega) (by unfold MaxInt; omega)
  · intro fuel hfuel
    by_cases hn : 0 < ipAddrs.length
    · obtain ⟨pages, hrun, hjoin, hcount, hpages⟩ :=
        followTokens_from ipAddrs p hlen hp hp32 fuel 0 "" hn (by omega) (Or.inr ⟨rfl, rfl⟩)
      refine ⟨pages, hrun, ?_, by simpa using hjoin, fun page h => (hpages page h).1,
        fun _ page h => (hpages page h).2⟩
      rw [hcount]
      have h1 : ipAddrs.length - 0 + p - 1 = (ipAddrs.length - 1) + p := by omega
      have h2 : ipAddrs.length + p - 1 = (ipAddrs.length - 1) + p := by omega
      rw [h1, h2, Nat.add_div_right _ (by omega)]
      exact (max_eq_right (Nat.succ_le_succ (Nat.zero_le _))).symm
    · have hnil : ipAddrs = [] := List.length_eq_zero.1 (by omega)
      subst hnil
      obtain ⟨fuel, rfl⟩ : ∃ f, fuel = f + 1 := ⟨fuel - 1, by omega⟩
      have hpage := pageFrom_positive [] p 0 "" hlen hp hp32 (Nat.le_refl _)
      have hcall : grpcServer.ListVMsInLocation [] none { PageSize := (p : Int), PageToken := "" }
          = HandlerResult.returned (some { IpAddresses := [], NextPageToken := "" }) none := by
        unfold grpcServer.ListVMsInLocation
        simp only [ne_eq, not_true_eq_false, if_false]
        exact hpage.trans (by simp)
      unfold followTokens
      rw [hcall]
      refine ⟨[[]], rfl, ?_, rfl, ?_, fun h => absurd h hn⟩
      · simp only [List.length_nil, Nat.zero_add, List.length_singleton]
        rw [Nat.div_eq_of_lt (by omega)]
        rfl
      · intro page hmem
        rw [List.mem_singleton.1 hmem]
        simp

/-- C22 on `[A, B, C, D, E]` with page size 2: following the tokens from the empty token gives
the three pages `[A, B]`, `[C, D]`, `[E]`. -/
theorem C22_tokens_resume_witness :
    followTokens [ipA, ipB, ipC, ipD, ipE] 2 6 ""
      = some [[ipA, ipB], [ipC, ipD], [ipE]] ∧
    ∃ pages, followTokens [ipA, ipB, ipC, ipD, ipE] 2 6 "" = some pages ∧
      pages.length = 3 ∧ pages.flatten = [ipA, ipB, ipC, ipD, ipE] := by
  obtain ⟨pages, hrun, hcount, hjoin, _, _⟩ :=
    (C22_tokens_resume [ipA, ipB, ipC, ipD, ipE] 2 (by decide) (by decide) (by decide)).2 6
      (by decide)
  exact ⟨by decide, pages, hrun, hcount.trans (by decide), hjoin⟩

/-! ## Theorems: tag conversion and network entries -/

/-- C23: `TagsFromProto (TagsToProto t) = t` for every tags value and
`MatchTagsFromProto (MatchTagsToProto mt) = mt` for every match-tags value; nil converts to nil
and an empty non-nil map to an empty non-nil map, in both directions. -/
theorem C23_tag_conversion_round_trip :
    (∀ t : tags.Tags, TagsFromProto (TagsToProto t) = t) ∧
    (∀ mt : tags.MatchTags, MatchTagsFromProto (MatchTagsToProto mt) = mt) ∧
    (TagsToProto none = none ∧ TagsFromProto none = none ∧
      TagsFromProto (some { Tags := none }) = none) ∧
    (TagsToProto (some []) = some { Tags := some [] } ∧
      TagsFromProto (some { Tags := some [] }) = some []) ∧
    (MatchTagsToProto none = none ∧ MatchTagsFromProto none = none ∧
      MatchTagsFromProto (some { MatchTags := none }) = none) ∧
    (MatchTagsToProto (some []) = some { MatchTags := some [] } ∧
      MatchTagsFromProto (some { MatchTags := some [] }) = some []) := by
  refine ⟨?_, ?_, ⟨rfl, rfl, rfl⟩, ⟨rfl, rfl⟩, ⟨rfl, rfl, rfl⟩, ⟨rfl, rfl⟩⟩
  · intro t
    cases t <;> rfl
  · intro mt
    cases mt with
    | none => rfl
    | some entries =>
      simp only [MatchTagsToProto, MatchTagsFromProto, Option.some.injEq]
      induction entries with
      | nil => rfl
      | cons kv rest ih => simp [List.filterMap_cons, ih]

/-- C24: the converter returns a request and no error; the `VmInfo.NetworkEntries` of that
request is nil when the proto request has no network entries (a nil or an empty list), and
otherwise has the length of the proto list, every element being the zero-valued
`NetworkEntry`, whatever the proto entries hold. -/
theorem C24_network_entries_discarded {NE : Type}
    (req : hypervisor_grpc.CreateVmAsyncRequest NE) :
    (createVmAsyncRequestFromProto req).2 = none ∧
    ∃ request, (createVmAsyncRequestFromProto req).1 = some request ∧
      (req.NetworkEntries.getD [] = [] → request.VmInfo.NetworkEntries = none) ∧
      (∀ entries, req.NetworkEntries = some entries → entries ≠ [] →
        request.VmInfo.NetworkEntries
          = some (List.replicate entries.length hypervisor.NetworkEntry.zero)) := by
  refine ⟨rfl, _, rfl, ?_, ?_⟩
  · intro h
    show convertNonEmpty networkEntryFromProto req.NetworkEntries = none
    cases hne : req.NetworkEntries with
    | none => rfl
    | some entries =>
      rw [hne] at h
      have : entries = [] := by simpa using h
      subst this
      rfl
  · intro entries hne hnonempty
    show convertNonEmpty networkEntryFromProto req.NetworkEntries = _
    rw [hne]
    cases entries with
    | nil => exact absurd rfl hnonempty
    | cons e es =>
      have hall : ∀ l : List (Option NE),
          l.map networkEntryFromProto = List.replicate l.length hypervisor.NetworkEntry.zero := by
        intro l
        induction l with
        | nil => rfl
        | cons x xs ih =>
          cases x <;> simp [networkEntryFromProto, List.replicate_succ, ih]
      simp only [convertNonEmpty]
      rw [hall]

/-- C24 on a request with the entries `("eth0", 4)`, nil and `("eth1", 2)`: the converted
request holds three zero-valued entries; on the request of the test, which has no entry, it
holds nil. -/
theorem C24_network_entries_discarded_witness :
    (∃ request, (createVmAsyncRequestFromProto exampleNetworkRequest).1 = some request ∧
      request.VmInfo.NetworkEntries
        = some [hypervisor.NetworkEntry.zero, hypervisor.NetworkEntry.zero,
                hypervisor.NetworkEntry.zero]) ∧
    (∃ request, (createVmAsyncRequestFromProto testCreateVmAsyncRequest).1 = some request ∧
      request.VmInfo.NetworkEntries = none) := by
  constructor
  · obtain ⟨_, request, hreq, _, hsome⟩ := C24_network_entries_discarded exampleNetworkRequest
    exact ⟨request, hreq, hsome _ rfl (by decide)⟩
  · obtain ⟨_, request, hreq, hnone, _⟩ :=
      C24_network_entries_discarded testCreateVmAsyncRequest
    exact ⟨request, hreq, hnone rfl⟩

/-! ## Theorems: slice bounds of `ListVMsInLocation` -/

/-- C26 fails at negative offsets: for every result list and every page size, a page token
that decodes to a negative integer makes the start index negative, the slice expression
`ipAddrs[startIdx:endIdx]` is out of range and the handler panics. -/
theorem C26_negative_offset_panics (ipAddrs : List IP) (pageSize : Int) (tok : String)
    (offset : Int) (hscan : sscanfInt tok = some offset) (hneg : offset < 0) :
    grpcServer.ListVMsInLocation ipAddrs none { PageSize := pageSize, PageToken := tok }
      = HandlerResult.panicked := by
  have hne : tok ≠ "" := by
    intro h
    have hempty : sscanfInt "" = none := by decide
    rw [h, hempty] at hscan
    exact absurd hscan (by simp)
  have hin : ¬ (offset ≥ (ipAddrs.length : Int)) := by omega
  have hlow : ¬ (0 ≤ offset) := by omega
  unfold grpcServer.ListVMsInLocation
  simp only [hne, ne_eq, not_false_eq_true, if_true, hscan, hin, if_false]
  unfold pageFrom sliceExpr
  simp only [hlow, false_and, if_false]

/-- C26 fails on `[A, B, C, D, E]` with page size 2 and the token `"-1"`: the token decodes to
-1 and the handler panics. -/
theorem C26_negative_offset_panics_witness :
    sscanfInt "-1" = some (-1) ∧
    grpcServer.ListVMsInLocation [ipA, ipB, ipC, ipD, ipE] none
        { PageSize := 2, PageToken := "-1" }
      = HandlerResult.panicked :=
  ⟨by decide,
   C26_negative_offset_panics [ipA, ipB, ipC, ipD, ipE] 2 "-1" (-1) (by decide) (by decide)⟩

/-! ## Theorems: the handler `CreateVmAsync` -/

/-- C27 fails in its last clause. For every proto request the converter returns a request
whose `ImageDataSize` and `UserDataSize` are 0 and whose `SecondaryVolumesData` is false, so
`validateNoStreamingFields` returns nil on it, and the handler `CreateVmAsync` never makes a
"validation failed" log entry, in any context. But the request reaches the collaborator only
when the caller has an identity: then the handler calls the collaborator once, with the
converted request; in a context whose identity is nil (no `Conn` stored) the handler panics at
its first log call and never calls the collaborator. -/
theorem C27_collaborator_reached_only_with_identity {NE : Type}
    (req : hypervisor_grpc.CreateVmAsyncRequest NE) :
    ∃ request, createVmAsyncRequestFromProto req = (some request, none) ∧
      request.ImageDataSize = 0 ∧ request.UserDataSize = 0 ∧
      request.SecondaryVolumesData = false ∧
      validateNoStreamingFields request = none ∧
      ∀ (VI : Type)
        (CreateVmAsync : hypervisor.CreateVmRequest × Option AuthInformation →
          Option hypervisor.VmInfo × Option GoError)
        (vmInfoToProto : Option hypervisor.VmInfo → Option VI)
        (ctx : Context),
        (∀ entry ∈
            (hypervisorRpcd.grpcServer.CreateVmAsync CreateVmAsync vmInfoToProto ctx req).log,
          entry.format ≠ "CreateVmAsync(%s) validation failed: %s\n") ∧
        (∀ authInfo : AuthInformation,
          Conn.GetAuthInformation (GetConn ctx) = some authInfo →
          (hypervisorRpcd.grpcServer.CreateVmAsync CreateVmAsync vmInfoToProto ctx req).calls
            = [(request, some authInfo)]) ∧
        (Conn.GetAuthInformation (GetConn ctx) = none →
          (hypervisorRpcd.grpcServer.CreateVmAsync CreateVmAsync vmInfoToProto ctx req).calls
            = [] ∧
          (hypervisorRpcd.grpcServer.CreateVmAsync CreateVmAsync vmInfoToProto ctx req).result
            = HandlerResult.panicked) := by
  refine ⟨_, rfl, rfl, rfl, rfl, rfl, ?_⟩
  intro VI CreateVmAsync vmInfoToProto ctx
  cases hauth : Conn.GetAuthInformation (GetConn ctx) with
  | none =>
    refine ⟨?_, fun authInfo h => by simp at h, fun _ => ?_⟩
    · unfold hypervisorRpcd.grpcServer.CreateVmAsync
      simp only [hauth]
      intro entry hentry
      simp at hentry
    · unfold hypervisorRpcd.grpcServer.CreateVmAsync
      simp only [hauth, and_self]
  | some authInfo =>
    have hrun :
        (hypervisorRpcd.grpcServer.CreateVmAsync CreateVmAsync vmInfoToProto ctx req).calls
          = [((createVmAsyncRequestFromProto req).1.getD testCreateVmRequest, some authInfo)] ∧
        ∀ entry ∈
            (hypervisorRpcd.grpcServer.CreateVmAsync CreateVmAsync vmInfoToProto ctx req).log,
          entry.format ≠ "CreateVmAsync(%s) validation failed: %s\n" := by
      unfold hypervisorRpcd.grpcServer.CreateVmAsync
      simp only [hauth, createVmAsyncRequestFromProto, validateNoStreamingFields, gt_iff_lt,
        lt_self_iff_false, if_false, Bool.false_eq_true]
      split
      · exact ⟨rfl, by simp⟩
      · exact ⟨rfl, by simp⟩
      · exact ⟨rfl, by simp⟩
    refine ⟨hrun.2, fun authInfo' h => ?_, fun h => by simp at h⟩
    have he : authInfo = authInfo' := by simpa using h
    subst he
    exact hrun.1

/-- C27 on the request of `TestCreateVmAsyncRequestFromProto` and a collaborator that fails:
for the user `alice` the handler calls the collaborator once, with a request on which the
validation returns nil; in a context with no `Conn` stored it panics and the collaborator is
never called. -/
theorem C27_collaborator_reached_only_with_identity_witness :
    ∃ request,
      validateNoStreamingFields request = none ∧
      (hypervisorRpcd.grpcServer.CreateVmAsync createVmAsyncFails
          (fun v : Option hypervisor.VmInfo => v) authenticatedContext
          testCreateVmAsyncRequest).calls = [(request, some exampleAuthInfo)] ∧
      (hypervisorRpcd.grpcServer.CreateVmAsync createVmAsyncFails
          (fun v : Option hypervisor.VmInfo => v) exampleContext
          testCreateVmAsyncRequest).calls = [] ∧
      (hypervisorRpcd.grpcServer.CreateVmAsync createVmAsyncFails
          (fun v : Option hypervisor.VmInfo => v) exampleContext
          testCreateVmAsyncRequest).result = HandlerResult.panicked := by
  obtain ⟨request, _, _, _, _, hval, hrun⟩ :=
    C27_collaborator_reached_only_with_identity testCreateVmAsyncRequest
  exact ⟨request, hval,
    (hrun _ createVmAsyncFails (fun v => v) authenticatedContext).2.1 exampleAuthInfo rfl,
    ((hrun _ createVmAsyncFails (fun v => v) exampleContext).2.2 rfl).1,
    ((hrun _ createVmAsyncFails (fun v => v) exampleContext).2.2 rfl).2⟩

/-! ## Theorems: a nil identity -/

/-- C30 fails: in every context in which no `Conn` was stored, `GetConn` returns nil,
`GetAuthInformation` on it returns nil, and each of the gRPC handlers `DestroyVm`,
`DestroyVmAsync` and `CreateVmAsync` panics when it reads `authInfo.Username` for its first log
entry, before it calls the collaborator, for every request. -/
theorem C30_nil_identity_panics (peer : Option Peer) :
    Conn.GetAuthInformation (GetConn { peer := peer, connValue := none }) = none ∧
    (∀ (DestroyVm : IP × Option AuthInformation × List UInt8 → Option GoError)
        (req : hypervisor_grpc.DestroyVmRequest),
      (hypervisorRpcd.grpcServer.DestroyVm DestroyVm
          { peer := peer, connValue := none } req).result = HandlerResult.panicked ∧
      (hypervisorRpcd.grpcServer.DestroyVm DestroyVm
          { peer := peer, connValue := none } req).calls = []) ∧
    (∀ (VI : Type)
        (DestroyVmAsync : IP × Option AuthInformation × List UInt8 →
          Option hypervisor.VmInfo × Option GoError)
        (vmInfoToProto : Option hypervisor.VmInfo → Option VI)
        (req : hypervisor_grpc.DestroyVmRequest),
      (hypervisorRpcd.grpcServer.DestroyVmAsync DestroyVmAsync vmInfoToProto
          { peer := peer, connValue := none } req).result = HandlerResult.panicked ∧
      (hypervisorRpcd.grpcServer.DestroyVmAsync DestroyVmAsync vmInfoToProto
          { peer := peer, connValue := none } req).calls = []) ∧
    (∀ (NE VI : Type)
        (CreateVmAsync : hypervisor.CreateVmRequest × Option AuthInformation →
          Option hypervisor.VmInfo × Option GoError)
        (vmInfoToProto : Option hypervisor.VmInfo → Option VI)
        (req : hypervisor_grpc.CreateVmAsyncRequest NE),
      (hypervisorRpcd.grpcServer.CreateVmAsync CreateVmAsync vmInfoToProto
          { peer := peer, connValue := none } req).result = HandlerResult.panicked ∧
      (hypervisorRpcd.grpcServer.CreateVmAsync CreateVmAsync vmInfoToProto
          { peer := peer, connValue := none } req).calls = []) :=
  ⟨rfl, fun _ _ => ⟨rfl, rfl⟩, fun _ _ _ _ => ⟨rfl, rfl⟩, fun _ _ _ _ _ => ⟨rfl, rfl⟩⟩

/-! ## Theorems: the interceptors and the permitted methods -/

/-- C29: take two calls whose identity extraction succeeds with the same identity, whatever
their method names and permitted-method sets. Each interceptor invokes the handler once, with
the context that holds the extracted `Conn`, and returns what the handler returns; and for a
handler that reads only the caller's identity, the two calls return the same. -/
theorem C29_interceptors_ignore_method_and_permissions {α ρ σ : Type}
    (authCall permCall authCall' permCall' : ConnectionState → GetAuthResult)
    (ctx ctx' : Context) (conn conn' : Option Conn)
    (hconn : extractConn authCall permCall ctx = (conn, none))
    (hconn' : extractConn authCall' permCall' ctx' = (conn', none))
    (hid : Conn.GetAuthInformation conn = Conn.GetAuthInformation conn')
    (info info' : ServerInfo) :
    (∀ (req : α) (handler : Context → α → Option ρ × Option RpcError),
      (UnaryAuthInterceptor authCall permCall ctx req info handler).handlerCalls
        = [(ctx.WithConn conn, req)] ∧
      (UnaryAuthInterceptor authCall permCall ctx req info handler).resp
        = (handler (ctx.WithConn conn) req).1 ∧
      (UnaryAuthInterceptor authCall permCall ctx req info handler).err
        = (handler (ctx.WithConn conn) req).2 ∧
      (UnaryAuthInterceptor authCall' permCall' ctx' req info' handler).handlerCalls
        = [(ctx'.WithConn conn', req)] ∧
      (UnaryAuthInterceptor authCall' permCall' ctx' req info' handler).resp
        = (handler (ctx'.WithConn conn') req).1 ∧
      (UnaryAuthInterceptor authCall' permCall' ctx' req info' handler).err
        = (handler (ctx'.WithConn conn') req).2) ∧
    (∀ (req : α) (g : Option AuthInformation → α → Option ρ × Option RpcError),
      (UnaryAuthInterceptor authCall permCall ctx req info
          (fun c r => g (Conn.GetAuthInformation (GetConn c)) r)).resp
        = (UnaryAuthInterceptor authCall' permCall' ctx' req info'
            (fun c r => g (Conn.GetAuthInformation (GetConn c)) r)).resp ∧
      (UnaryAuthInterceptor authCall permCall ctx req info
          (fun c r => g (Conn.GetAuthInformation (GetConn c)) r)).err
        = (UnaryAuthInterceptor authCall' permCall' ctx' req info'
            (fun c r => g (Conn.GetAuthInformation (GetConn c)) r)).err) ∧
    (∀ (srv : σ) (handler : σ → ServerStream → Option RpcError),
      (StreamAuthInterceptor authCall permCall srv { ctx := ctx } info handler).handlerCalls
        = [(srv, { ctx := ctx.WithConn conn })] ∧
      (StreamAuthInterceptor authCall permCall srv { ctx := ctx } info handler).err
        = handler srv { ctx := ctx.WithConn conn } ∧
      (StreamAuthInterceptor authCall' permCall' srv { ctx := ctx' } info' handler).handlerCalls
        = [(srv, { ctx := ctx'.WithConn conn' })] ∧
      (StreamAuthInterceptor authCall' permCall' srv { ctx := ctx' } info' handler).err
        = handler srv { ctx := ctx'.WithConn conn' }) ∧
    (∀ (srv : σ) (g : Option AuthInformation → σ → Option RpcError),
      (StreamAuthInterceptor authCall permCall srv { ctx := ctx } info
          (fun s ss => g (Conn.GetAuthInformation (GetConn ss.ctx)) s)).err
        = (StreamAuthInterceptor authCall' permCall' srv { ctx := ctx' } info'
            (fun s ss => g (Conn.GetAuthInformation (GetConn ss.ctx)) s)).err) := by
  refine ⟨?_, ?_, ?_, ?_⟩
  · intro req handler
    unfold UnaryAuthInterceptor
    simp only [hconn, hconn', and_self]
  · intro req g
    unfold UnaryAuthInterceptor
    simp only [hconn, hconn', GetConn, Context.WithConn, hid, and_self]
  · intro srv handler
    unfold StreamAuthInterceptor
    simp only [hconn, hconn', and_self]
  · intro srv g
    unfold StreamAuthInterceptor
    simp only [hconn, hconn', GetConn, Context.WithConn, hid]

/-- C29 for the user `alice`: a call of the method `StopVm` with a certificate that permits
`Hypervisor.StopVm`, and a call of the method `DestroyVm` with a certificate that permits no
method. The second call is not rejected: the handler is invoked once, and both calls return
the same response. -/
theorem C29_interceptors_ignore_method_and_permissions_witness :
    Conn.GetPermittedMethods (extractConn getAuth getAuth noMethodsContext).1 = some [] ∧
    (UnaryAuthInterceptor getAuth getAuth noMethodsContext ()
        { FullMethod := "/hypervisor.Hypervisor/DestroyVm" } whoAmI).handlerCalls.length = 1 ∧
    (UnaryAuthInterceptor getAuth getAuth exampleContext ()
        { FullMethod := "/hypervisor.Hypervisor/StopVm" } whoAmI).resp
      = (UnaryAuthInterceptor getAuth getAuth noMethodsContext ()
          { FullMethod := "/hypervisor.Hypervisor/DestroyVm" } whoAmI).resp ∧
    (UnaryAuthInterceptor getAuth getAuth noMethodsContext ()
        { FullMethod := "/hypervisor.Hypervisor/DestroyVm" } whoAmI).resp = some "alice" := by
  have h := C29_interceptors_ignore_method_and_permissions (α := Unit) (ρ := String) (σ := Unit)
    getAuth getAuth getAuth getAuth exampleContext noMethodsContext _ _ rfl rfl rfl
    { FullMethod := "/hypervisor.Hypervisor/StopVm" }
    { FullMethod := "/hypervisor.Hypervisor/DestroyVm" }
  refine ⟨rfl, ?_, ?_, rfl⟩
  · rw [(h.1 () whoAmI).2.2.2.1]
    rfl
  · exact (h.2.1 () (fun a _ => (a.map (fun authInfo => authInfo.Username), none))).1

/-! ## Theorems: the two `ListVMs` handlers -/

/-- On a 16-byte address `To4` gives the last four bytes when the first twelve are the IPv4
prefix, and nil when they are not. -/
theorem To4_of_length_16 (ip : List UInt8) (hlen : ip.length = 16) :
    (ip.take 12 = v4InV6Prefix → To4 (some ip) = some (ip.drop 12)) ∧
    (ip.take 12 ≠ v4InV6Prefix → To4 (some ip) = none) := by
  rcases ip with _ | ⟨a0, _ | ⟨a1, _ | ⟨a2, _ | ⟨a3, _ | ⟨a4, _ | ⟨a5, _ | ⟨a6, _ | ⟨a7,
    _ | ⟨a8, _ | ⟨a9, _ | ⟨a10, _ | ⟨a11, _ | ⟨a12, _ | ⟨a13, _ | ⟨a14, _ | ⟨a15, _ | ⟨a16, r⟩⟩⟩⟩⟩⟩⟩⟩⟩⟩⟩⟩⟩⟩⟩⟩⟩ <;>
    simp at hlen
  constructor
  · intro h
    simp [v4InV6Prefix, List.take] at h
    obtain ⟨h0, h1, h2, h3, h4, h5, h6, h7, h8, h9, h10, h11⟩ := h
    subst h0 h1 h2 h3 h4 h5 h6 h7 h8 h9 h10 h11
    rfl
  · intro h
    simp only [To4, Option.getD_some, List.length_cons, List.length_nil, isZeros]
    rw [if_neg (by decide), if_neg]
    intro hc
    apply h
    simp [List.take] at hc
    obtain ⟨⟨h0, h1, h2, h3, h4, h5, h6, h7, h8, h9⟩, h10, h11⟩ := hc
    subst h0 h1 h2 h3 h4 h5 h6 h7 h8 h9 h10 h11
    rfl

/-- C25: when the collaborator returns the same address strings to both `ListVMs` handlers,
the SRPC reply and the gRPC response hold the same list of addresses, one per string and in the
order of the strings; an unparsable string gives a nil address, a parsed address whose 16-byte
form has the IPv4 prefix gives its last 4 bytes, and any other parsed address stays in its
16-byte form. `net.ParseIP` returns nil or a 16-byte address. -/
theorem C25_listVMs_handlers_agree (ParseIP : String → Option (List UInt8))
    (hparse : ∀ s ip, ParseIP s = some ip → ip.length = 16)
    (ListVMs : hypervisor.ListVMsRequest → List String)
    (conn : srpc.Conn) (request : hypervisor.ListVMsRequest)
    (ctx : Context) (req : hypervisor_grpc.ListVMsRequest)
    (hsame : ListVMs (listVMsRequestFromProto req) = ListVMs request) :
    (hypervisorRpcd.srpcType.ListVMs ParseIP ListVMs conn request).err = none ∧
    ∃ resp,
      (hypervisorRpcd.grpcServer.ListVMs ParseIP ListVMs ctx req).result
        = HandlerResult.returned (some resp) none ∧
      resp.IpAddresses = (hypervisorRpcd.srpcType.ListVMs ParseIP ListVMs conn request).reply.IpAddresses ∧
      resp.IpAddresses.length = (ListVMs request).length ∧
      ∀ (i : Nat) (s : String), (ListVMs request)[i]? = some s →
        (ParseIP s = none → resp.IpAddresses[i]? = some none) ∧
        (∀ ip, ParseIP s = some ip → ip.take 12 = v4InV6Prefix →
          resp.IpAddresses[i]? = some (some (ip.drop 12)) ∧ (ip.drop 12).length = 4) ∧
        (∀ ip, ParseIP s = some ip → ip.take 12 ≠ v4InV6Prefix →
          resp.IpAddresses[i]? = some (some ip) ∧ ip.length = 16) := by
  refine ⟨rfl, _, rfl, ?_, ?_, ?_⟩
  · show (ListVMs (listVMsRequestFromProto req)).map _ = (ListVMs request).map _
    rw [hsame]
  · show ((ListVMs (listVMsRequestFromProto req)).map _).length = _
    rw [hsame, List.length_map]
  · intro i s hs
    have helem : ((ListVMs (listVMsRequestFromProto req)).map (parseAndShrink ParseIP))[i]?
        = some (parseAndShrink ParseIP s) := by
      rw [hsame, List.getElem?_map, hs]
      rfl
    refine ⟨?_, ?_, ?_⟩
    · intro hnone
      show ((ListVMs (listVMsRequestFromProto req)).map (parseAndShrink ParseIP))[i]? = _
      rw [helem]
      simp [parseAndShrink, hnone, To4]
    · intro ip hip hprefix
      have hlen := hparse s ip hip
      refine ⟨?_, by simp [hlen]⟩
      show ((ListVMs (listVMsRequestFromProto req)).map (parseAndShrink ParseIP))[i]? = _
      rw [helem]
      simp only [parseAndShrink, hip, (To4_of_length_16 ip hlen).1 hprefix]
    · intro ip hip hprefix
      have hlen := hparse s ip hip
      refine ⟨?_, hlen⟩
      show ((ListVMs (listVMsRequestFromProto req)).map (parseAndShrink ParseIP))[i]? = _
      rw [helem]
      simp only [parseAndShrink, hip, (To4_of_length_16 ip hlen).2 hprefix]

/-- C25 for the strings `10.0.0.1`, `::1` and `bogus`: both handlers give the 4 bytes of the
IPv4 address, the 16 bytes of the IPv6 address and a nil address, in that order. -/
theorem C25_listVMs_handlers_agree_witness :
    (hypervisorRpcd.srpcType.ListVMs exampleParseIP exampleListVMs authenticatedSrpcConn
        { IgnoreStateMask := 0, OwnerGroups := none, OwnerUsers := none, SortList := false,
          VmTagsToMatch := none }).reply.IpAddresses
      = [some [10, 0, 0, 1], some [0, 0, 0, 0, 0, 0, 0, 0, 0, 0, 0, 0, 0, 0, 0, 1], none] ∧
    ∃ resp,
      (hypervisorRpcd.grpcServer.ListVMs exampleParseIP exampleListVMs authenticatedContext
          { IgnoreStateMask := 0, OwnerGroups := none, OwnerUsers := none, SortList := false,
            VmTagsToMatch := none }).result
        = HandlerResult.returned (some resp) none ∧
      resp.IpAddresses
        = [some [10, 0, 0, 1], some [0, 0, 0, 0, 0, 0, 0, 0, 0, 0, 0, 0, 0, 0, 0, 1], none] := by
  have hparse : ∀ s ip, exampleParseIP s = some ip → ip.length = 16 := by
    intro s ip h
    unfold exampleParseIP at h
    split at h
    · cases h; rfl
    · split at h
      · cases h; rfl
      · cases h
  obtain ⟨_, resp, hres, heq, _, _⟩ :=
    C25_listVMs_handlers_agree exampleParseIP hparse exampleListVMs authenticatedSrpcConn
      { IgnoreStateMask := 0, OwnerGroups := none, OwnerUsers := none, SortList := false,
        VmTagsToMatch := none }
      authenticatedContext
      { IgnoreStateMask := 0, OwnerGroups := none, OwnerUsers := none, SortList := false,
        VmTagsToMatch := none } rfl
  have hsrpc : (hypervisorRpcd.srpcType.ListVMs exampleParseIP exampleListVMs
      authenticatedSrpcConn
      { IgnoreStateMask := 0, OwnerGroups := none, OwnerUsers := none, SortList := false,
        VmTagsToMatch := none }).reply.IpAddresses
      = [some [10, 0, 0, 1], some [0, 0, 0, 0, 0, 0, 0, 0, 0, 0, 0, 0, 0, 0, 0, 1], none] := by
    decide
  exact ⟨hsrpc, resp, hres, heq.trans hsrpc⟩

/-! ## Theorems: the typed path and the phrase fallback -/

theorem stringsToLower_append (a b : String) :
    (stringsToLower (a ++ b)).data = (stringsToLower a).data ++ (stringsToLower b).data := by
  simp [stringsToLower, String.data_append]

/-- A message that matches a mapping still matches it with text added after it. -/
theorem PatternMapping.Matches_append_left (m : PatternMapping) (msg rest : String)
    (h : m.Matches msg) : m.Matches (msg ++ rest) := by
  obtain ⟨p, hp, hinfix⟩ := h
  refine ⟨p, hp, ?_⟩
  rw [stringsToLower_append]
  exact hinfix.trans (List.prefix_append _ _).isInfix

/-- A message that matches a mapping still matches it with text added before it. -/
theorem PatternMapping.Matches_append_right (m : PatternMapping) (pre msg : String)
    (h : m.Matches msg) : m.Matches (pre ++ msg) := by
  obtain ⟨p, hp, hinfix⟩ := h
  refine ⟨p, hp, ?_⟩
  rw [stringsToLower_append]
  exact hinfix.trans (List.suffix_append _ _).isInfix

/-- The rendered text of a typed error of a kind other than `DeadlineExceeded` holds a phrase
of its own kind: `patternMappings` splits into the mappings before that of the kind, a mapping
with the code of the kind that the text matches, and the mappings after it. -/
theorem TypedError.Error_matches_own_kind (t : TypedError)
    (hkind : t.GRPCCode ≠ Code.DeadlineExceeded) :
    ∃ m later, patternMappings = mappingsBefore t.GRPCCode ++ m :: later ∧
      m.code = t.GRPCCode ∧ m.Matches t.Error := by
  cases t with
  | notFound e =>
    refine ⟨{ patterns := ["not found", "does not exist", "no such", "unknown"],
              code := Code.NotFound }, patternMappings.drop 1,
      by show patternMappings = mappingsBefore Code.NotFound ++ _ :: _; decide, rfl, ?_⟩
    have hbase : PatternMapping.Matches
        { patterns := ["not found", "does not exist", "no such", "unknown"],
          code := Code.NotFound } " not found" :=
      ⟨"not found", by decide, [' '], [], by decide⟩
    show PatternMapping.Matches _ (NotFoundError.Error e)
    unfold NotFoundError.Error
    split
    · exact PatternMapping.Matches_append_right _ _ _ hbase
    · exact PatternMapping.Matches_append_right _ _ _ hbase
  | permissionDenied e =>
    refine ⟨{ patterns := ["permission denied", "access denied", "forbidden"],
              code := Code.PermissionDenied }, patternMappings.drop 2,
      by show patternMappings = mappingsBefore Code.PermissionDenied ++ _ :: _; decide, rfl, ?_⟩
    have hbase : PatternMapping.Matches
        { patterns := ["permission denied", "access denied", "forbidden"],
          code := Code.PermissionDenied } "permission denied: " :=
      ⟨"permission denied", by decide, [], [':', ' '], by decide⟩
    show PatternMapping.Matches _ (PermissionDeniedError.Error e)
    unfold PermissionDeniedError.Error
    split
    · exact PatternMapping.Matches_append_left _ _ _
        (PatternMapping.Matches_append_left _ _ _
          (PatternMapping.Matches_append_left _ _ _
            (PatternMapping.Matches_append_left _ _ _
              (PatternMapping.Matches_append_left _ _ _ hbase))))
    · exact PatternMapping.Matches_append_left _ _ _
        (PatternMapping.Matches_append_left _ _ _
          (PatternMapping.Matches_append_left _ _ _ hbase))
  | unauthenticated e =>
    refine ⟨{ patterns := ["unauthenticated", "not authenticated", "authentication required"],
              code := Code.Unauthenticated }, patternMappings.drop 3,
      by show patternMappings = mappingsBefore Code.Unauthenticated ++ _ :: _; decide, rfl, ?_⟩
    have hbase : PatternMapping.Matches
        { patterns := ["unauthenticated", "not authenticated", "authentication required"],
          code := Code.Unauthenticated } "unauthenticated" :=
      ⟨"unauthenticated", by decide, [], [], by decide⟩
    have hbase2 : PatternMapping.Matches
        { patterns := ["unauthenticated", "not authenticated", "authentication required"],
          code := Code.Unauthenticated } "unauthenticated: " :=
      ⟨"unauthenticated", by decide, [], [':', ' '], by decide⟩
    show PatternMapping.Matches _ (UnauthenticatedError.Error e)
    unfold UnauthenticatedError.Error
    split
    · exact PatternMapping.Matches_append_left _ _ _ hbase2
    · exact hbase
  | alreadyExists e =>
    refine ⟨{ patterns := ["already exists", "duplicate", "conflict"],
              code := Code.AlreadyExists }, patternMappings.drop 4,
      by show patternMappings = mappingsBefore Code.AlreadyExists ++ _ :: _; decide, rfl, ?_⟩
    have hbase : PatternMapping.Matches
        { patterns := ["already exists", "duplicate", "conflict"],
          code := Code.AlreadyExists } " already exists" :=
      ⟨"already exists", by decide, [' '], [], by decide⟩
    show PatternMapping.Matches _ (AlreadyExistsError.Error e)
    unfold AlreadyExistsError.Error
    split
    · exact PatternMapping.Matches_append_right _ _ _ hbase
    · exact PatternMapping.Matches_append_right _ _ _ hbase
  | invalidArgument e =>
    refine ⟨{ patterns := ["invalid", "malformed", "bad request", "illegal"],
              code := Code.InvalidArgument }, patternMappings.drop 5,
      by show patternMappings = mappingsBefore Code.InvalidArgument ++ _ :: _; decide, rfl, ?_⟩
    have hbase : PatternMapping.Matches
        { patterns := ["invalid", "malformed", "bad request", "illegal"],
          code := Code.InvalidArgument } "invalid argument " :=
      ⟨"invalid", by decide, [], " argument ".data, by decide⟩
    have hbase2 : PatternMapping.Matches
        { patterns := ["invalid", "malformed", "bad request", "illegal"],
          code := Code.InvalidArgument } "invalid argument: " :=
      ⟨"invalid", by decide, [], " argument: ".data, by decide⟩
    show PatternMapping.Matches _ (InvalidArgumentError.Error e)
    unfold InvalidArgumentError.Error
    split
    · exact PatternMapping.Matches_append_left _ _ _
        (PatternMapping.Matches_append_left _ _ _
          (PatternMapping.Matches_append_left _ _ _ hbase))
    · exact PatternMapping.Matches_append_left _ _ _ hbase2
  | unavailable e =>
    refine ⟨{ patterns := ["unavailable", "service down", "connection refused"],
              code := Code.Unavailable }, patternMappings.drop 6,
      by show patternMappings = mappingsBefore Code.Unavailable ++ _ :: _; decide, rfl, ?_⟩
    have hbase : PatternMapping.Matches
        { patterns := ["unavailable", "service down", "connection refused"],
          code := Code.Unavailable } " unavailable" :=
      ⟨"unavailable", by decide, [' '], [], by decide⟩
    have hbase2 : PatternMapping.Matches
        { patterns := ["unavailable", "service down", "connection refused"],
          code := Code.Unavailable } " unavailable: " :=
      ⟨"unavailable", by decide, [' '], [':', ' '], by decide⟩
    show PatternMapping.Matches _ (UnavailableError.Error e)
    unfold UnavailableError.Error
    split
    · exact PatternMapping.Matches_append_left _ _ _
        (PatternMapping.Matches_append_right _ _ _ hbase2)
    · exact PatternMapping.Matches_append_right _ _ _ hbase
  | deadlineExceeded e => exact absurd rfl hkind

/-- C28 fails for two typed errors whose fields hold none of the listed phrases. The text of
`DeadlineExceededError{"GetMachineInfo", "30s"}` is `GetMachineInfo exceeded deadline of 30s`,
which holds no deadline phrase: the typed error gets `DeadlineExceeded`, the untyped error with
the same text gets `Internal`. The text of `AlreadyExistsError{"no", "such"}` is
`no such already exists`, in which the not-found phrase `no such` spans the two fields: the
typed error gets `AlreadyExists`, the untyped error with the same text gets `NotFound`. -/
theorem C28_flattened_text_counterexample :
    ErrorToStatus (some (.coded (.typed (.deadlineExceeded
        { Operation := "GetMachineInfo", Timeout := "30s" }))))
      = some { code := Code.DeadlineExceeded,
               message := "GetMachineInfo exceeded deadline of 30s" } ∧
    ErrorToStatus (some (.errorString (TypedError.Error (.deadlineExceeded
        { Operation := "GetMachineInfo", Timeout := "30s" }))))
      = some { code := Code.Internal, message := "GetMachineInfo exceeded deadline of 30s" } ∧
    (∀ m ∈ patternMappings, containsAny "GetMachineInfo" m.patterns = false ∧
      containsAny "30s" m.patterns = false) ∧
    ErrorToStatus (some (.coded (.typed (.alreadyExists { Resource := "no", ID := "such" }))))
      = some { code := Code.AlreadyExists, message := "no such already exists" } ∧
    ErrorToStatus (some (.errorString (TypedError.Error (.alreadyExists
        { Resource := "no", ID := "such" }))))
      = some { code := Code.NotFound, message := "no such already exists" } ∧
    (∀ m ∈ patternMappings, containsAny "no" m.patterns = false ∧
      containsAny "such" m.patterns = false) := by
  decide

/-- C28, amended: for every typed error of one of the six kinds other than `DeadlineExceeded`
whose rendered text matches no mapping tested before that of its own kind, the typed error and
the untyped error carrying the same text get the same status: the fixed code of the kind, with
the rendered text as message. A not-found error needs no condition, its kind being tested
first. -/
theorem C28_typed_and_flattened_agree (t : TypedError)
    (hkind : t.GRPCCode ≠ Code.DeadlineExceeded)
    (hearlier : ∀ m ∈ mappingsBefore t.GRPCCode, ¬ m.Matches t.Error) :
    ErrorToStatus (some (.coded (.typed t)))
      = some { code := t.GRPCCode, message := t.Error } ∧
    ErrorToStatus (some (.errorString t.Error))
      = some { code := t.GRPCCode, message := t.Error } ∧
    mappingsBefore Code.NotFound = [] := by
  refine ⟨?_, ?_, by decide⟩
  · rw [ErrorToStatus_of_first_coded (.coded (.typed t)) (.typed t) [] rfl]
    exact statusError_of_ne_OK t.GRPCCode_ne_OK _
  · obtain ⟨m, later, hsplit, hcode, hm⟩ := t.Error_matches_own_kind hkind
    rw [ErrorToStatus_of_untyped (.errorString t.Error) rfl, hsplit]
    have hmsg : (GoError.errorString t.Error).Error = t.Error := by simp [GoError.Error]
    rw [hmsg, matchPatterns_of_first_match _ _ m later hearlier hm, hcode]
    exact statusError_of_ne_OK t.GRPCCode_ne_OK _

/-- C28, amended, for `NewAlreadyExistsError("VM", "10.0.0.1")` and for
`NewNotFoundError("machine", "host1")`: the typed error and the untyped error with its text get
the same status. -/
theorem C28_typed_and_flattened_agree_witness :
    ErrorToStatus (some (.errorString "VM 10.0.0.1 already exists"))
      = some { code := Code.AlreadyExists, message := "VM 10.0.0.1 already exists" } ∧
    ErrorToStatus (some (.coded (.typed (.alreadyExists { Resource := "VM", ID := "10.0.0.1" }))))
      = some { code := Code.AlreadyExists, message := "VM 10.0.0.1 already exists" } ∧
    ErrorToStatus (some (.errorString "machine host1 not found"))
      = some { code := Code.NotFound, message := "machine host1 not found" } :=
  ⟨(C28_typed_and_flattened_agree (.alreadyExists { Resource := "VM", ID := "10.0.0.1" })
      (by decide)
      (fun m hm hmatch =>
        absurd ((containsAny_iff _ m).2 hmatch)
          ((by decide : ∀ m' ∈ mappingsBefore Code.AlreadyExists,
            containsAny "VM 10.0.0.1 already exists" m'.patterns ≠ true) m hm))).2.1,
   (C28_typed_and_flattened_agree (.alreadyExists { Resource := "VM", ID := "10.0.0.1" })
      (by decide)
      (fun m hm hmatch =>
        absurd ((containsAny_iff _ m).2 hmatch)
          ((by decide : ∀ m' ∈ mappingsBefore Code.AlreadyExists,
            containsAny "VM 10.0.0.1 already exists" m'.patterns ≠ true) m hm))).1,
   (C28_typed_and_flattened_agree (.notFound { Resource := "machine", ID := "host1" })
      (by decide)
      (fun m hm =>
        ((by decide : ∀ m' ∈ mappingsBefore Code.NotFound, False) m hm).elim)).2.1⟩

end Dominator
